import Mathlib

/-!
ReliefNet (src/App.js): coordination handlers over a document store.

A shallow embedding of the event handlers of `src/App.js`.  The React state of a page is a
structure, the Firestore database is a structure of collections, and every handler is a function
from (context, environment, page state, world) to (page state, world).  Each `await` of the
source is modelled as running to completion before the handler continues.
-/

namespace ReliefNet

/-! ## Values and documents -/

/-- The JavaScript values stored in documents: `null`, `undefined`, strings, numbers (passed
through unchanged by the handlers; only the comparator of the broadcast sort computes on
them), `Date` instants in milliseconds since the epoch and arrays of strings. -/
inductive Val where
  | null
  | undefined
  | str (s : String)
  | num (n : Int)
  | date (t : Nat)
  | strs (xs : List String)
  deriving DecidableEq, Repr

/-- A schemaless document / object literal: fields in insertion order. -/
abbrev Doc := List (String × Val)

/-- Property read `d.k`; an absent property reads as `undefined`. -/
def getField (d : Doc) (k : String) : Val :=
  match d with
  | [] => Val.undefined
  | (k0, v0) :: rest => if k0 = k then v0 else getField rest k

/-- Property write `d.k = v`: overwrite in place when present, append otherwise. -/
def setField (d : Doc) (k : String) (v : Val) : Doc :=
  match d with
  | [] => [(k, v)]
  | (k0, v0) :: rest => if k0 = k then (k0, v) :: rest else (k0, v0) :: setField rest k v

/-- Field-group update / object spread: write the fields of `fields` into `d`, left to right. -/
def mergeFields (d : Doc) (fields : Doc) : Doc :=
  fields.foldl (fun acc kv => setField acc kv.1 kv.2) d

/-- A nullable string (`userId`) as a stored value. -/
def optStr : Option String → Val
  | none => Val.null
  | some s => Val.str s

/-- A nullable number (`latitude`, `longitude`) as a stored value. -/
def optNum : Option Int → Val
  | none => Val.null
  | some n => Val.num n

/-- JavaScript truthiness of a nullable string: `null` and the empty string are falsy. -/
def truthy : Option String → Bool
  | none => false
  | some s => s != ""

/-! ## The document store -/

/-- A collection: documents keyed by their store-assigned id. -/
abbrev Collection := List (String × Doc)

/-- The four collections under `artifacts/<appId>/public/data/`. -/
structure Firestore where
  reports : Collection
  resourceRequests : Collection
  volunteerTasks : Collection
  broadcasts : Collection
  deriving DecidableEq, Repr

/-- The calls a handler makes to its external collaborators, in order. -/
inductive Effect where
  | geocode (address : String)
  | addDoc (coll : String) (fields : Doc)
  | updateDoc (coll : String) (id : String) (fields : Doc)
  deriving DecidableEq, Repr

/-- The shared world a handler acts on: the store and the log of collaborator calls. -/
structure World where
  store : Firestore
  trace : List Effect
  deriving DecidableEq, Repr

/-- The body of a geocoding response: `data.status` and the `geometry.location` (lat, lng) of
each entry of `data.results`. -/
structure GeoData where
  status : String
  results : List (Int × Int)
  deriving DecidableEq, Repr

/-- What the outside world answers during one handler run. -/
structure Env where
  /-- The geocoding service; `none` when `fetch` or `response.json()` throws. -/
  geocode : String → Option GeoData
  /-- The instant `new Date()` returns. -/
  now : Nat
  /-- The id the store assigns to a document added in this run. -/
  newId : String
  /-- The store rejects writes with this error message; `none` when writes succeed. -/
  writeError : Option String

/-- Firestore `addDoc`: append a document under a store-assigned id, or throw. -/
def addDoc (env : Env) (c : Collection) (fields : Doc) : Except String Collection :=
  match env.writeError with
  | some msg => Except.error msg
  | none => Except.ok (c ++ [(env.newId, fields)])

/-- Whether the collection holds a document with this id. -/
def hasDoc (c : Collection) (id : String) : Bool :=
  c.any (fun e => e.1 == id)

/-- The stored fields of the document with this id. -/
def findDoc (c : Collection) (id : String) : Option Doc :=
  match c with
  | [] => none
  | (i, d) :: rest => if i = id then some d else findDoc rest id

/-- Firestore `updateDoc`: merge the given fields into the document with this id; throws when
the store rejects the write or when no such document exists. -/
def updateDoc (env : Env) (c : Collection) (id : String) (fields : Doc) :
    Except String Collection :=
  match env.writeError with
  | some msg => Except.error msg
  | none =>
    if hasDoc c id then
      Except.ok (c.map (fun e => if e.1 = id then (e.1, mergeFields e.2 fields) else e))
    else Except.error "No document to update"

/-- The value of `useFirebase()` that the handlers read: whether the `db` handle is non-null,
the actor identifier (`null` before sign-in) and the selected role. -/
structure FirebaseContext where
  db : Bool
  userId : Option String
  userRole : String
  deriving DecidableEq, Repr

/-! ## Geocoding -/

/-- The object `getCoordinatesFromLocation` resolves to; `status` is absent on success and on
an empty location. -/
structure GeoResult where
  latitude : Option Int
  longitude : Option Int
  status : Option String
  deriving DecidableEq, Repr

/-- `getCoordinatesFromLocation(location)`; `none` is an `undefined` argument. -/
def getCoordinatesFromLocation (env : Env) (location : Option String) (w : World) :
    GeoResult × World :=
  if !truthy location then
    ({ latitude := none, longitude := none, status := none }, w)
  else
    let address := location.getD ""
    let w1 : World := { w with trace := w.trace ++ [Effect.geocode address] }
    match env.geocode address with
    | some data =>
      if data.status == "OK" && decide (data.results.length > 0) then
        match data.results with
        | (lat, lng) :: _ => ({ latitude := some lat, longitude := some lng, status := none }, w1)
        | [] => ({ latitude := none, longitude := none, status := some "NETWORK_ERROR" }, w1)
      else
        ({ latitude := none, longitude := none, status := some data.status }, w1)
    | none => ({ latitude := none, longitude := none, status := some "NETWORK_ERROR" }, w1)

/-! ## ReportSystemPage -/

/-- The `useState` cells of `ReportSystemPage`. -/
structure ReportSystemPage where
  reportType : String
  details : String
  location : String
  isSubmitting : Bool
  message : String
  manualLat : Option Int
  manualLng : Option Int
  deriving DecidableEq, Repr

/-- The `try / catch / finally` block of `handleSubmitReport`: one `addDoc` on `reports`. -/
def submitReportDoc (ctx : FirebaseContext) (env : Env) (st : ReportSystemPage) (w : World)
    (latitudeToSave longitudeToSave : Option Int) (locationToSave : String) :
    ReportSystemPage × World :=
  let fields : Doc :=
    [("userId", optStr ctx.userId), ("reportType", Val.str st.reportType),
     ("details", Val.str st.details), ("location", Val.str locationToSave),
     ("latitude", optNum latitudeToSave), ("longitude", optNum longitudeToSave),
     ("timestamp", Val.date env.now), ("status", Val.str "pending")]
  let tr := w.trace ++ [Effect.addDoc "reports" fields]
  match addDoc env w.store.reports fields with
  | Except.ok c =>
    ({ st with message := "Report submitted successfully! Thank you.", details := "",
               location := "", manualLat := none, manualLng := none, isSubmitting := false },
     { store := { w.store with reports := c }, trace := tr })
  | Except.error msg =>
    ({ st with message := "Failed to submit report: " ++ msg, isSubmitting := false },
     { w with trace := tr })

/-- `handleSubmitReport(e)`. -/
def handleSubmitReport (ctx : FirebaseContext) (env : Env) (st0 : ReportSystemPage)
    (w : World) : ReportSystemPage × World :=
  if !ctx.db || !truthy ctx.userId then
    ({ st0 with message := "Error: Firebase not initialized or user not logged in." }, w)
  else
    let st := { st0 with isSubmitting := true, message := "" }
    if st.manualLat == none || st.manualLng == none then
      if !truthy (some st.location) then
        ({ st with message := "Please enter a location or use your current location.",
                   isSubmitting := false }, w)
      else
        let r := getCoordinatesFromLocation env (some st.location) w
        let geoResult := r.1
        if geoResult.latitude == none || geoResult.longitude == none then
          let errorText := "Could not determine coordinates for the provided location."
          let errorText :=
            if geoResult.status == some "ZERO_RESULTS" then
              errorText ++ " Try being more general (e.g., \"Secunderabad\" instead of a specific building name) or check for typos."
            else if geoResult.status == some "OVER_QUERY_LIMIT" then
              errorText ++ " API query limit exceeded. Please try again later or check your Google Maps API key settings."
            else if geoResult.status == some "REQUEST_DENIED" then
              errorText ++ " Geocoding API access denied. Check your API key and project settings."
            else errorText
          ({ st with message := "Error: " ++ errorText, isSubmitting := false }, r.2)
        else
          submitReportDoc ctx env st r.2 geoResult.latitude geoResult.longitude st.location
    else
      submitReportDoc ctx env st w st.manualLat st.manualLng st.location

/-! ## ResourceRequestsPage -/

/-- The `useState` cells of `ResourceRequestsPage`; `requests` holds the entities of the last
snapshot. -/
structure ResourceRequestsPage where
  requestType : String
  description : String
  location : String
  isSubmitting : Bool
  message : String
  requests : List Doc
  searchTerm : String
  filterStatus : String
  filterType : String
  deriving DecidableEq, Repr

/-- `handleSubmitRequest(e)`. -/
def handleSubmitRequest (ctx : FirebaseContext) (env : Env) (st0 : ResourceRequestsPage)
    (w : World) : ResourceRequestsPage × World :=
  if !ctx.db || !truthy ctx.userId then
    ({ st0 with message := "Error: Firebase not initialized or user not logged in." }, w)
  else
    let st := { st0 with isSubmitting := true, message := "" }
    if truthy (some st.location) then
      let r := getCoordinatesFromLocation env (some st.location) w
      let geoResult := r.1
      if geoResult.latitude == none || geoResult.longitude == none then
        let errorText := "Could not determine coordinates for the provided location."
        let errorText :=
          if geoResult.status == some "ZERO_RESULTS" then
            errorText ++ " Try being more general (e.g., \"Secunderabad\" instead of a specific building name) or check for typos."
          else if geoResult.status == some "OVER_QUERY_LIMIT" then
            errorText ++ " API query limit exceeded. Please try again later or check your Google Maps API key settings."
          else if geoResult.status == some "REQUEST_DENIED" then
            errorText ++ " Geocoding API access denied. Check your API key and project settings."
          else errorText
        ({ st with message := "Error: " ++ errorText, isSubmitting := false }, r.2)
      else
        let fields : Doc :=
          [("userId", optStr ctx.userId), ("requestType", Val.str st.requestType),
           ("description", Val.str st.description), ("location", Val.str st.location),
           ("latitude", optNum geoResult.latitude), ("longitude", optNum geoResult.longitude),
           ("timestamp", Val.date env.now), ("status", Val.str "pending")]
        let tr := r.2.trace ++ [Effect.addDoc "resourceRequests" fields]
        match addDoc env r.2.store.resourceRequests fields with
        | Except.ok c =>
          ({ st with message := "Resource request submitted successfully!", description := "",
                     location := "", isSubmitting := false },
           { store := { r.2.store with resourceRequests := c }, trace := tr })
        | Except.error msg =>
          ({ st with message := "Failed to submit request: " ++ msg, isSubmitting := false },
           { r.2 with trace := tr })
    else
      ({ st with message := "Please enter a location for the resource request.",
                 isSubmitting := false }, w)

/-- `handleMarkAsFulfilled(requestId)`. -/
def handleMarkAsFulfilled (ctx : FirebaseContext) (env : Env) (st : ResourceRequestsPage)
    (w : World) (requestId : String) : ResourceRequestsPage × World :=
  if !ctx.db then (st, w)
  else
    let fields : Doc :=
      [("status", Val.str "fulfilled"), ("fulfilledBy", optStr ctx.userId),
       ("fulfilledAt", Val.date env.now)]
    let tr := w.trace ++ [Effect.updateDoc "resourceRequests" requestId fields]
    match updateDoc env w.store.resourceRequests requestId fields with
    | Except.ok c =>
      ({ st with message := "Request marked as fulfilled." },
       { store := { w.store with resourceRequests := c }, trace := tr })
    | Except.error msg =>
      ({ st with message := "Failed to mark as fulfilled: " ++ msg }, { w with trace := tr })

/-- The render condition of the "Mark as Fulfilled" button of a listed request:
`request.userId !== userId && request.status === 'pending'`. -/
def showMarkAsFulfilled (ctx : FirebaseContext) (request : Doc) : Bool :=
  getField request "userId" != optStr ctx.userId && getField request "status" == Val.str "pending"

/-! ## RealTimeUpdatesPage -/

/-- The `useState` cells of `RealTimeUpdatesPage`. -/
structure RealTimeUpdatesPage where
  title : String
  message : String
  isSubmitting : Bool
  feedbackMessage : String
  broadcasts : List Doc
  deriving DecidableEq, Repr

/-- `handleSubmitBroadcast(e)`. -/
def handleSubmitBroadcast (ctx : FirebaseContext) (env : Env) (st0 : RealTimeUpdatesPage)
    (w : World) : RealTimeUpdatesPage × World :=
  if !ctx.db || !truthy ctx.userId then
    ({ st0 with feedbackMessage := "Error: Firebase not initialized or user not logged in." }, w)
  else if ctx.userRole != "admin" && ctx.userRole != "ngo" then
    ({ st0 with feedbackMessage := "Error: Only Admins and NGOs can send broadcasts." }, w)
  else
    let st := { st0 with isSubmitting := true, feedbackMessage := "" }
    let fields : Doc :=
      [("userId", optStr ctx.userId), ("userRole", Val.str ctx.userRole),
       ("title", Val.str st.title), ("message", Val.str st.message),
       ("timestamp", Val.date env.now)]
    let tr := w.trace ++ [Effect.addDoc "broadcasts" fields]
    match addDoc env w.store.broadcasts fields with
    | Except.ok c =>
      ({ st with feedbackMessage := "Broadcast sent successfully!", title := "", message := "",
                 isSubmitting := false },
       { store := { w.store with broadcasts := c }, trace := tr })
    | Except.error msg =>
      ({ st with feedbackMessage := "Failed to send broadcast: " ++ msg, isSubmitting := false },
       { w with trace := tr })

/-! ## VolunteerCoordinationPage -/

/-- `s.split(sep)` on the characters of a string, for a one-character separator. -/
def splitChars (sep : Char) : List Char → List (List Char)
  | [] => [[]]
  | c :: cs =>
    if c = sep then [] :: splitChars sep cs
    else
      match splitChars sep cs with
      | [] => [[c]]
      | tok :: toks => (c :: tok) :: toks

/-- The characters `String.prototype.trim` strips: ECMAScript WhiteSpace and LineTerminator. -/
def isJsWhitespace (c : Char) : Bool :=
  let n := c.toNat
  n == 9 || n == 10 || n == 11 || n == 12 || n == 13 || n == 32 || n == 160 || n == 5760 ||
  (decide (8192 ≤ n) && decide (n ≤ 8202)) || n == 8232 || n == 8233 || n == 8239 ||
  n == 8287 || n == 12288 || n == 65279

/-- `s.trim()` on the characters of a string. -/
def trimChars (cs : List Char) : List Char :=
  ((cs.dropWhile isJsWhitespace).reverse.dropWhile isJsWhitespace).reverse

/-- `requiredSkills.split(',').map(s => s.trim()).filter(s => s.length > 0)`. -/
def parseRequiredSkills (requiredSkills : String) : List String :=
  (((splitChars ',' requiredSkills.toList).map trimChars).filter
    (fun s => decide (s.length > 0))).map String.mk

/-- The `useState` cells of `VolunteerCoordinationPage`; `volunteerTasks` holds the entities of
the last snapshot. -/
structure VolunteerCoordinationPage where
  taskTitle : String
  taskDescription : String
  taskLocation : String
  requiredSkills : String
  priority : String
  isCreatingTask : Bool
  createTaskMessage : String
  volunteerTasks : List Doc
  searchTerm : String
  filterStatus : String
  deriving DecidableEq, Repr

/-- `handleCreateTask(e)`. -/
def handleCreateTask (ctx : FirebaseContext) (env : Env) (st0 : VolunteerCoordinationPage)
    (w : World) : VolunteerCoordinationPage × World :=
  if !ctx.db || !truthy ctx.userId then
    ({ st0 with createTaskMessage := "Error: Firebase not initialized or user not logged in." }, w)
  else if ctx.userRole != "admin" && ctx.userRole != "ngo" then
    ({ st0 with createTaskMessage := "Error: Only Admins and NGOs can create tasks." }, w)
  else
    let st := { st0 with isCreatingTask := true, createTaskMessage := "" }
    if truthy (some st.taskLocation) then
      let r := getCoordinatesFromLocation env (some st.taskLocation) w
      let geoResult := r.1
      if geoResult.latitude == none || geoResult.longitude == none then
        let errorText := "Could not determine coordinates for the provided location."
        let errorText :=
          if geoResult.status == some "ZERO_RESULTS" then
            errorText ++ " Try being more general (e.g., \"Secunderabad\" instead of a specific building name) or check for typos."
          else if geoResult.status == some "OVER_QUERY_LIMIT" then
            errorText ++ " API query limit exceeded. Please try again later or check your Google Maps API key settings."
          else if geoResult.status == some "REQUEST_DENIED" then
            errorText ++ " Geocoding API access denied. Check your API key and project settings."
          else errorText
        ({ st with createTaskMessage := "Error: " ++ errorText, isCreatingTask := false }, r.2)
      else
        let fields : Doc :=
          [("createdBy", optStr ctx.userId), ("userRole", Val.str ctx.userRole),
           ("title", Val.str st.taskTitle), ("description", Val.str st.taskDescription),
           ("location", Val.str st.taskLocation),
           ("latitude", optNum geoResult.latitude), ("longitude", optNum geoResult.longitude),
           ("requiredSkills", Val.strs (parseRequiredSkills st.requiredSkills)),
           ("priority", Val.str st.priority), ("status", Val.str "pending"),
           ("assignedTo", Val.null), ("assignedAt", Val.null), ("completedAt", Val.null),
           ("createdAt", Val.date env.now)]
        let tr := r.2.trace ++ [Effect.addDoc "volunteerTasks" fields]
        match addDoc env r.2.store.volunteerTasks fields with
        | Except.ok c =>
          ({ st with createTaskMessage := "Task created successfully!", taskTitle := "",
                     taskDescription := "", taskLocation := "", requiredSkills := "",
                     priority := "medium", isCreatingTask := false },
           { store := { r.2.store with volunteerTasks := c }, trace := tr })
        | Except.error msg =>
          ({ st with createTaskMessage := "Failed to create task: " ++ msg,
                     isCreatingTask := false }, { r.2 with trace := tr })
    else
      ({ st with createTaskMessage := "Please enter a location for the volunteer task.",
                 isCreatingTask := false }, w)

/-- `handleAcceptTask(taskId)`. -/
def handleAcceptTask (ctx : FirebaseContext) (env : Env) (st : VolunteerCoordinationPage)
    (w : World) (taskId : String) : VolunteerCoordinationPage × World :=
  if !ctx.db || !truthy ctx.userId then (st, w)
  else if ctx.userRole != "volunteer" then
    ({ st with createTaskMessage := "Error: Only volunteers can accept tasks." }, w)
  else
    let fields : Doc :=
      [("status", Val.str "assigned"), ("assignedTo", optStr ctx.userId),
       ("assignedAt", Val.date env.now)]
    let tr := w.trace ++ [Effect.updateDoc "volunteerTasks" taskId fields]
    match updateDoc env w.store.volunteerTasks taskId fields with
    | Except.ok c =>
      ({ st with createTaskMessage := "Task accepted successfully!" },
       { store := { w.store with volunteerTasks := c }, trace := tr })
    | Except.error msg =>
      ({ st with createTaskMessage := "Failed to accept task: " ++ msg }, { w with trace := tr })

/-- `handleCompleteTask(taskId)`. -/
def handleCompleteTask (ctx : FirebaseContext) (env : Env) (st : VolunteerCoordinationPage)
    (w : World) (taskId : String) : VolunteerCoordinationPage × World :=
  if !ctx.db || !truthy ctx.userId then (st, w)
  else if ctx.userRole != "volunteer" && ctx.userRole != "admin" && ctx.userRole != "ngo" then
    ({ st with createTaskMessage :=
        "Error: Only assigned volunteers, Admins, or NGOs can complete tasks." }, w)
  else
    let fields : Doc := [("status", Val.str "completed"), ("completedAt", Val.date env.now)]
    let tr := w.trace ++ [Effect.updateDoc "volunteerTasks" taskId fields]
    match updateDoc env w.store.volunteerTasks taskId fields with
    | Except.ok c =>
      ({ st with createTaskMessage := "Task marked as completed!" },
       { store := { w.store with volunteerTasks := c }, trace := tr })
    | Except.error msg =>
      ({ st with createTaskMessage := "Failed to complete task: " ++ msg },
       { w with trace := tr })

/-- The render condition of the "Accept Task" button of a listed task:
`userRole === 'volunteer' && task.status === 'pending'`. -/
def showAcceptTask (ctx : FirebaseContext) (task : Doc) : Bool :=
  ctx.userRole == "volunteer" && getField task "status" == Val.str "pending"

/-- The render condition of the "Mark as Completed" button of a listed task, with the grouping
JavaScript gives it (`&&` binds tighter than `||`):
`(userRole === 'volunteer' && task.status === 'assigned' && task.assignedTo === userId) ||
 (userRole === 'admin' || userRole === 'ngo' && task.status !== 'completed')`. -/
def showMarkAsCompleted (ctx : FirebaseContext) (task : Doc) : Bool :=
  (ctx.userRole == "volunteer" && getField task "status" == Val.str "assigned" &&
      getField task "assignedTo" == optStr ctx.userId) ||
    (ctx.userRole == "admin" ||
      (ctx.userRole == "ngo" && getField task "status" != Val.str "completed"))

/-! ## Concrete scenarios -/

/-- An environment with a geocoder that knows one place, clock reading `t`, and a store that
accepts writes. -/
def exEnv (t : Nat) : Env :=
  { geocode := fun a =>
      if a = "Secunderabad" then some { status := "OK", results := [(17, 78), (18, 79)] }
      else some { status := "ZERO_RESULTS", results := [] },
    now := t, newId := "doc-new", writeError := none }

/-- An initialised context for actor `uid` with role `role`. -/
def exCtx (uid role : String) : FirebaseContext :=
  { db := true, userId := some uid, userRole := role }

/-- A volunteer task as `handleCreateTask` stores it, then accepted by `v1` at instant 5. -/
def exAssignedTask : Doc :=
  [("createdBy", Val.str "n1"), ("userRole", Val.str "ngo"), ("title", Val.str "Deliver water"),
   ("description", Val.str "Two crates"), ("location", Val.str "Secunderabad"),
   ("latitude", Val.num 17), ("longitude", Val.num 78), ("requiredSkills", Val.strs ["Driving"]),
   ("priority", Val.str "high"), ("status", Val.str "assigned"), ("assignedTo", Val.str "v1"),
   ("assignedAt", Val.date 5), ("completedAt", Val.null), ("createdAt", Val.date 1)]

/-- A volunteer task as `handleCreateTask` stores it: pending, nobody assigned. -/
def exPendingTask : Doc :=
  [("createdBy", Val.str "n1"), ("userRole", Val.str "ngo"), ("title", Val.str "Deliver water"),
   ("description", Val.str "Two crates"), ("location", Val.str "Secunderabad"),
   ("latitude", Val.num 17), ("longitude", Val.num 78), ("requiredSkills", Val.strs ["Driving"]),
   ("priority", Val.str "high"), ("status", Val.str "pending"), ("assignedTo", Val.null),
   ("assignedAt", Val.null), ("completedAt", Val.null), ("createdAt", Val.date 1)]

/-- The same task after completion at instant 7. -/
def exCompletedTask : Doc :=
  mergeFields exAssignedTask [("status", Val.str "completed"), ("completedAt", Val.date 7)]

/-- A pending resource request of actor `u1`. -/
def exPendingRequest : Doc :=
  [("userId", Val.str "u1"), ("requestType", Val.str "water"),
   ("description", Val.str "Drinking water for ten"), ("location", Val.str "Secunderabad"),
   ("latitude", Val.num 17), ("longitude", Val.num 78), ("timestamp", Val.date 2),
   ("status", Val.str "pending")]

/-- A world whose only document is the volunteer task `t1`. -/
def exTaskWorld (task : Doc) : World :=
  { store := { reports := [], resourceRequests := [], volunteerTasks := [("t1", task)],
               broadcasts := [] },
    trace := [] }

/-- A world whose only document is the resource request `r1`. -/
def exRequestWorld (request : Doc) : World :=
  { store := { reports := [], resourceRequests := [("r1", request)], volunteerTasks := [],
               broadcasts := [] },
    trace := [] }

/-- A world with an empty store. -/
def exEmptyWorld : World :=
  { store := { reports := [], resourceRequests := [], volunteerTasks := [], broadcasts := [] },
    trace := [] }

/-- The volunteer page with its initial `useState` values. -/
def exVolunteerPage : VolunteerCoordinationPage :=
  { taskTitle := "", taskDescription := "", taskLocation := "", requiredSkills := "",
    priority := "medium", isCreatingTask := false, createTaskMessage := "",
    volunteerTasks := [], searchTerm := "", filterStatus := "all" }

/-- The requests page with its initial `useState` values. -/
def exRequestsPage : ResourceRequestsPage :=
  { requestType := "food", description := "", location := "", isSubmitting := false,
    message := "", requests := [], searchTerm := "", filterStatus := "all",
    filterType := "all" }

/-- The updates page with its initial `useState` values. -/
def exUpdatesPage : RealTimeUpdatesPage :=
  { title := "", message := "", isSubmitting := false, feedbackMessage := "", broadcasts := [] }

/-- The report page with its initial `useState` values. -/
def exReportPage : ReportSystemPage :=
  { reportType := "missing", details := "", location := "", isSubmitting := false,
    message := "", manualLat := none, manualLng := none }

/-- An environment whose geocoder gives the same answer `g` to every address (`none`: the
call gets no response), with clock reading `t` and a store that accepts writes. -/
def exEnvGeo (g : Option GeoData) (t : Nat) : Env :=
  { geocode := fun _ => g, now := t, newId := "doc-new", writeError := none }

/-- The report form with the location text `loc` typed in. -/
def exReportAt (loc : String) : ReportSystemPage :=
  { exReportPage with location := loc }

/-- The request form with the location text `loc` typed in. -/
def exRequestAt (loc : String) : ResourceRequestsPage :=
  { exRequestsPage with location := loc }

/-- The task form with the location text `loc` typed in. -/
def exTaskAt (loc : String) : VolunteerCoordinationPage :=
  { exVolunteerPage with taskLocation := loc }

/-- A geocoder that finds nothing. -/
def exEnvZero : Env := exEnvGeo (some { status := "ZERO_RESULTS", results := [] }) 3

/-- A geocoder whose quota is used up. -/
def exEnvQuota : Env := exEnvGeo (some { status := "OVER_QUERY_LIMIT", results := [] }) 3

/-- A geocoder that refuses the key. -/
def exEnvDenied : Env := exEnvGeo (some { status := "REQUEST_DENIED", results := [] }) 3

/-- A geocoder that cannot be reached. -/
def exEnvNet : Env := exEnvGeo none 3

/-! ## Joining tokens and sequences of transition calls -/

/-- `tokens.join(sep)` on character lists: the tokens with `sep` between neighbours. -/
def joinChars (sep : Char) : List (List Char) → List Char
  | [] => []
  | [t] => t
  | t :: t2 :: ts => t ++ sep :: joinChars sep (t2 :: ts)

/-- One call of a task transition handler, with the context, the environment and the page
state it runs in. -/
inductive TaskCall where
  | accept (ctx : FirebaseContext) (env : Env) (st : VolunteerCoordinationPage)
      (taskId : String)
  | complete (ctx : FirebaseContext) (env : Env) (st : VolunteerCoordinationPage)
      (taskId : String)

/-- The world after one transition call. -/
def runTaskCall (w : World) : TaskCall → World
  | TaskCall.accept ctx env st taskId => (handleAcceptTask ctx env st w taskId).2
  | TaskCall.complete ctx env st taskId => (handleCompleteTask ctx env st w taskId).2

/-- The world after a sequence of transition calls, each run to completion before the next. -/
def runTaskCalls (w : World) (calls : List TaskCall) : World :=
  calls.foldl runTaskCall w

/-! ## Snapshot callbacks -/

/-- A query snapshot: `snapshot.docs`, each document with its store-assigned id and its
`data()`. -/
abbrev Snapshot := List (String × Doc)

/-- The mapping `doc => ({ id: doc.id, ...doc.data() })` used by every `onSnapshot` callback: an
object literal that starts with `id` and then spreads the stored fields over it. -/
def snapshotEntity (doc : String × Doc) : Doc :=
  mergeFields [("id", Val.str doc.1)] doc.2

/-- The `useState` cells of `UserReports`. -/
structure UserReports where
  reports : List Doc
  loading : Bool
  error : Option String
  searchTerm : String
  filterType : String
  deriving DecidableEq, Repr

/-- The `onSnapshot` success callback of `UserReports`. -/
def userReportsOnSnapshot (st : UserReports) (snapshot : Snapshot) : UserReports :=
  { st with reports := snapshot.map snapshotEntity, loading := false }

/-- The `onSnapshot` success callback of `ResourceRequestsPage`. -/
def resourceRequestsOnSnapshot (st : ResourceRequestsPage) (snapshot : Snapshot) :
    ResourceRequestsPage :=
  { st with requests := snapshot.map snapshotEntity }

/-- The `onSnapshot` success callback of `VolunteerCoordinationPage`. -/
def volunteerTasksOnSnapshot (st : VolunteerCoordinationPage) (snapshot : Snapshot) :
    VolunteerCoordinationPage :=
  { st with volunteerTasks := snapshot.map snapshotEntity }

/-! ## Sorting broadcasts by timestamp -/

/-- The last instant, in milliseconds since the epoch, that a Firestore `Timestamp` can hold
(9999-12-31T23:59:59.999Z). -/
def maxTimestampMillis : Nat := 253402300799999

/-- `ToNumber` of an operand of `b.timestamp - a.timestamp`, counted in thousandths: `some k`
is the finite number k/1000.  A number converts to itself and `null` to 0.  A `Date` that was
stored is read back from a snapshot as a Firestore `Timestamp`, whose `valueOf()` is the text
"seconds.nanoseconds" with the seconds counted from 0001-01-01T00:00:00Z, so the instant of `t`
milliseconds since the epoch converts to t/1000 + 62135596800.  Every other conversion is
outside this model and is `none`: `undefined` converts to NaN, a string to the number its text
parses to, an array to the number its joined text parses to, and no `Timestamp` exists after
`maxTimestampMillis`. -/
def toNumber : Val → Option Int
  | Val.num n => some (1000 * n)
  | Val.date t =>
    if t ≤ maxTimestampMillis then some (Int.ofNat t + 62135596800000) else none
  | Val.null => some 0
  | Val.undefined => none
  | Val.str _ => none
  | Val.strs _ => none

/-- The subtraction `x - y` of two converted operands, in thousandths; `none` if an operand is
outside the model.  The difference is exact here.  The program rounds both operands and their
difference to doubles, which keeps the sign: numbers are doubles already, two distinct
`Timestamp` values or a `Timestamp` and a whole number differ by at least 0.001, and doubles
below 2^39 are less than 0.0001 apart.  `sort` uses only the sign. -/
def jsMinus : Option Int → Option Int → Option Int
  | some a, some b => some (a - b)
  | _, _ => none

/-- Insert `x` into a sorted list, before the first element it does not come after; `none` if a
comparison that is needed is outside the model. -/
def insertSorted {α : Type} (comparefn : α → α → Option Int) (x : α) :
    List α → Option (List α)
  | [] => some [x]
  | y :: ys =>
    match comparefn x y with
    | none => none
    | some v =>
      if v ≤ 0 then some (x :: y :: ys)
      else
        match insertSorted comparefn x ys with
        | none => none
        | some rest => some (y :: rest)

/-- `Array.prototype.sort(comparefn)` for a comparator whose values are finite numbers.
ECMAScript requires the sort to be stable; for a comparator that orders the elements
consistently the result is then determined, and it is computed here by insertion from the
right, which keeps equal elements in their original order.  The result is `none` if a
comparison is outside the model; with two or more elements every element is compared at least
once. -/
def jsSort {α : Type} (comparefn : α → α → Option Int) : List α → Option (List α)
  | [] => some []
  | x :: xs =>
    match jsSort comparefn xs with
    | none => none
    | some sorted => insertSorted comparefn x sorted

/-- The `useState` cell of `DashboardPage`. -/
structure DashboardPage where
  latestUpdates : List Doc
  deriving DecidableEq, Repr

/-- The `onSnapshot` success callback of `DashboardPage`:
`docs.map(...).sort((a, b) => b.timestamp - a.timestamp).slice(0, 3)`; `none` if the order of
the sort is outside the model. -/
def dashboardOnSnapshot (st : DashboardPage) (snapshot : Snapshot) : Option DashboardPage :=
  match jsSort (fun a b => jsMinus (toNumber (getField b "timestamp"))
      (toNumber (getField a "timestamp"))) (snapshot.map snapshotEntity) with
  | none => none
  | some sorted => some { st with latestUpdates := sorted.take 3 }

/-- The `onSnapshot` success callback of `RealTimeUpdatesPage`:
`docs.map(...).sort((a, b) => b.timestamp - a.timestamp)`; `none` if the order of the sort is
outside the model. -/
def realTimeUpdatesOnSnapshot (st : RealTimeUpdatesPage) (snapshot : Snapshot) :
    Option RealTimeUpdatesPage :=
  match jsSort (fun a b => jsMinus (toNumber (getField b "timestamp"))
      (toNumber (getField a "timestamp"))) (snapshot.map snapshotEntity) with
  | none => none
  | some sorted => some { st with broadcasts := sorted }

/-- The number a timestamp stands for in the ordering, in thousandths (0 outside the model). -/
def timestampOf (e : Doc) : Int :=
  (toNumber (getField e "timestamp")).getD 0

/-- The entity's `timestamp` is a number, or the `Timestamp` of a stored `Date`. -/
def hasNumericTimestamp (e : Doc) : Bool :=
  match getField e "timestamp" with
  | Val.num _ => true
  | Val.date t => decide (t ≤ maxTimestampMillis)
  | _ => false

/-! ## DisasterMapPage: markers -/

/-- JavaScript truthiness of a stored value: `null`, `undefined`, the empty string and the
number 0 are falsy; `Date` objects and arrays are truthy. -/
def truthyVal : Val → Bool
  | Val.null => false
  | Val.undefined => false
  | Val.str s => s != ""
  | Val.num n => n != 0
  | Val.date _ => true
  | Val.strs _ => true

/-- A `google.maps.Marker` as the effect creates it: its position, the two values its title is
made of (the title text itself is not rendered here), and its icon url. -/
structure Marker where
  position : Val × Val
  titleOf : Val × Val
  icon : String
  deriving DecidableEq, Repr

/-- The state the marker effect of `DisasterMapPage` reads and writes: `map` is `none` while
the map is not initialised, otherwise it holds `map.markers`, the markers shown on the map. -/
structure DisasterMapPage where
  map : Option (List Marker)
  reports : List Doc
  requests : List Doc
  deriving DecidableEq, Repr

/-- The "Add Markers to Map" effect: all present markers are removed, then one red marker is
made for each report and one blue marker for each request that passes
`entity.latitude && entity.longitude`. -/
def markerEffect (st : DisasterMapPage) : DisasterMapPage :=
  match st.map with
  | none => st
  | some _ =>
    let reportMarkers := st.reports.filterMap (fun report =>
      if truthyVal (getField report "latitude") && truthyVal (getField report "longitude") then
        some { position := (getField report "latitude", getField report "longitude"),
               titleOf := (getField report "reportType", getField report "details"),
               icon := "http://maps.google.com/mapfiles/ms/icons/red-dot.png" }
      else none)
    let requestMarkers := st.requests.filterMap (fun request =>
      if truthyVal (getField request "latitude") && truthyVal (getField request "longitude") then
        some { position := (getField request "latitude", getField request "longitude"),
               titleOf := (getField request "requestType", getField request "description"),
               icon := "http://maps.google.com/mapfiles/ms/icons/blue-dot.png" }
      else none)
    { st with map := some (reportMarkers ++ requestMarkers) }

/-! ## ReportSystemPage: the location field -/

/-- What `navigator.geolocation` does with the request: it calls the success callback with a
position, calls the error callback with an error code, or is absent from the browser. -/
inductive GeolocationResult where
  | position (latitude longitude : Int)
  | error (code : Nat)
  | unsupported
  deriving DecidableEq, Repr

/-- `handleUseCurrentLocation()` together with the callback that answers it; the error codes
are PERMISSION_DENIED = 1, POSITION_UNAVAILABLE = 2, TIMEOUT = 3. -/
def handleUseCurrentLocation (st0 : ReportSystemPage) (r : GeolocationResult) :
    ReportSystemPage :=
  let st := { st0 with message := "Attempting to get your current location..." }
  match r with
  | GeolocationResult.position latitude longitude =>
    { st with manualLat := some latitude, manualLng := some longitude,
              location := "Your Current Location", message := "Current location detected!" }
  | GeolocationResult.error code =>
    let errorMessage := "Failed to get current location. "
    let errorMessage :=
      if code = 1 then errorMessage ++ "Please allow location access in your browser settings."
      else if code = 2 then errorMessage ++ "Location information is unavailable."
      else if code = 3 then errorMessage ++ "The request to get user location timed out."
      else errorMessage ++ "An unknown error occurred."
    { st with message := "Error: " ++ errorMessage, manualLat := none, manualLng := none }
  | GeolocationResult.unsupported =>
    { st with message := "Geolocation is not supported by your browser." }

/-- The `onChange` handler of the location input. -/
def onChangeLocation (st : ReportSystemPage) (value : String) : ReportSystemPage :=
  { st with location := value, manualLat := none, manualLng := none }

/-- An event on the report form that touches location, manualLat or manualLng. -/
inductive ReportFormEvent where
  | useCurrentLocation (r : GeolocationResult)
  | changeLocation (value : String)
  | submit (ctx : FirebaseContext) (env : Env) (w : World)

/-- The form state after one event. -/
def runReportFormEvent (st : ReportSystemPage) : ReportFormEvent → ReportSystemPage
  | ReportFormEvent.useCurrentLocation r => handleUseCurrentLocation st r
  | ReportFormEvent.changeLocation value => onChangeLocation st value
  | ReportFormEvent.submit ctx env w => (handleSubmitReport ctx env st w).1

/-- The form state after a sequence of events. -/
def runReportFormEvents (st : ReportSystemPage) (events : List ReportFormEvent) :
    ReportSystemPage :=
  events.foldl runReportFormEvent st

/-- A stored document whose fields include one named `id`. -/
def exDocWithIdField : String × Doc :=
  ("doc-7", [("title", Val.str "Deliver water"), ("id", Val.str "doc-1"),
             ("status", Val.str "pending")])

/-- A report on the equator: latitude 0, longitude 78. -/
def exEquatorReport : Doc :=
  [("id", Val.str "rep-0"), ("reportType", Val.str "damage"), ("details", Val.str "Bridge"),
   ("latitude", Val.num 0), ("longitude", Val.num 78)]

/-- A report at (17, 78). -/
def exInlandReport : Doc :=
  [("id", Val.str "rep-1"), ("reportType", Val.str "injury"), ("details", Val.str "Leg"),
   ("latitude", Val.num 17), ("longitude", Val.num 78)]

/-- A request on the prime meridian: latitude 51, longitude 0. -/
def exMeridianRequest : Doc :=
  [("id", Val.str "req-0"), ("requestType", Val.str "water"),
   ("description", Val.str "Ten litres"), ("latitude", Val.num 51), ("longitude", Val.num 0)]

/-- An initialised map without markers, with two reports and one request loaded. -/
def exMapPage : DisasterMapPage :=
  { map := some [], reports := [exEquatorReport, exInlandReport],
    requests := [exMeridianRequest] }

/-- A snapshot of four broadcasts, sent at the instants 5, 9, 2 and 7. -/
def exBroadcastSnapshot : Snapshot :=
  [("b1", [("title", Val.str "Road closed"), ("timestamp", Val.date 5)]),
   ("b2", [("title", Val.str "Shelter Open"), ("timestamp", Val.date 9)]),
   ("b3", [("title", Val.str "Water point"), ("timestamp", Val.date 2)]),
   ("b4", [("title", Val.str "Clinic hours"), ("timestamp", Val.date 7)])]

/-- A snapshot of three broadcasts: two stored with a `Date` (the instants 5 and 7) and one
stored with the number 10 as its timestamp. -/
def exMixedSnapshot : Snapshot :=
  [("x1", [("title", Val.str "Road closed"), ("timestamp", Val.date 5)]),
   ("x2", [("title", Val.str "Shelter Open"), ("timestamp", Val.num 10)]),
   ("x3", [("title", Val.str "Water point"), ("timestamp", Val.date 7)])]

/-- The dashboard with its initial `useState` value. -/
def exDashboardPage : DashboardPage :=
  { latestUpdates := [] }

/-! ## UserReports: search and filter -/

/-- Code points of the upper-case letters of Basic Latin (A-Z) and Latin-1 Supplement
(U+00C0-U+00D6, U+00D8-U+00DE), and of U+0178 and U+039C, each with the code point of its
lower-case letter. -/
def lowerCaseTable : List (Char × Char) :=
  ((List.range 26).map (fun i => (Char.ofNat (65 + i), Char.ofNat (97 + i)))) ++
  ((List.range 23).map (fun i => (Char.ofNat (192 + i), Char.ofNat (224 + i)))) ++
  ((List.range 7).map (fun i => (Char.ofNat (216 + i), Char.ofNat (248 + i)))) ++
  [(Char.ofNat 376, Char.ofNat 255), (Char.ofNat 924, Char.ofNat 956)]

/-- Lower-case letters of Basic Latin and Latin-1 Supplement with their upper-case form:
a-z, U+00E0-U+00F6, U+00F8-U+00FE, and the three special ones: U+00DF (sharp s) becomes "SS",
U+00FF becomes U+0178, U+00B5 becomes U+039C. -/
def upperCaseTable : List (Char × List Char) :=
  ((List.range 26).map (fun i => (Char.ofNat (97 + i), [Char.ofNat (65 + i)]))) ++
  ((List.range 23).map (fun i => (Char.ofNat (224 + i), [Char.ofNat (192 + i)]))) ++
  ((List.range 7).map (fun i => (Char.ofNat (248 + i), [Char.ofNat (216 + i)]))) ++
  [(Char.ofNat 223, [Char.ofNat 83, Char.ofNat 83]), (Char.ofNat 255, [Char.ofNat 376]),
   (Char.ofNat 181, [Char.ofNat 924])]

/-- The entry of a case table for a character, if it has one. -/
def caseEntry {β : Type} (c : Char) : List (Char × β) → Option β
  | [] => none
  | (k, v) :: rest => if k = c then some v else caseEntry c rest

/-- The characters whose lower-case mapping is modelled: Basic Latin and Latin-1 Supplement
(code points below 256), where `lowerCaseTable` lists every letter that changes, and the
characters U+0178, U+039C and U+03BC that the case mappings of such text produce. -/
def lowerCaseModelled (c : Char) : Bool :=
  c.toNat < 256 || c.toNat == 376 || c.toNat == 924 || c.toNat == 956

/-- The characters whose upper-case mapping is modelled: Basic Latin and Latin-1 Supplement
(code points below 256), where `upperCaseTable` lists every letter that changes. -/
def upperCaseModelled (c : Char) : Bool :=
  c.toNat < 256

/-- Every character of the text has a modelled lower-case mapping. -/
def lowerCaseInRange (s : String) : Bool :=
  s.toList.all lowerCaseModelled

/-- Every character of the text has a modelled upper-case mapping. -/
def upperCaseInRange (s : String) : Bool :=
  s.toList.all upperCaseModelled

/-- `String.prototype.toLowerCase` on text within `lowerCaseInRange`: each upper-case letter is
replaced by its lower-case letter and every other character is kept.  The case mappings of
other scripts are not modelled: for text with any other character the result is `none`. -/
def toLowerCase (s : String) : Option String :=
  if lowerCaseInRange s then
    some (String.mk (s.toList.map (fun c => (caseEntry c lowerCaseTable).getD c)))
  else none

/-- `String.prototype.toUpperCase` on text within `upperCaseInRange`: each lower-case letter is
replaced by its upper-case form, which for U+00DF is the two letters "SS", and every other
character is kept.  The case mappings of other scripts are not modelled: for text with any
other character the result is `none`. -/
def toUpperCase (s : String) : Option String :=
  if upperCaseInRange s then
    some (String.mk (s.toList.flatMap (fun c => (caseEntry c upperCaseTable).getD [c])))
  else none

/-- `s.includes(searchString)`: `searchString` occurs in `s` as a contiguous run. -/
def includes (s searchString : String) : Bool :=
  s.toList.tails.any (fun t => searchString.toList.isPrefixOf t)

/-- The outcome of evaluating an expression: its value, the TypeError it raises, or no answer
because the evaluation needs a case mapping that is not modelled. -/
inductive Evaluated (α : Type) where
  | value (a : α)
  | typeError
  | notModelled
  deriving DecidableEq, Repr

/-- The callback of `reports.filter` in `UserReports`.  A TypeError is raised when
`toLowerCase` is called on a `details` or `location` that is not a string; `location` is
looked at only if `details` does not contain the term. -/
def reportMatches (searchTerm filterType : String) (report : Doc) : Evaluated Bool :=
  let matchesSearch : Evaluated Bool :=
    if searchTerm == "" then Evaluated.value true
    else
      match getField report "details" with
      | Val.str details =>
        match toLowerCase details, toLowerCase searchTerm with
        | some lowerDetails, some lowerTerm =>
          if includes lowerDetails lowerTerm then Evaluated.value true
          else
            match getField report "location" with
            | Val.str location =>
              match toLowerCase location with
              | some lowerLocation => Evaluated.value (includes lowerLocation lowerTerm)
              | none => Evaluated.notModelled
            | _ => Evaluated.typeError
        | _, _ => Evaluated.notModelled
      | _ => Evaluated.typeError
  match matchesSearch with
  | Evaluated.value found =>
    Evaluated.value (found &&
      (filterType == "all" || getField report "reportType" == Val.str filterType))
  | Evaluated.typeError => Evaluated.typeError
  | Evaluated.notModelled => Evaluated.notModelled

/-- `Array.prototype.filter` with a callback that may throw: the kept elements in their
original order; the first call of the callback that has no value ends the evaluation with its
outcome. -/
def filterOrThrow (callback : Doc → Evaluated Bool) : List Doc → Evaluated (List Doc)
  | [] => Evaluated.value []
  | r :: rs =>
    match callback r with
    | Evaluated.typeError => Evaluated.typeError
    | Evaluated.notModelled => Evaluated.notModelled
    | Evaluated.value keep =>
      match filterOrThrow callback rs with
      | Evaluated.typeError => Evaluated.typeError
      | Evaluated.notModelled => Evaluated.notModelled
      | Evaluated.value kept => Evaluated.value (if keep then r :: kept else kept)

/-- `filteredReports` of `UserReports`. -/
def filteredReports (st : UserReports) : Evaluated (List Doc) :=
  filterOrThrow (reportMatches st.searchTerm st.filterType) st.reports

/-- The text of a string value (empty for other values). -/
def textOf : Val → String
  | Val.str s => s
  | _ => ""

/-- The value is a string. -/
def isString : Val → Bool
  | Val.str _ => true
  | _ => false

/-- The text contains the term ignoring letter case, in the sense of the filter: the
lower-cased text includes the lower-cased term. -/
def containsIgnoringCase (text term : String) : Bool :=
  match toLowerCase text, toLowerCase term with
  | some lowerText, some lowerTerm => includes lowerText lowerTerm
  | _, _ => false

/-- A report about a closed street. -/
def exStreetReport : Doc :=
  [("id", Val.str "rep-5"), ("reportType", Val.str "damage"),
   ("details", Val.str "Straße gesperrt"), ("location", Val.str "Wien")]

/-- A report about a bridge. -/
def exBridgeReport : Doc :=
  [("id", Val.str "rep-6"), ("reportType", Val.str "damage"),
   ("details", Val.str "Bridge cracked"), ("location", Val.str "Water Lane")]

/-- The street report and the bridge report. -/
def exStreetReports : List Doc :=
  [exStreetReport, exBridgeReport]

/-- The reports list with the street and bridge reports loaded and the search term typed. -/
def exUserReports (searchTerm : String) : UserReports :=
  { reports := exStreetReports, loading := false, error := none, searchTerm := searchTerm,
    filterType := "all" }

/-- A report written in Cyrillic script. -/
def exCyrillicReport : Doc :=
  [("id", Val.str "rep-8"), ("reportType", Val.str "damage"),
   ("details", Val.str "МОСТ закрыт"), ("location", Val.str "Москва")]

/-! ## Basic facts about documents and the store -/

theorem getField_setField_same (d : Doc) (k : String) (v : Val) :
    getField (setField d k v) k = v := by
  induction d with
  | nil => simp [setField, getField]
  | cons e rest ih =>
    obtain ⟨k0, v0⟩ := e
    by_cases h : k0 = k
    · simp [setField, getField, h]
    · simp [setField, getField, h, ih]

theorem getField_setField_ne (d : Doc) (k k2 : String) (v : Val) (h : k2 ≠ k) :
    getField (setField d k v) k2 = getField d k2 := by
  induction d with
  | nil => simp [setField, getField, Ne.symm h]
  | cons e rest ih =>
    obtain ⟨k0, v0⟩ := e
    by_cases h0 : k0 = k
    · subst h0
      simp [setField, getField, Ne.symm h]
    · by_cases h1 : k0 = k2
      · subst h1
        simp [setField, getField, h0]
      · simp [setField, getField, h0, h1, ih]

theorem hasDoc_of_findDoc (c : Collection) (id : String) (d : Doc)
    (h : findDoc c id = some d) : hasDoc c id = true := by
  induction c with
  | nil => simp [findDoc] at h
  | cons e rest ih =>
    obtain ⟨i, d0⟩ := e
    by_cases hi : i = id
    · simp [hasDoc, hi]
    · simp only [findDoc, hi, if_false] at h
      have := ih h
      simp only [hasDoc] at this ⊢
      simp [this]

theorem map_update_cons_same (rest : Collection) (i : String) (d0 : Doc) (f : Doc → Doc) :
    ((i, d0) :: rest).map (fun e => if e.1 = i then (e.1, f e.2) else e) =
      (i, f d0) :: rest.map (fun e => if e.1 = i then (e.1, f e.2) else e) := by
  simp

theorem map_update_cons_ne (rest : Collection) (i id : String) (d0 : Doc) (f : Doc → Doc)
    (hi : i ≠ id) :
    ((i, d0) :: rest).map (fun e => if e.1 = id then (e.1, f e.2) else e) =
      (i, d0) :: rest.map (fun e => if e.1 = id then (e.1, f e.2) else e) := by
  simp [hi]

theorem findDoc_map_same (c : Collection) (id : String) (d : Doc) (f : Doc → Doc)
    (h : findDoc c id = some d) :
    findDoc (c.map (fun e => if e.1 = id then (e.1, f e.2) else e)) id = some (f d) := by
  induction c with
  | nil => simp [findDoc] at h
  | cons e rest ih =>
    obtain ⟨i, d0⟩ := e
    by_cases hi : i = id
    · subst hi
      simp only [findDoc, if_true, Option.some.injEq] at h
      subst h
      rw [map_update_cons_same]
      simp [findDoc]
    · simp only [findDoc, hi, if_false] at h
      rw [map_update_cons_ne _ _ _ _ _ hi]
      simp only [findDoc, hi, if_false]
      exact ih h

theorem findDoc_map_ne (c : Collection) (id id2 : String) (f : Doc → Doc) (h : id2 ≠ id) :
    findDoc (c.map (fun e => if e.1 = id then (e.1, f e.2) else e)) id2 = findDoc c id2 := by
  induction c with
  | nil => simp [findDoc]
  | cons e rest ih =>
    obtain ⟨i, d0⟩ := e
    by_cases hi : i = id
    · subst hi
      rw [map_update_cons_same]
      simp only [findDoc, Ne.symm h, if_false]
      exact ih
    · rw [map_update_cons_ne _ _ _ _ _ hi]
      simp only [findDoc, ih]

theorem updateDoc_ok (env : Env) (c : Collection) (id : String) (d fields : Doc)
    (hw : env.writeError = none) (h : findDoc c id = some d) :
    updateDoc env c id fields =
      Except.ok (c.map (fun e => if e.1 = id then (e.1, mergeFields e.2 fields) else e)) := by
  simp [updateDoc, hw, hasDoc_of_findDoc c id d h]

theorem getField_mergeFields_of_not_mem (fields d : Doc) (k : String)
    (h : ∀ kv ∈ fields, kv.1 ≠ k) : getField (mergeFields d fields) k = getField d k := by
  induction fields generalizing d with
  | nil => rfl
  | cons f fs ih =>
    have hf : k ≠ f.1 := fun e => h f (List.mem_cons_self f fs) e.symm
    have hrest : ∀ kv ∈ fs, kv.1 ≠ k := fun kv hkv => h kv (List.mem_cons_of_mem f hkv)
    have step : mergeFields d (f :: fs) = mergeFields (setField d f.1 f.2) fs := rfl
    rw [step, ih _ hrest, getField_setField_ne d f.1 k f.2 hf]

/-! ## What each transition handler does once its guards are passed -/

theorem handleAcceptTask_run (ctx : FirebaseContext) (env : Env)
    (st : VolunteerCoordinationPage) (w : World) (taskId : String) (task : Doc)
    (hdb : ctx.db = true) (hu : truthy ctx.userId = true) (hrole : ctx.userRole = "volunteer")
    (hw : env.writeError = none) (hfind : findDoc w.store.volunteerTasks taskId = some task) :
    handleAcceptTask ctx env st w taskId =
      ({ st with createTaskMessage := "Task accepted successfully!" },
       { store := { w.store with volunteerTasks := w.store.volunteerTasks.map (fun e =>
            if e.1 = taskId then
              (e.1, mergeFields e.2 [("status", Val.str "assigned"),
                ("assignedTo", optStr ctx.userId), ("assignedAt", Val.date env.now)])
            else e) },
         trace := w.trace ++ [Effect.updateDoc "volunteerTasks" taskId
            [("status", Val.str "assigned"), ("assignedTo", optStr ctx.userId),
             ("assignedAt", Val.date env.now)]] }) := by
  simp [handleAcceptTask, hdb, hu, hrole, updateDoc_ok env _ taskId task _ hw hfind]

theorem handleAcceptTask_denied (ctx : FirebaseContext) (env : Env)
    (st : VolunteerCoordinationPage) (w : World) (taskId : String)
    (hrole : ctx.userRole ≠ "volunteer") :
    (handleAcceptTask ctx env st w taskId).2 = w := by
  unfold handleAcceptTask
  split
  · rfl
  · simp [hrole]

theorem handleCompleteTask_run (ctx : FirebaseContext) (env : Env)
    (st : VolunteerCoordinationPage) (w : World) (taskId : String) (task : Doc)
    (hdb : ctx.db = true) (hu : truthy ctx.userId = true)
    (hrole : ctx.userRole = "volunteer" ∨ ctx.userRole = "admin" ∨ ctx.userRole = "ngo")
    (hw : env.writeError = none) (hfind : findDoc w.store.volunteerTasks taskId = some task) :
    handleCompleteTask ctx env st w taskId =
      ({ st with createTaskMessage := "Task marked as completed!" },
       { store := { w.store with volunteerTasks := w.store.volunteerTasks.map (fun e =>
            if e.1 = taskId then
              (e.1, mergeFields e.2 [("status", Val.str "completed"),
                ("completedAt", Val.date env.now)])
            else e) },
         trace := w.trace ++ [Effect.updateDoc "volunteerTasks" taskId
            [("status", Val.str "completed"), ("completedAt", Val.date env.now)]] }) := by
  have hguard : (ctx.userRole != "volunteer" && ctx.userRole != "admin" &&
      ctx.userRole != "ngo") = false := by
    rcases hrole with h | h | h <;> simp [h]
  simp only [handleCompleteTask, hdb, hu, hguard, updateDoc_ok env _ taskId task _ hw hfind]
  simp

theorem handleMarkAsFulfilled_run (ctx : FirebaseContext) (env : Env)
    (st : ResourceRequestsPage) (w : World) (requestId : String) (request : Doc)
    (hdb : ctx.db = true) (hw : env.writeError = none)
    (hfind : findDoc w.store.resourceRequests requestId = some request) :
    handleMarkAsFulfilled ctx env st w requestId =
      ({ st with message := "Request marked as fulfilled." },
       { store := { w.store with resourceRequests := w.store.resourceRequests.map (fun e =>
            if e.1 = requestId then
              (e.1, mergeFields e.2 [("status", Val.str "fulfilled"),
                ("fulfilledBy", optStr ctx.userId), ("fulfilledAt", Val.date env.now)])
            else e) },
         trace := w.trace ++ [Effect.updateDoc "resourceRequests" requestId
            [("status", Val.str "fulfilled"), ("fulfilledBy", optStr ctx.userId),
             ("fulfilledAt", Val.date env.now)]] }) := by
  simp [handleMarkAsFulfilled, hdb, updateDoc_ok env _ requestId request _ hw hfind]

theorem handleAcceptTask_spec (ctx : FirebaseContext) (env : Env)
    (st : VolunteerCoordinationPage) (w : World) (taskId : String) (task : Doc)
    (hdb : ctx.db = true) (hu : truthy ctx.userId = true) (hrole : ctx.userRole = "volunteer")
    (hw : env.writeError = none) (hfind : findDoc w.store.volunteerTasks taskId = some task) :
    ∃ w2 : World,
      handleAcceptTask ctx env st w taskId =
        ({ st with createTaskMessage := "Task accepted successfully!" }, w2) ∧
      findDoc w2.store.volunteerTasks taskId =
        some (mergeFields task [("status", Val.str "assigned"),
          ("assignedTo", optStr ctx.userId), ("assignedAt", Val.date env.now)]) := by
  rw [handleAcceptTask_run ctx env st w taskId task hdb hu hrole hw hfind]
  exact ⟨_, rfl, findDoc_map_same w.store.volunteerTasks taskId task
    (fun d => mergeFields d [("status", Val.str "assigned"),
      ("assignedTo", optStr ctx.userId), ("assignedAt", Val.date env.now)]) hfind⟩

theorem handleCompleteTask_spec (ctx : FirebaseContext) (env : Env)
    (st : VolunteerCoordinationPage) (w : World) (taskId : String) (task : Doc)
    (hdb : ctx.db = true) (hu : truthy ctx.userId = true)
    (hrole : ctx.userRole = "volunteer" ∨ ctx.userRole = "admin" ∨ ctx.userRole = "ngo")
    (hw : env.writeError = none) (hfind : findDoc w.store.volunteerTasks taskId = some task) :
    ∃ w2 : World,
      handleCompleteTask ctx env st w taskId =
        ({ st with createTaskMessage := "Task marked as completed!" }, w2) ∧
      findDoc w2.store.volunteerTasks taskId =
        some (mergeFields task [("status", Val.str "completed"),
          ("completedAt", Val.date env.now)]) := by
  rw [handleCompleteTask_run ctx env st w taskId task hdb hu hrole hw hfind]
  exact ⟨_, rfl, findDoc_map_same w.store.volunteerTasks taskId task
    (fun d => mergeFields d [("status", Val.str "completed"),
      ("completedAt", Val.date env.now)]) hfind⟩

theorem handleMarkAsFulfilled_spec (ctx : FirebaseContext) (env : Env)
    (st : ResourceRequestsPage) (w : World) (requestId : String) (request : Doc)
    (hdb : ctx.db = true) (hw : env.writeError = none)
    (hfind : findDoc w.store.resourceRequests requestId = some request) :
    ∃ w2 : World,
      handleMarkAsFulfilled ctx env st w requestId =
        ({ st with message := "Request marked as fulfilled." }, w2) ∧
      findDoc w2.store.resourceRequests requestId =
        some (mergeFields request [("status", Val.str "fulfilled"),
          ("fulfilledBy", optStr ctx.userId), ("fulfilledAt", Val.date env.now)]) := by
  rw [handleMarkAsFulfilled_run ctx env st w requestId request hdb hw hfind]
  exact ⟨_, rfl, findDoc_map_same w.store.resourceRequests requestId request
    (fun d => mergeFields d [("status", Val.str "fulfilled"),
      ("fulfilledBy", optStr ctx.userId), ("fulfilledAt", Val.date env.now)]) hfind⟩

theorem handleCompleteTask_volunteerTasks (ctx : FirebaseContext) (env : Env)
    (st : VolunteerCoordinationPage) (w : World) (taskId : String) :
    (handleCompleteTask ctx env st w taskId).2.store.volunteerTasks = w.store.volunteerTasks ∨
    (handleCompleteTask ctx env st w taskId).2.store.volunteerTasks =
      w.store.volunteerTasks.map (fun e =>
        if e.1 = taskId then
          (e.1, mergeFields e.2 [("status", Val.str "completed"),
            ("completedAt", Val.date env.now)])
        else e) := by
  unfold handleCompleteTask updateDoc
  split
  · exact Or.inl rfl
  · split
    · exact Or.inl rfl
    · cases env.writeError with
      | some msg => exact Or.inl rfl
      | none =>
        by_cases hd : hasDoc w.store.volunteerTasks taskId = true
        · simp [hd]
        · simp [hd]

theorem handleCompleteTask_denied (ctx : FirebaseContext) (env : Env)
    (st : VolunteerCoordinationPage) (w : World) (taskId : String)
    (hdb : ctx.db = true) (hu : truthy ctx.userId = true)
    (hrole : ¬ (ctx.userRole = "volunteer" ∨ ctx.userRole = "admin" ∨ ctx.userRole = "ngo")) :
    handleCompleteTask ctx env st w taskId =
      ({ st with createTaskMessage :=
          "Error: Only assigned volunteers, Admins, or NGOs can complete tasks." }, w) := by
  simp only [not_or] at hrole
  simp [handleCompleteTask, hdb, hu, hrole.1, hrole.2.1, hrole.2.2]

theorem getCoordinatesFromLocation_ok (env : Env) (location : String) (w : World)
    (lat lng : Int) (more : List (Int × Int)) (hloc : location ≠ "")
    (hgeo : env.geocode location = some { status := "OK", results := (lat, lng) :: more }) :
    getCoordinatesFromLocation env (some location) w =
      ({ latitude := some lat, longitude := some lng, status := none },
       { w with trace := w.trace ++ [Effect.geocode location] }) := by
  simp [getCoordinatesFromLocation, truthy, hloc, hgeo]

theorem handleCreateTask_run (ctx : FirebaseContext) (env : Env)
    (st : VolunteerCoordinationPage) (w : World) (lat lng : Int) (more : List (Int × Int))
    (hdb : ctx.db = true) (hu : truthy ctx.userId = true)
    (hrole : ctx.userRole = "admin" ∨ ctx.userRole = "ngo") (hloc : st.taskLocation ≠ "")
    (hgeo : env.geocode st.taskLocation = some { status := "OK", results := (lat, lng) :: more })
    (hw : env.writeError = none) :
    (handleCreateTask ctx env st w).2 =
      { store := { w.store with volunteerTasks := w.store.volunteerTasks ++ [(env.newId,
          [("createdBy", optStr ctx.userId), ("userRole", Val.str ctx.userRole),
           ("title", Val.str st.taskTitle), ("description", Val.str st.taskDescription),
           ("location", Val.str st.taskLocation),
           ("latitude", Val.num lat), ("longitude", Val.num lng),
           ("requiredSkills", Val.strs (parseRequiredSkills st.requiredSkills)),
           ("priority", Val.str st.priority), ("status", Val.str "pending"),
           ("assignedTo", Val.null), ("assignedAt", Val.null), ("completedAt", Val.null),
           ("createdAt", Val.date env.now)])] },
        trace := w.trace ++ [Effect.geocode st.taskLocation, Effect.addDoc "volunteerTasks"
          [("createdBy", optStr ctx.userId), ("userRole", Val.str ctx.userRole),
           ("title", Val.str st.taskTitle), ("description", Val.str st.taskDescription),
           ("location", Val.str st.taskLocation),
           ("latitude", Val.num lat), ("longitude", Val.num lng),
           ("requiredSkills", Val.strs (parseRequiredSkills st.requiredSkills)),
           ("priority", Val.str st.priority), ("status", Val.str "pending"),
           ("assignedTo", Val.null), ("assignedAt", Val.null), ("completedAt", Val.null),
           ("createdAt", Val.date env.now)]] } := by
  have hguard : (ctx.userRole != "admin" && ctx.userRole != "ngo") = false := by
    rcases hrole with h | h <;> simp [h]
  have htruthy : truthy (some st.taskLocation) = true := by simp [truthy, hloc]
  simp [handleCreateTask, hdb, hu, hguard, htruthy,
    getCoordinatesFromLocation_ok env st.taskLocation w lat lng more hloc hgeo, addDoc, hw,
    optNum]

theorem handleAcceptTask_wrong_role (ctx : FirebaseContext) (env : Env)
    (st : VolunteerCoordinationPage) (w : World) (taskId : String)
    (hdb : ctx.db = true) (hu : truthy ctx.userId = true) (hrole : ctx.userRole ≠ "volunteer") :
    handleAcceptTask ctx env st w taskId =
      ({ st with createTaskMessage := "Error: Only volunteers can accept tasks." }, w) := by
  simp [handleAcceptTask, hdb, hu, hrole]

theorem handleSubmitReport_manual (ctx : FirebaseContext) (env : Env) (st : ReportSystemPage)
    (w : World) (lat lng : Int) (hdb : ctx.db = true) (hu : truthy ctx.userId = true)
    (hlat : st.manualLat = some lat) (hlng : st.manualLng = some lng) :
    handleSubmitReport ctx env st w =
      submitReportDoc ctx env { st with isSubmitting := true, message := "" } w
        (some lat) (some lng) st.location := by
  simp [handleSubmitReport, hdb, hu, hlat, hlng]

theorem getField_accepted (task : Doc) (a b c : Val) :
    getField (mergeFields task [("status", a), ("assignedTo", b), ("assignedAt", c)]) "status" = a ∧
    getField (mergeFields task [("status", a), ("assignedTo", b), ("assignedAt", c)]) "assignedTo"
      = b ∧
    getField (mergeFields task [("status", a), ("assignedTo", b), ("assignedAt", c)]) "assignedAt"
      = c := by
  simp [mergeFields, getField_setField_same, getField_setField_ne]

theorem getField_completed (task : Doc) (a b : Val) :
    getField (mergeFields task [("status", a), ("completedAt", b)]) "status" = a ∧
    getField (mergeFields task [("status", a), ("completedAt", b)]) "completedAt" = b := by
  simp [mergeFields, getField_setField_same, getField_setField_ne]

theorem getField_fulfilled (request : Doc) (a b c : Val) :
    getField (mergeFields request [("status", a), ("fulfilledBy", b), ("fulfilledAt", c)])
      "status" = a ∧
    getField (mergeFields request [("status", a), ("fulfilledBy", b), ("fulfilledAt", c)])
      "fulfilledBy" = b ∧
    getField (mergeFields request [("status", a), ("fulfilledBy", b), ("fulfilledAt", c)])
      "fulfilledAt" = c := by
  simp [mergeFields, getField_setField_same, getField_setField_ne]

theorem showAcceptTask_of_not_pending (ctx : FirebaseContext) (task : Doc)
    (h : getField task "status" ≠ Val.str "pending") : showAcceptTask ctx task = false := by
  simp [showAcceptTask, h]

theorem showMarkAsFulfilled_of_not_pending (ctx : FirebaseContext) (request : Doc)
    (h : getField request "status" ≠ Val.str "pending") :
    showMarkAsFulfilled ctx request = false := by
  simp [showMarkAsFulfilled, h]

/-! ## C1: accepting a task that is not pending -/

/-- C1, refuted as stated: the task `t1` is already assigned to `v1`; volunteer `v2` calls
`handleAcceptTask` on it at instant 9.  The call does not fail: it reports success and the stored
task now has `assignedTo = v2` and `assignedAt = 9`. -/
theorem acceptTask_on_assigned_overwrites :
    getField exAssignedTask "status" = Val.str "assigned" ∧
    getField exAssignedTask "assignedTo" = Val.str "v1" ∧
    getField exAssignedTask "assignedAt" = Val.date 5 ∧
    (handleAcceptTask (exCtx "v2" "volunteer") (exEnv 9) exVolunteerPage
      (exTaskWorld exAssignedTask) "t1").1.createTaskMessage = "Task accepted successfully!" ∧
    (findDoc (handleAcceptTask (exCtx "v2" "volunteer") (exEnv 9) exVolunteerPage
      (exTaskWorld exAssignedTask) "t1").2.store.volunteerTasks "t1").map
        (fun t => (getField t "status", getField t "assignedTo", getField t "assignedAt"))
      = some (Val.str "assigned", Val.str "v2", Val.date 9) := by
  decide

/-- C1, amended: for a task whose status is not 'pending' the "Accept Task" button is rendered
for no actor, so the page offers no accept on it; `handleAcceptTask` itself checks the role only:
called by a volunteer on any stored task, with the write accepted, it reports success and sets
status = 'assigned', assignedTo = the actor and assignedAt = now, whatever the status was. -/
theorem acceptTask_gate_in_button_not_in_handler (ctx anyCtx : FirebaseContext) (env : Env)
    (st : VolunteerCoordinationPage) (w : World) (taskId : String) (task shown : Doc)
    (hdb : ctx.db = true) (hu : truthy ctx.userId = true) (hrole : ctx.userRole = "volunteer")
    (hw : env.writeError = none) (hfind : findDoc w.store.volunteerTasks taskId = some task) :
    (getField shown "status" ≠ Val.str "pending" → showAcceptTask anyCtx shown = false) ∧
    (handleAcceptTask ctx env st w taskId).1.createTaskMessage = "Task accepted successfully!" ∧
    ∃ t, findDoc (handleAcceptTask ctx env st w taskId).2.store.volunteerTasks taskId = some t ∧
      getField t "status" = Val.str "assigned" ∧
      getField t "assignedTo" = optStr ctx.userId ∧
      getField t "assignedAt" = Val.date env.now := by
  obtain ⟨w2, hrun, hdoc⟩ := handleAcceptTask_spec ctx env st w taskId task hdb hu hrole hw hfind
  rw [hrun]
  exact ⟨showAcceptTask_of_not_pending anyCtx shown, rfl, _, hdoc, getField_accepted task _ _ _⟩

/-- The amended C1 at a concrete input: volunteer `v2` and the completed task `t1`. -/
theorem acceptTask_gate_in_button_not_in_handler_witness :
    showAcceptTask (exCtx "v2" "volunteer") exCompletedTask = false ∧
    (handleAcceptTask (exCtx "v2" "volunteer") (exEnv 9) exVolunteerPage
      (exTaskWorld exCompletedTask) "t1").1.createTaskMessage = "Task accepted successfully!" ∧
    ∃ t, findDoc (handleAcceptTask (exCtx "v2" "volunteer") (exEnv 9) exVolunteerPage
        (exTaskWorld exCompletedTask) "t1").2.store.volunteerTasks "t1" = some t ∧
      getField t "status" = Val.str "assigned" ∧
      getField t "assignedTo" = optStr (exCtx "v2" "volunteer").userId ∧
      getField t "assignedAt" = Val.date (exEnv 9).now :=
  ⟨(acceptTask_gate_in_button_not_in_handler (exCtx "v2" "volunteer")
      (exCtx "v2" "volunteer") (exEnv 9) exVolunteerPage (exTaskWorld exCompletedTask) "t1"
      exCompletedTask exCompletedTask (by decide) (by decide) (by decide) (by decide)
      (by decide)).1 (by decide),
   (acceptTask_gate_in_button_not_in_handler (exCtx "v2" "volunteer")
      (exCtx "v2" "volunteer") (exEnv 9) exVolunteerPage (exTaskWorld exCompletedTask) "t1"
      exCompletedTask exCompletedTask (by decide) (by decide) (by decide) (by decide)
      (by decide)).2⟩

/-! ## C2: fulfilling a request twice -/

/-- C2, refuted as stated: request `r1` of `u1` is fulfilled by `u2` at instant 10 and then again
by `u3` at instant 20.  The second call also reports success and replaces `fulfilledBy` and
`fulfilledAt`. -/
theorem markAsFulfilled_second_call_overwrites :
    (handleMarkAsFulfilled (exCtx "u2" "volunteer") (exEnv 10) exRequestsPage
      (exRequestWorld exPendingRequest) "r1").1.message = "Request marked as fulfilled." ∧
    (findDoc (handleMarkAsFulfilled (exCtx "u2" "volunteer") (exEnv 10) exRequestsPage
      (exRequestWorld exPendingRequest) "r1").2.store.resourceRequests "r1").map
        (fun r => (getField r "status", getField r "fulfilledBy", getField r "fulfilledAt"))
      = some (Val.str "fulfilled", Val.str "u2", Val.date 10) ∧
    (handleMarkAsFulfilled (exCtx "u3" "ngo") (exEnv 20) exRequestsPage
      (handleMarkAsFulfilled (exCtx "u2" "volunteer") (exEnv 10) exRequestsPage
        (exRequestWorld exPendingRequest) "r1").2 "r1").1.message
      = "Request marked as fulfilled." ∧
    (findDoc (handleMarkAsFulfilled (exCtx "u3" "ngo") (exEnv 20) exRequestsPage
      (handleMarkAsFulfilled (exCtx "u2" "volunteer") (exEnv 10) exRequestsPage
        (exRequestWorld exPendingRequest) "r1").2 "r1").2.store.resourceRequests "r1").map
        (fun r => (getField r "status", getField r "fulfilledBy", getField r "fulfilledAt"))
      = some (Val.str "fulfilled", Val.str "u3", Val.date 20) := by
  decide

/-- C2, amended: `handleMarkAsFulfilled` applied twice to the same stored id succeeds both times
(it checks no status); the first call sets status = 'fulfilled', fulfilledBy and fulfilledAt, and
the second call keeps status = 'fulfilled' and sets fulfilledBy and fulfilledAt to the second
caller and instant.  What holds of "at most once" is in the rendering: once the request is
stored as fulfilled, the "Mark as Fulfilled" button is rendered for no actor. -/
theorem markAsFulfilled_twice (ctxA ctxB : FirebaseContext) (envA envB : Env)
    (st st2 : ResourceRequestsPage) (w : World) (requestId : String) (request : Doc)
    (hdbA : ctxA.db = true) (hdbB : ctxB.db = true)
    (hwA : envA.writeError = none) (hwB : envB.writeError = none)
    (hfind : findDoc w.store.resourceRequests requestId = some request) :
    (handleMarkAsFulfilled ctxA envA st w requestId).1.message = "Request marked as fulfilled." ∧
    (handleMarkAsFulfilled ctxB envB st2
      (handleMarkAsFulfilled ctxA envA st w requestId).2 requestId).1.message
      = "Request marked as fulfilled." ∧
    ∃ r1 r2,
      findDoc (handleMarkAsFulfilled ctxA envA st w requestId).2.store.resourceRequests requestId
        = some r1 ∧
      findDoc (handleMarkAsFulfilled ctxB envB st2
        (handleMarkAsFulfilled ctxA envA st w requestId).2 requestId).2.store.resourceRequests
          requestId = some r2 ∧
      getField r1 "status" = Val.str "fulfilled" ∧
      getField r1 "fulfilledBy" = optStr ctxA.userId ∧
      getField r1 "fulfilledAt" = Val.date envA.now ∧
      (∀ anyCtx, showMarkAsFulfilled anyCtx r1 = false) ∧
      getField r2 "status" = Val.str "fulfilled" ∧
      getField r2 "fulfilledBy" = optStr ctxB.userId ∧
      getField r2 "fulfilledAt" = Val.date envB.now := by
  obtain ⟨w1, hrun1, hdoc1⟩ :=
    handleMarkAsFulfilled_spec ctxA envA st w requestId request hdbA hwA hfind
  rw [hrun1]
  obtain ⟨w2, hrun2, hdoc2⟩ :=
    handleMarkAsFulfilled_spec ctxB envB st2 w1 requestId _ hdbB hwB hdoc1
  rw [hrun2]
  obtain ⟨a1, a2, a3⟩ := getField_fulfilled request (Val.str "fulfilled")
    (optStr ctxA.userId) (Val.date envA.now)
  obtain ⟨b1, b2, b3⟩ := getField_fulfilled
    (mergeFields request [("status", Val.str "fulfilled"),
      ("fulfilledBy", optStr ctxA.userId), ("fulfilledAt", Val.date envA.now)])
    (Val.str "fulfilled") (optStr ctxB.userId) (Val.date envB.now)
  refine ⟨rfl, rfl, _, _, hdoc1, hdoc2, a1, a2, a3, ?_, b1, b2, b3⟩
  intro anyCtx
  apply showMarkAsFulfilled_of_not_pending
  rw [a1]
  decide

/-- The amended C2 at a concrete input: `u2` then `u3` on the pending request `r1` of `u1`. -/
theorem markAsFulfilled_twice_witness :
    (handleMarkAsFulfilled (exCtx "u2" "volunteer") (exEnv 10) exRequestsPage
      (exRequestWorld exPendingRequest) "r1").1.message = "Request marked as fulfilled." ∧
    (handleMarkAsFulfilled (exCtx "u3" "ngo") (exEnv 20) exRequestsPage
      (handleMarkAsFulfilled (exCtx "u2" "volunteer") (exEnv 10) exRequestsPage
        (exRequestWorld exPendingRequest) "r1").2 "r1").1.message
      = "Request marked as fulfilled." ∧
    ∃ r1 r2,
      findDoc (handleMarkAsFulfilled (exCtx "u2" "volunteer") (exEnv 10) exRequestsPage
        (exRequestWorld exPendingRequest) "r1").2.store.resourceRequests "r1" = some r1 ∧
      findDoc (handleMarkAsFulfilled (exCtx "u3" "ngo") (exEnv 20) exRequestsPage
        (handleMarkAsFulfilled (exCtx "u2" "volunteer") (exEnv 10) exRequestsPage
          (exRequestWorld exPendingRequest) "r1").2 "r1").2.store.resourceRequests "r1"
        = some r2 ∧
      getField r1 "status" = Val.str "fulfilled" ∧
      getField r1 "fulfilledBy" = optStr (exCtx "u2" "volunteer").userId ∧
      getField r1 "fulfilledAt" = Val.date (exEnv 10).now ∧
      (∀ anyCtx, showMarkAsFulfilled anyCtx r1 = false) ∧
      getField r2 "status" = Val.str "fulfilled" ∧
      getField r2 "fulfilledBy" = optStr (exCtx "u3" "ngo").userId ∧
      getField r2 "fulfilledAt" = Val.date (exEnv 20).now :=
  markAsFulfilled_twice (exCtx "u2" "volunteer") (exCtx "u3" "ngo") (exEnv 10) (exEnv 20)
    exRequestsPage exRequestsPage (exRequestWorld exPendingRequest) "r1" exPendingRequest
    (by decide) (by decide) (by decide) (by decide) (by decide)

/-! ## C3: who may complete a task -/

/-- C3, refuted as stated: task `t1` is assigned to `v1`; volunteer `v2`, who is not the
assignee, calls `handleCompleteTask` at instant 9.  The call is not denied: it reports success
and the stored task is completed. -/
theorem completeTask_by_other_volunteer_succeeds :
    getField exAssignedTask "assignedTo" = Val.str "v1" ∧
    (handleCompleteTask (exCtx "v2" "volunteer") (exEnv 9) exVolunteerPage
      (exTaskWorld exAssignedTask) "t1").1.createTaskMessage = "Task marked as completed!" ∧
    (findDoc (handleCompleteTask (exCtx "v2" "volunteer") (exEnv 9) exVolunteerPage
      (exTaskWorld exAssignedTask) "t1").2.store.volunteerTasks "t1").map
        (fun t => (getField t "status", getField t "assignedTo", getField t "completedAt"))
      = some (Val.str "completed", Val.str "v1", Val.date 9) := by
  decide

/-- C3, amended: `handleCompleteTask` checks the role only.  With role volunteer, admin or ngo
it completes any stored task (status = 'completed', completedAt = now), whoever the assignee is;
with any other role (victim) it is denied and nothing changes.  The assignee condition is in
the rendering: to a volunteer the "Mark as Completed" button is rendered exactly when the task is
assigned and its assignedTo is the volunteer, so a volunteer is offered the action on no pending
task and on no task assigned to someone else. -/
theorem completeTask_role_in_handler_assignee_in_button (ctx : FirebaseContext) (env : Env)
    (st : VolunteerCoordinationPage) (w : World) (taskId : String) (task shown : Doc)
    (hdb : ctx.db = true) (hu : truthy ctx.userId = true)
    (hw : env.writeError = none) (hfind : findDoc w.store.volunteerTasks taskId = some task) :
    ((ctx.userRole = "volunteer" ∨ ctx.userRole = "admin" ∨ ctx.userRole = "ngo") →
      (handleCompleteTask ctx env st w taskId).1.createTaskMessage = "Task marked as completed!" ∧
      ∃ t, findDoc (handleCompleteTask ctx env st w taskId).2.store.volunteerTasks taskId
          = some t ∧
        getField t "status" = Val.str "completed" ∧
        getField t "completedAt" = Val.date env.now) ∧
    (¬ (ctx.userRole = "volunteer" ∨ ctx.userRole = "admin" ∨ ctx.userRole = "ngo") →
      handleCompleteTask ctx env st w taskId =
        ({ st with createTaskMessage :=
            "Error: Only assigned volunteers, Admins, or NGOs can complete tasks." }, w)) ∧
    (ctx.userRole = "volunteer" →
      (showMarkAsCompleted ctx shown = true ↔
        getField shown "status" = Val.str "assigned" ∧
        getField shown "assignedTo" = optStr ctx.userId)) := by
  refine ⟨?_, handleCompleteTask_denied ctx env st w taskId hdb hu, ?_⟩
  · intro hrole
    obtain ⟨w2, hrun, hdoc⟩ :=
      handleCompleteTask_spec ctx env st w taskId task hdb hu hrole hw hfind
    rw [hrun]
    exact ⟨rfl, _, hdoc, getField_completed task _ _⟩
  · intro hrole
    simp [showMarkAsCompleted, hrole]

/-- The amended C3 at concrete inputs: volunteer `v2` completes the task `t1` assigned to `v1`
although the button is not rendered to `v2`; victim `u1` is denied. -/
theorem completeTask_role_in_handler_assignee_in_button_witness :
    ((handleCompleteTask (exCtx "v2" "volunteer") (exEnv 9) exVolunteerPage
        (exTaskWorld exAssignedTask) "t1").1.createTaskMessage = "Task marked as completed!" ∧
      ∃ t, findDoc (handleCompleteTask (exCtx "v2" "volunteer") (exEnv 9) exVolunteerPage
          (exTaskWorld exAssignedTask) "t1").2.store.volunteerTasks "t1" = some t ∧
        getField t "status" = Val.str "completed" ∧
        getField t "completedAt" = Val.date (exEnv 9).now) ∧
    handleCompleteTask (exCtx "u1" "victim") (exEnv 9) exVolunteerPage
        (exTaskWorld exAssignedTask) "t1" =
      ({ exVolunteerPage with createTaskMessage :=
          "Error: Only assigned volunteers, Admins, or NGOs can complete tasks." },
        exTaskWorld exAssignedTask) ∧
    (showMarkAsCompleted (exCtx "v1" "volunteer") exAssignedTask = true ↔
      getField exAssignedTask "status" = Val.str "assigned" ∧
      getField exAssignedTask "assignedTo" = optStr (exCtx "v1" "volunteer").userId) :=
  ⟨(completeTask_role_in_handler_assignee_in_button (exCtx "v2" "volunteer") (exEnv 9)
      exVolunteerPage (exTaskWorld exAssignedTask) "t1" exAssignedTask exAssignedTask
      (by decide) (by decide) (by decide) (by decide)).1 (by decide),
   (completeTask_role_in_handler_assignee_in_button (exCtx "u1" "victim") (exEnv 9)
      exVolunteerPage (exTaskWorld exAssignedTask) "t1" exAssignedTask exAssignedTask
      (by decide) (by decide) (by decide) (by decide)).2.1 (by decide),
   (completeTask_role_in_handler_assignee_in_button (exCtx "v1" "volunteer") (exEnv 9)
      exVolunteerPage (exTaskWorld exAssignedTask) "t1" exAssignedTask exAssignedTask
      (by decide) (by decide) (by decide) (by decide)).2.2 (by decide)⟩

/-! ## C4: what happens to a completed task -/

/-- C4, refuted as stated: task `t1` is completed; volunteer `v2` calls `handleAcceptTask` on it
at instant 9 and the stored status goes back to 'assigned', with `v2` as assignee. -/
theorem acceptTask_on_completed_reverts_status :
    getField exCompletedTask "status" = Val.str "completed" ∧
    (findDoc (handleAcceptTask (exCtx "v2" "volunteer") (exEnv 9) exVolunteerPage
      (exTaskWorld exCompletedTask) "t1").2.store.volunteerTasks "t1").map
        (fun t => (getField t "status", getField t "assignedTo"))
      = some (Val.str "assigned", Val.str "v2") := by
  decide

/-- C4, amended: for every stored task whose status is 'completed', `handleCompleteTask` invoked
by any role leaves the status 'completed', and `handleAcceptTask` invoked by any role other than
volunteer changes nothing in the store; the "Accept Task" button is rendered for no actor on a
task whose status is not 'pending' (completed or assigned), so the page offers neither the move
back from completed nor a re-assignment. -/
theorem completedTask_status_kept (ctx : FirebaseContext) (env : Env)
    (st : VolunteerCoordinationPage) (w : World) (taskId : String) (task shown : Doc)
    (hfind : findDoc w.store.volunteerTasks taskId = some task)
    (hstatus : getField task "status" = Val.str "completed") :
    (∃ t, findDoc (handleCompleteTask ctx env st w taskId).2.store.volunteerTasks taskId
        = some t ∧ getField t "status" = Val.str "completed") ∧
    (ctx.userRole ≠ "volunteer" → (handleAcceptTask ctx env st w taskId).2 = w) ∧
    (getField shown "status" ≠ Val.str "pending" → showAcceptTask ctx shown = false) := by
  refine ⟨?_, handleAcceptTask_denied ctx env st w taskId,
    showAcceptTask_of_not_pending ctx shown⟩
  rcases handleCompleteTask_volunteerTasks ctx env st w taskId with h | h
  · rw [h]
    exact ⟨task, hfind, hstatus⟩
  · rw [h]
    exact ⟨_, findDoc_map_same w.store.volunteerTasks taskId task
      (fun d => mergeFields d [("status", Val.str "completed"),
        ("completedAt", Val.date env.now)]) hfind, (getField_completed task _ _).1⟩

/-- The amended C4 at a concrete input: admin `a1` and the completed task `t1`. -/
theorem completedTask_status_kept_witness :
    (∃ t, findDoc (handleCompleteTask (exCtx "a1" "admin") (exEnv 9) exVolunteerPage
        (exTaskWorld exCompletedTask) "t1").2.store.volunteerTasks "t1" = some t ∧
      getField t "status" = Val.str "completed") ∧
    (handleAcceptTask (exCtx "a1" "admin") (exEnv 9) exVolunteerPage
      (exTaskWorld exCompletedTask) "t1").2 = exTaskWorld exCompletedTask ∧
    showAcceptTask (exCtx "a1" "admin") exAssignedTask = false :=
  ⟨(completedTask_status_kept (exCtx "a1" "admin") (exEnv 9) exVolunteerPage
      (exTaskWorld exCompletedTask) "t1" exCompletedTask exAssignedTask (by decide)
      (by decide)).1,
   (completedTask_status_kept (exCtx "a1" "admin") (exEnv 9) exVolunteerPage
      (exTaskWorld exCompletedTask) "t1" exCompletedTask exAssignedTask (by decide)
      (by decide)).2.1 (by decide),
   (completedTask_status_kept (exCtx "a1" "admin") (exEnv 9) exVolunteerPage
      (exTaskWorld exCompletedTask) "t1" exCompletedTask exAssignedTask (by decide)
      (by decide)).2.2 (by decide)⟩

/-! ## C5: who may send a broadcast -/

/-- C5: with the store handle and the actor identifier present and the write accepted,
`handleSubmitBroadcast` adds exactly one document to `broadcasts` (and touches nothing else) when
the role is 'admin' or 'ngo'; for every other role it adds nothing, calls no collaborator, and
reports 'Error: Only Admins and NGOs can send broadcasts.'. -/
theorem submitBroadcast_role_gate (ctx : FirebaseContext) (env : Env)
    (st : RealTimeUpdatesPage) (w : World)
    (hdb : ctx.db = true) (hu : truthy ctx.userId = true) (hw : env.writeError = none) :
    ((ctx.userRole = "admin" ∨ ctx.userRole = "ngo") →
      ∃ doc : Doc,
        (handleSubmitBroadcast ctx env st w).2.store =
          { w.store with broadcasts := w.store.broadcasts ++ [(env.newId, doc)] } ∧
        (handleSubmitBroadcast ctx env st w).2.trace =
          w.trace ++ [Effect.addDoc "broadcasts" doc]) ∧
    (¬ (ctx.userRole = "admin" ∨ ctx.userRole = "ngo") →
      handleSubmitBroadcast ctx env st w =
        ({ st with feedbackMessage := "Error: Only Admins and NGOs can send broadcasts." },
          w)) := by
  constructor
  · intro hrole
    have hguard : (ctx.userRole != "admin" && ctx.userRole != "ngo") = false := by
      rcases hrole with h | h <;> simp [h]
    simp only [handleSubmitBroadcast, hdb, hu, hguard, addDoc, hw]
    exact ⟨_, rfl, rfl⟩
  · intro hrole
    simp only [not_or] at hrole
    simp [handleSubmitBroadcast, hdb, hu, hrole.1, hrole.2]

/-- C5 at concrete inputs: ngo `n1` adds one broadcast to the empty store; volunteer `v1` is
rejected. -/
theorem submitBroadcast_role_gate_witness :
    (∃ doc : Doc,
      (handleSubmitBroadcast (exCtx "n1" "ngo") (exEnv 3) exUpdatesPage exEmptyWorld).2.store =
        { exEmptyWorld.store with
          broadcasts := exEmptyWorld.store.broadcasts ++ [((exEnv 3).newId, doc)] } ∧
      (handleSubmitBroadcast (exCtx "n1" "ngo") (exEnv 3) exUpdatesPage exEmptyWorld).2.trace =
        exEmptyWorld.trace ++ [Effect.addDoc "broadcasts" doc]) ∧
    handleSubmitBroadcast (exCtx "v1" "volunteer") (exEnv 3) exUpdatesPage exEmptyWorld =
      ({ exUpdatesPage with
          feedbackMessage := "Error: Only Admins and NGOs can send broadcasts." },
        exEmptyWorld) :=
  ⟨(submitBroadcast_role_gate (exCtx "n1" "ngo") (exEnv 3) exUpdatesPage exEmptyWorld
      (by decide) (by decide) (by decide)).1 (by decide),
   (submitBroadcast_role_gate (exCtx "v1" "volunteer") (exEnv 3) exUpdatesPage exEmptyWorld
      (by decide) (by decide) (by decide)).2 (by decide)⟩

/-! ## C6: who may create a task -/

/-- C6: in an initialised context (store handle and actor identifier present),
`handleCreateTask` with a role other than 'admin' and 'ngo' returns before any location
resolution: the world is unchanged (no geocoder call in the trace, no document added) and the
message is 'Error: Only Admins and NGOs can create tasks.'.  With role 'admin' or 'ngo', a
non-empty location that the geocoder resolves and the write accepted, the geocoder is called once
and exactly one document is added to `volunteerTasks`. -/
theorem createTask_role_gate (ctx : FirebaseContext) (env : Env)
    (st : VolunteerCoordinationPage) (w : World)
    (hdb : ctx.db = true) (hu : truthy ctx.userId = true) :
    (¬ (ctx.userRole = "admin" ∨ ctx.userRole = "ngo") →
      handleCreateTask ctx env st w =
        ({ st with createTaskMessage := "Error: Only Admins and NGOs can create tasks." }, w)) ∧
    ((ctx.userRole = "admin" ∨ ctx.userRole = "ngo") →
      st.taskLocation ≠ "" →
      (∃ lat lng more, env.geocode st.taskLocation =
        some { status := "OK", results := (lat, lng) :: more }) →
      env.writeError = none →
      ∃ doc : Doc,
        (handleCreateTask ctx env st w).2.store =
          { w.store with volunteerTasks := w.store.volunteerTasks ++ [(env.newId, doc)] } ∧
        (handleCreateTask ctx env st w).2.trace =
          w.trace ++ [Effect.geocode st.taskLocation, Effect.addDoc "volunteerTasks" doc]) := by
  constructor
  · intro hrole
    simp only [not_or] at hrole
    simp [handleCreateTask, hdb, hu, hrole.1, hrole.2]
  · intro hrole hloc hgeo hw
    obtain ⟨lat, lng, more, hgeo⟩ := hgeo
    rw [handleCreateTask_run ctx env st w lat lng more hdb hu hrole hloc hgeo hw]
    exact ⟨_, rfl, rfl⟩

/-- C6 at concrete inputs: victim `u1` is rejected with the world untouched; ngo `n1` creates
a task at "Secunderabad" on the empty store. -/
theorem createTask_role_gate_witness :
    handleCreateTask (exCtx "u1" "victim") (exEnv 3)
        { exVolunteerPage with taskLocation := "Secunderabad" } exEmptyWorld =
      ({ exVolunteerPage with
          taskLocation := "Secunderabad",
          createTaskMessage := "Error: Only Admins and NGOs can create tasks." },
        exEmptyWorld) ∧
    ∃ doc : Doc,
      (handleCreateTask (exCtx "n1" "ngo") (exEnv 3)
          { exVolunteerPage with taskLocation := "Secunderabad" } exEmptyWorld).2.store =
        { exEmptyWorld.store with
          volunteerTasks := exEmptyWorld.store.volunteerTasks ++ [((exEnv 3).newId, doc)] } ∧
      (handleCreateTask (exCtx "n1" "ngo") (exEnv 3)
          { exVolunteerPage with taskLocation := "Secunderabad" } exEmptyWorld).2.trace =
        exEmptyWorld.trace ++
          [Effect.geocode "Secunderabad", Effect.addDoc "volunteerTasks" doc] :=
  ⟨(createTask_role_gate (exCtx "u1" "victim") (exEnv 3)
      { exVolunteerPage with taskLocation := "Secunderabad" } exEmptyWorld
      (by decide) (by decide)).1 (by decide),
   (createTask_role_gate (exCtx "n1" "ngo") (exEnv 3)
      { exVolunteerPage with taskLocation := "Secunderabad" } exEmptyWorld
      (by decide) (by decide)).2 (by decide) (by decide) ⟨17, 78, [(18, 79)], rfl⟩ rfl⟩

/-! ## C7: who may accept a task -/

/-- C7: in an initialised context, `handleAcceptTask` with any role other than 'volunteer'
(victim, ngo, admin, or any other string) leaves the world unchanged (no `updateDoc` call, no
store change) and reports 'Error: Only volunteers can accept tasks.'; with role 'volunteer' on a
stored pending task, the write accepted, it reports success and the task becomes assigned to the
actor at the current instant. -/
theorem acceptTask_role_gate (ctx : FirebaseContext) (env : Env)
    (st : VolunteerCoordinationPage) (w : World) (taskId : String) (task : Doc)
    (hdb : ctx.db = true) (hu : truthy ctx.userId = true) :
    (ctx.userRole ≠ "volunteer" →
      handleAcceptTask ctx env st w taskId =
        ({ st with createTaskMessage := "Error: Only volunteers can accept tasks." }, w)) ∧
    (ctx.userRole = "volunteer" → env.writeError = none →
      findDoc w.store.volunteerTasks taskId = some task →
      getField task "status" = Val.str "pending" →
      (handleAcceptTask ctx env st w taskId).1.createTaskMessage = "Task accepted successfully!" ∧
      ∃ t, findDoc (handleAcceptTask ctx env st w taskId).2.store.volunteerTasks taskId
          = some t ∧
        getField t "status" = Val.str "assigned" ∧
        getField t "assignedTo" = optStr ctx.userId ∧
        getField t "assignedAt" = Val.date env.now) := by
  refine ⟨handleAcceptTask_wrong_role ctx env st w taskId hdb hu, ?_⟩
  intro hrole hw hfind _
  obtain ⟨w2, hrun, hdoc⟩ := handleAcceptTask_spec ctx env st w taskId task hdb hu hrole hw hfind
  rw [hrun]
  exact ⟨rfl, _, hdoc, getField_accepted task _ _ _⟩

/-- C7 at concrete inputs: admin `a1` is rejected on the pending task `t1`; volunteer `v1`
accepts it. -/
theorem acceptTask_role_gate_witness :
    handleAcceptTask (exCtx "a1" "admin") (exEnv 4) exVolunteerPage
        (exTaskWorld exPendingTask) "t1" =
      ({ exVolunteerPage with createTaskMessage := "Error: Only volunteers can accept tasks." },
        exTaskWorld exPendingTask) ∧
    (handleAcceptTask (exCtx "v1" "volunteer") (exEnv 4) exVolunteerPage
      (exTaskWorld exPendingTask) "t1").1.createTaskMessage = "Task accepted successfully!" ∧
    ∃ t, findDoc (handleAcceptTask (exCtx "v1" "volunteer") (exEnv 4) exVolunteerPage
        (exTaskWorld exPendingTask) "t1").2.store.volunteerTasks "t1" = some t ∧
      getField t "status" = Val.str "assigned" ∧
      getField t "assignedTo" = optStr (exCtx "v1" "volunteer").userId ∧
      getField t "assignedAt" = Val.date (exEnv 4).now :=
  ⟨(acceptTask_role_gate (exCtx "a1" "admin") (exEnv 4) exVolunteerPage
      (exTaskWorld exPendingTask) "t1" exPendingTask (by decide) (by decide)).1 (by decide),
   (acceptTask_role_gate (exCtx "v1" "volunteer") (exEnv 4) exVolunteerPage
      (exTaskWorld exPendingTask) "t1" exPendingTask (by decide) (by decide)).2
      (by decide) (by decide) (by decide) (by decide)⟩

/-! ## C8: the requester and the fulfilment of the own request -/

/-- C8, refuted as stated: `u1`, the requester of the pending request `r1`, calls
`handleMarkAsFulfilled` on it at instant 6.  The call is not denied: the request is stored as
fulfilled by `u1`. -/
theorem markAsFulfilled_by_requester_succeeds :
    getField exPendingRequest "userId" = optStr (exCtx "u1" "victim").userId ∧
    (handleMarkAsFulfilled (exCtx "u1" "victim") (exEnv 6) exRequestsPage
      (exRequestWorld exPendingRequest) "r1").1.message = "Request marked as fulfilled." ∧
    (findDoc (handleMarkAsFulfilled (exCtx "u1" "victim") (exEnv 6) exRequestsPage
      (exRequestWorld exPendingRequest) "r1").2.store.resourceRequests "r1").map
        (fun r => (getField r "status", getField r "fulfilledBy", getField r "fulfilledAt"))
      = some (Val.str "fulfilled", Val.str "u1", Val.date 6) := by
  decide

/-- C8, amended: for every request and every actor whose identifier equals the request's
userId, the "Mark as Fulfilled" button is not rendered, so the page does not offer the requester
the fulfilment of the own request; for every other actor on a pending request the button is
rendered, and `handleMarkAsFulfilled` (which compares no identifiers) on a stored request, with
the write accepted, sets status = 'fulfilled', fulfilledBy = the actor and fulfilledAt = now. -/
theorem fulfil_requester_excluded_by_button (ctx : FirebaseContext) (env : Env)
    (st : ResourceRequestsPage) (w : World) (requestId : String) (request shown : Doc)
    (hdb : ctx.db = true) (hw : env.writeError = none)
    (hfind : findDoc w.store.resourceRequests requestId = some request) :
    (getField shown "userId" = optStr ctx.userId → showMarkAsFulfilled ctx shown = false) ∧
    (getField shown "userId" ≠ optStr ctx.userId →
      getField shown "status" = Val.str "pending" → showMarkAsFulfilled ctx shown = true) ∧
    (handleMarkAsFulfilled ctx env st w requestId).1.message = "Request marked as fulfilled." ∧
    ∃ r, findDoc (handleMarkAsFulfilled ctx env st w requestId).2.store.resourceRequests
        requestId = some r ∧
      getField r "status" = Val.str "fulfilled" ∧
      getField r "fulfilledBy" = optStr ctx.userId ∧
      getField r "fulfilledAt" = Val.date env.now := by
  obtain ⟨w2, hrun, hdoc⟩ :=
    handleMarkAsFulfilled_spec ctx env st w requestId request hdb hw hfind
  rw [hrun]
  refine ⟨?_, ?_, rfl, _, hdoc, getField_fulfilled request _ _ _⟩
  · intro h
    simp [showMarkAsFulfilled, h]
  · intro h hp
    simp [showMarkAsFulfilled, h, hp]

/-- The amended C8 at concrete inputs: the button is hidden from the requester `u1` and shown
to `u2`, who then fulfils the pending request `r1`. -/
theorem fulfil_requester_excluded_by_button_witness :
    showMarkAsFulfilled (exCtx "u1" "victim") exPendingRequest = false ∧
    showMarkAsFulfilled (exCtx "u2" "volunteer") exPendingRequest = true ∧
    (handleMarkAsFulfilled (exCtx "u2" "volunteer") (exEnv 6) exRequestsPage
      (exRequestWorld exPendingRequest) "r1").1.message = "Request marked as fulfilled." ∧
    ∃ r, findDoc (handleMarkAsFulfilled (exCtx "u2" "volunteer") (exEnv 6) exRequestsPage
        (exRequestWorld exPendingRequest) "r1").2.store.resourceRequests "r1" = some r ∧
      getField r "status" = Val.str "fulfilled" ∧
      getField r "fulfilledBy" = optStr (exCtx "u2" "volunteer").userId ∧
      getField r "fulfilledAt" = Val.date (exEnv 6).now :=
  ⟨(fulfil_requester_excluded_by_button (exCtx "u1" "victim") (exEnv 6) exRequestsPage
      (exRequestWorld exPendingRequest) "r1" exPendingRequest exPendingRequest
      (by decide) (by decide) (by decide)).1 (by decide),
   (fulfil_requester_excluded_by_button (exCtx "u2" "volunteer") (exEnv 6) exRequestsPage
      (exRequestWorld exPendingRequest) "r1" exPendingRequest exPendingRequest
      (by decide) (by decide) (by decide)).2.1 (by decide) (by decide),
   (fulfil_requester_excluded_by_button (exCtx "u2" "volunteer") (exEnv 6) exRequestsPage
      (exRequestWorld exPendingRequest) "r1" exPendingRequest exPendingRequest
      (by decide) (by decide) (by decide)).2.2⟩

/-! ## C9: what a successful fulfilment writes -/

/-- C9: for every stored request (pending in particular) and actor `a`, with the store handle
present and the write accepted, `handleMarkAsFulfilled` reports success and issues exactly one
`updateDoc`, carrying the three fields status = 'fulfilled', fulfilledBy = `a` and
fulfilledAt = now; afterwards the stored request has these three values, every other field of
it (userId, requestType, description, location, latitude, longitude, timestamp, and any other
key) reads as before, and every other document of the collection is untouched. -/
theorem markAsFulfilled_sets_three_fields_only (ctx : FirebaseContext) (env : Env)
    (st : ResourceRequestsPage) (w : World) (requestId a : String) (request : Doc)
    (hdb : ctx.db = true) (ha : ctx.userId = some a) (hw : env.writeError = none)
    (hfind : findDoc w.store.resourceRequests requestId = some request)
    (hpending : getField request "status" = Val.str "pending") :
    (handleMarkAsFulfilled ctx env st w requestId).1.message = "Request marked as fulfilled." ∧
    (handleMarkAsFulfilled ctx env st w requestId).2.trace =
      w.trace ++ [Effect.updateDoc "resourceRequests" requestId
        [("status", Val.str "fulfilled"), ("fulfilledBy", Val.str a),
         ("fulfilledAt", Val.date env.now)]] ∧
    (∃ r, findDoc (handleMarkAsFulfilled ctx env st w requestId).2.store.resourceRequests
        requestId = some r ∧
      getField r "status" = Val.str "fulfilled" ∧
      getField r "fulfilledBy" = Val.str a ∧
      getField r "fulfilledAt" = Val.date env.now ∧
      ∀ k, k ≠ "status" → k ≠ "fulfilledBy" → k ≠ "fulfilledAt" →
        getField r k = getField request k) ∧
    (∀ other, other ≠ requestId →
      findDoc (handleMarkAsFulfilled ctx env st w requestId).2.store.resourceRequests other =
        findDoc w.store.resourceRequests other) := by
  have _ := hpending
  rw [handleMarkAsFulfilled_run ctx env st w requestId request hdb hw hfind]
  have hopt : optStr ctx.userId = Val.str a := by rw [ha]; rfl
  rw [hopt]
  refine ⟨rfl, rfl, ⟨_, findDoc_map_same w.store.resourceRequests requestId request
    (fun d => mergeFields d [("status", Val.str "fulfilled"),
      ("fulfilledBy", Val.str a), ("fulfilledAt", Val.date env.now)]) hfind, ?_⟩, ?_⟩
  · obtain ⟨h1, h2, h3⟩ := getField_fulfilled request (Val.str "fulfilled") (Val.str a)
      (Val.date env.now)
    refine ⟨h1, h2, h3, ?_⟩
    intro k hk1 hk2 hk3
    apply getField_mergeFields_of_not_mem
    intro kv hkv
    simp only [List.mem_cons, List.mem_singleton, List.not_mem_nil, or_false] at hkv
    rcases hkv with h | h | h <;> subst h
    · exact Ne.symm hk1
    · exact Ne.symm hk2
    · exact Ne.symm hk3
  · intro other hother
    exact findDoc_map_ne w.store.resourceRequests requestId other
      (fun d => mergeFields d [("status", Val.str "fulfilled"),
        ("fulfilledBy", Val.str a), ("fulfilledAt", Val.date env.now)]) hother

/-- C9 at a concrete input: `u2` fulfils the pending request `r1` of `u1` at instant 6. -/
theorem markAsFulfilled_sets_three_fields_only_witness :
    (handleMarkAsFulfilled (exCtx "u2" "volunteer") (exEnv 6) exRequestsPage
      (exRequestWorld exPendingRequest) "r1").1.message = "Request marked as fulfilled." ∧
    (handleMarkAsFulfilled (exCtx "u2" "volunteer") (exEnv 6) exRequestsPage
      (exRequestWorld exPendingRequest) "r1").2.trace =
      (exRequestWorld exPendingRequest).trace ++ [Effect.updateDoc "resourceRequests" "r1"
        [("status", Val.str "fulfilled"), ("fulfilledBy", Val.str "u2"),
         ("fulfilledAt", Val.date (exEnv 6).now)]] ∧
    (∃ r, findDoc (handleMarkAsFulfilled (exCtx "u2" "volunteer") (exEnv 6) exRequestsPage
        (exRequestWorld exPendingRequest) "r1").2.store.resourceRequests "r1" = some r ∧
      getField r "status" = Val.str "fulfilled" ∧
      getField r "fulfilledBy" = Val.str "u2" ∧
      getField r "fulfilledAt" = Val.date (exEnv 6).now ∧
      ∀ k, k ≠ "status" → k ≠ "fulfilledBy" → k ≠ "fulfilledAt" →
        getField r k = getField exPendingRequest k) ∧
    (∀ other, other ≠ "r1" →
      findDoc (handleMarkAsFulfilled (exCtx "u2" "volunteer") (exEnv 6) exRequestsPage
        (exRequestWorld exPendingRequest) "r1").2.store.resourceRequests other =
        findDoc (exRequestWorld exPendingRequest).store.resourceRequests other) :=
  markAsFulfilled_sets_three_fields_only (exCtx "u2" "volunteer") (exEnv 6) exRequestsPage
    (exRequestWorld exPendingRequest) "r1" "u2" exPendingRequest
    (by decide) (by decide) (by decide) (by decide) (by decide)

/-! ## C10: a report with explicit coordinates -/

/-- C10: when `manualLat` and `manualLng` are both non-null, in an initialised context,
`handleSubmitReport` makes exactly one collaborator call, the `addDoc` of the report (so the
geocoder is not called), whatever the location text is, the empty text included; the document
it sends has latitude = manualLat and longitude = manualLng, and when the store accepts the
write this document is the one report added and success is reported. -/
theorem submitReport_explicit_coordinates (ctx : FirebaseContext) (env : Env)
    (st : ReportSystemPage) (w : World) (lat lng : Int)
    (hdb : ctx.db = true) (hu : truthy ctx.userId = true)
    (hlat : st.manualLat = some lat) (hlng : st.manualLng = some lng) :
    ∃ doc : Doc,
      getField doc "latitude" = Val.num lat ∧
      getField doc "longitude" = Val.num lng ∧
      (handleSubmitReport ctx env st w).2.trace = w.trace ++ [Effect.addDoc "reports" doc] ∧
      (env.writeError = none →
        (handleSubmitReport ctx env st w).2.store =
          { w.store with reports := w.store.reports ++ [(env.newId, doc)] } ∧
        (handleSubmitReport ctx env st w).1.message =
          "Report submitted successfully! Thank you.") := by
  rw [handleSubmitReport_manual ctx env st w lat lng hdb hu hlat hlng]
  refine ⟨[("userId", optStr ctx.userId), ("reportType", Val.str st.reportType),
     ("details", Val.str st.details), ("location", Val.str st.location),
     ("latitude", Val.num lat), ("longitude", Val.num lng),
     ("timestamp", Val.date env.now), ("status", Val.str "pending")], ?_, ?_, ?_, ?_⟩
  · simp [getField]
  · simp [getField]
  · cases hw : env.writeError <;> simp [submitReportDoc, addDoc, hw, optNum]
  · intro hw
    simp [submitReportDoc, addDoc, hw, optNum]

/-- C10 at a concrete input: detected coordinates (17, 78), an empty location text, the empty
store. -/
theorem submitReport_explicit_coordinates_witness :
    ∃ doc : Doc,
      getField doc "latitude" = Val.num 17 ∧
      getField doc "longitude" = Val.num 78 ∧
      (handleSubmitReport (exCtx "u1" "victim") (exEnv 8)
        { exReportPage with manualLat := some 17, manualLng := some 78 } exEmptyWorld).2.trace =
        exEmptyWorld.trace ++ [Effect.addDoc "reports" doc] ∧
      (handleSubmitReport (exCtx "u1" "victim") (exEnv 8)
        { exReportPage with manualLat := some 17, manualLng := some 78 }
        exEmptyWorld).2.store =
        { exEmptyWorld.store with
          reports := exEmptyWorld.store.reports ++ [((exEnv 8).newId, doc)] } ∧
      (handleSubmitReport (exCtx "u1" "victim") (exEnv 8)
        { exReportPage with manualLat := some 17, manualLng := some 78 }
        exEmptyWorld).1.message = "Report submitted successfully! Thank you." :=
  match submitReport_explicit_coordinates (exCtx "u1" "victim") (exEnv 8)
    { exReportPage with manualLat := some 17, manualLng := some 78 } exEmptyWorld 17 78
    (by decide) (by decide) (by decide) (by decide) with
  | ⟨doc, hlat, hlng, htrace, hstore⟩ => ⟨doc, hlat, hlng, htrace, hstore rfl⟩

/-! ## Location resolution: facts shared by the submit handlers -/

theorem getCoordinatesFromLocation_store (env : Env) (location : Option String) (w : World) :
    (getCoordinatesFromLocation env location w).2.store = w.store := by
  unfold getCoordinatesFromLocation
  by_cases ht : truthy location = true
  · simp only [ht, Bool.not_true, Bool.false_eq_true, if_false]
    cases env.geocode (location.getD "") with
    | none => rfl
    | some data =>
      simp only []
      split
      · split <;> rfl
      · rfl
  · simp [ht]

theorem getCoordinatesFromLocation_trace (env : Env) (location : String) (w : World) :
    (getCoordinatesFromLocation env (some location) w).2.trace = w.trace ∨
    (getCoordinatesFromLocation env (some location) w).2.trace =
      w.trace ++ [Effect.geocode location] := by
  unfold getCoordinatesFromLocation
  by_cases ht : truthy (some location) = true
  · right
    simp only [ht, Bool.not_true, Bool.false_eq_true, if_false, Option.getD_some]
    cases env.geocode location with
    | none => rfl
    | some data =>
      simp only []
      split
      · split <;> rfl
      · rfl
  · left
    simp [ht]

theorem getCoordinatesFromLocation_empty (env : Env) (w : World) :
    getCoordinatesFromLocation env (some "") w =
      ({ latitude := none, longitude := none, status := none }, w) := by
  simp [getCoordinatesFromLocation, truthy]

theorem getCoordinatesFromLocation_no_response (env : Env) (location : String) (w : World)
    (hloc : location ≠ "") (hgeo : env.geocode location = none) :
    getCoordinatesFromLocation env (some location) w =
      ({ latitude := none, longitude := none, status := some "NETWORK_ERROR" },
       { w with trace := w.trace ++ [Effect.geocode location] }) := by
  simp [getCoordinatesFromLocation, truthy, hloc, hgeo]

theorem getCoordinatesFromLocation_not_ok (env : Env) (location : String) (w : World)
    (s : String) (rs : List (Int × Int)) (hloc : location ≠ "") (hs : s ≠ "OK")
    (hgeo : env.geocode location = some { status := s, results := rs }) :
    getCoordinatesFromLocation env (some location) w =
      ({ latitude := none, longitude := none, status := some s },
       { w with trace := w.trace ++ [Effect.geocode location] }) := by
  simp [getCoordinatesFromLocation, truthy, hloc, hgeo, hs]

/-! ## C11: no location supplied -/

/-- C11: `getCoordinatesFromLocation` on an empty or an undefined location returns null latitude
and longitude and leaves the world as it is (the geocoding service is not called).  With an empty
location text, `handleSubmitReport` (when a manual coordinate is null), `handleSubmitRequest`
and `handleCreateTask` leave the world unchanged (no geocoder call, no document added) in every
context, and once their earlier guards are passed (store handle and actor present; for
`handleCreateTask` also role admin or ngo) each reports its 'Please enter a location ...'
message. -/
theorem missing_location_rejected (ctx : FirebaseContext) (env : Env) (w : World)
    (stR : ReportSystemPage) (stQ : ResourceRequestsPage) (stT : VolunteerCoordinationPage) :
    getCoordinatesFromLocation env (some "") w =
      ({ latitude := none, longitude := none, status := none }, w) ∧
    getCoordinatesFromLocation env none w =
      ({ latitude := none, longitude := none, status := none }, w) ∧
    (stR.location = "" → (stR.manualLat = none ∨ stR.manualLng = none) →
      (handleSubmitReport ctx env stR w).2 = w ∧
      (ctx.db = true → truthy ctx.userId = true →
        (handleSubmitReport ctx env stR w).1.message =
          "Please enter a location or use your current location.")) ∧
    (stQ.location = "" →
      (handleSubmitRequest ctx env stQ w).2 = w ∧
      (ctx.db = true → truthy ctx.userId = true →
        (handleSubmitRequest ctx env stQ w).1.message =
          "Please enter a location for the resource request.")) ∧
    (stT.taskLocation = "" →
      (handleCreateTask ctx env stT w).2 = w ∧
      (ctx.db = true → truthy ctx.userId = true →
        (ctx.userRole = "admin" ∨ ctx.userRole = "ngo") →
        (handleCreateTask ctx env stT w).1.createTaskMessage =
          "Please enter a location for the volunteer task.")) := by
  refine ⟨getCoordinatesFromLocation_empty env w, ?_, ?_, ?_, ?_⟩
  · simp [getCoordinatesFromLocation, truthy]
  · intro hloc hman
    have hcond : (stR.manualLat == none || stR.manualLng == none) = true := by
      rcases hman with h | h <;> simp [h]
    have hempty : truthy (some stR.location) = false := by simp [truthy, hloc]
    constructor
    · unfold handleSubmitReport
      split
      · rfl
      · simp [hcond, hempty]
    · intro hdb hu
      simp [handleSubmitReport, hdb, hu, hcond, hempty]
  · intro hloc
    have hempty : truthy (some stQ.location) = false := by simp [truthy, hloc]
    constructor
    · unfold handleSubmitRequest
      split
      · rfl
      · simp [hempty]
    · intro hdb hu
      simp [handleSubmitRequest, hdb, hu, hempty]
  · intro hloc
    have hempty : truthy (some stT.taskLocation) = false := by simp [truthy, hloc]
    constructor
    · unfold handleCreateTask
      split
      · rfl
      · split
        · rfl
        · simp [hempty]
    · intro hdb hu hrole
      have hguard : (ctx.userRole != "admin" && ctx.userRole != "ngo") = false := by
        rcases hrole with h | h <;> simp [h]
      simp [handleCreateTask, hdb, hu, hguard, hempty]

/-- C11 at concrete inputs: victim `u1` submits a report and a request, and ngo `n1` creates a
task, each with an empty location, on the empty store. -/
theorem missing_location_rejected_witness :
    ((handleSubmitReport (exCtx "u1" "victim") (exEnv 3) exReportPage exEmptyWorld).2
        = exEmptyWorld ∧
      (handleSubmitReport (exCtx "u1" "victim") (exEnv 3) exReportPage exEmptyWorld).1.message =
        "Please enter a location or use your current location.") ∧
    ((handleSubmitRequest (exCtx "u1" "victim") (exEnv 3) exRequestsPage exEmptyWorld).2
        = exEmptyWorld ∧
      (handleSubmitRequest (exCtx "u1" "victim") (exEnv 3) exRequestsPage
        exEmptyWorld).1.message = "Please enter a location for the resource request.") ∧
    ((handleCreateTask (exCtx "n1" "ngo") (exEnv 3) exVolunteerPage exEmptyWorld).2
        = exEmptyWorld ∧
      (handleCreateTask (exCtx "n1" "ngo") (exEnv 3) exVolunteerPage
        exEmptyWorld).1.createTaskMessage = "Please enter a location for the volunteer task.") :=
  ⟨⟨((missing_location_rejected (exCtx "u1" "victim") (exEnv 3) exEmptyWorld exReportPage
        exRequestsPage exVolunteerPage).2.2.1 rfl (Or.inl rfl)).1,
    ((missing_location_rejected (exCtx "u1" "victim") (exEnv 3) exEmptyWorld exReportPage
        exRequestsPage exVolunteerPage).2.2.1 rfl (Or.inl rfl)).2 rfl (by decide)⟩,
   ⟨((missing_location_rejected (exCtx "u1" "victim") (exEnv 3) exEmptyWorld exReportPage
        exRequestsPage exVolunteerPage).2.2.2.1 rfl).1,
    ((missing_location_rejected (exCtx "u1" "victim") (exEnv 3) exEmptyWorld exReportPage
        exRequestsPage exVolunteerPage).2.2.2.1 rfl).2 rfl (by decide)⟩,
   ⟨((missing_location_rejected (exCtx "n1" "ngo") (exEnv 3) exEmptyWorld exReportPage
        exRequestsPage exVolunteerPage).2.2.2.2 rfl).1,
    ((missing_location_rejected (exCtx "n1" "ngo") (exEnv 3) exEmptyWorld exReportPage
        exRequestsPage exVolunteerPage).2.2.2.2 rfl).2 rfl (by decide) (by decide)⟩⟩

theorem handleSubmitReport_geo_fail (ctx : FirebaseContext) (env : Env) (st : ReportSystemPage)
    (w w1 : World) (s : String) (hdb : ctx.db = true) (hu : truthy ctx.userId = true)
    (hman : st.manualLat = none ∨ st.manualLng = none) (hloc : st.location ≠ "")
    (hres : getCoordinatesFromLocation env (some st.location) w =
      ({ latitude := none, longitude := none, status := some s }, w1)) :
    handleSubmitReport ctx env st w =
      ({ st with
          message := "Error: " ++
            (if s = "ZERO_RESULTS" then
              "Could not determine coordinates for the provided location." ++
                " Try being more general (e.g., \"Secunderabad\" instead of a specific building name) or check for typos."
            else if s = "OVER_QUERY_LIMIT" then
              "Could not determine coordinates for the provided location." ++
                " API query limit exceeded. Please try again later or check your Google Maps API key settings."
            else if s = "REQUEST_DENIED" then
              "Could not determine coordinates for the provided location." ++
                " Geocoding API access denied. Check your API key and project settings."
            else "Could not determine coordinates for the provided location."),
          isSubmitting := false }, w1) := by
  have hcond : (st.manualLat == none || st.manualLng == none) = true := by
    rcases hman with h | h <;> simp [h]
  have hfull : truthy (some st.location) = true := by simp [truthy, hloc]
  simp [handleSubmitReport, hdb, hu, hcond, hfull, hres]

theorem handleSubmitRequest_geo_fail (ctx : FirebaseContext) (env : Env)
    (st : ResourceRequestsPage) (w w1 : World) (s : String)
    (hdb : ctx.db = true) (hu : truthy ctx.userId = true) (hloc : st.location ≠ "")
    (hres : getCoordinatesFromLocation env (some st.location) w =
      ({ latitude := none, longitude := none, status := some s }, w1)) :
    handleSubmitRequest ctx env st w =
      ({ st with
          message := "Error: " ++
            (if s = "ZERO_RESULTS" then
              "Could not determine coordinates for the provided location." ++
                " Try being more general (e.g., \"Secunderabad\" instead of a specific building name) or check for typos."
            else if s = "OVER_QUERY_LIMIT" then
              "Could not determine coordinates for the provided location." ++
                " API query limit exceeded. Please try again later or check your Google Maps API key settings."
            else if s = "REQUEST_DENIED" then
              "Could not determine coordinates for the provided location." ++
                " Geocoding API access denied. Check your API key and project settings."
            else "Could not determine coordinates for the provided location."),
          isSubmitting := false }, w1) := by
  have hfull : truthy (some st.location) = true := by simp [truthy, hloc]
  simp [handleSubmitRequest, hdb, hu, hfull, hres]

theorem handleCreateTask_geo_fail (ctx : FirebaseContext) (env : Env)
    (st : VolunteerCoordinationPage) (w w1 : World) (s : String)
    (hdb : ctx.db = true) (hu : truthy ctx.userId = true)
    (hrole : ctx.userRole = "admin" ∨ ctx.userRole = "ngo") (hloc : st.taskLocation ≠ "")
    (hres : getCoordinatesFromLocation env (some st.taskLocation) w =
      ({ latitude := none, longitude := none, status := some s }, w1)) :
    handleCreateTask ctx env st w =
      ({ st with
          createTaskMessage := "Error: " ++
            (if s = "ZERO_RESULTS" then
              "Could not determine coordinates for the provided location." ++
                " Try being more general (e.g., \"Secunderabad\" instead of a specific building name) or check for typos."
            else if s = "OVER_QUERY_LIMIT" then
              "Could not determine coordinates for the provided location." ++
                " API query limit exceeded. Please try again later or check your Google Maps API key settings."
            else if s = "REQUEST_DENIED" then
              "Could not determine coordinates for the provided location." ++
                " Geocoding API access denied. Check your API key and project settings."
            else "Could not determine coordinates for the provided location."),
          isCreatingTask := false }, w1) := by
  have hguard : (ctx.userRole != "admin" && ctx.userRole != "ngo") = false := by
    rcases hrole with h | h <;> simp [h]
  have hfull : truthy (some st.taskLocation) = true := by simp [truthy, hloc]
  simp [handleCreateTask, hdb, hu, hguard, hfull, hres]

/-! ## C12: the first candidate -/

/-- C12: for a non-empty location, when the geocoder answers status 'OK' with a non-empty
candidate list, `getCoordinatesFromLocation` returns the coordinates of the first candidate,
whatever the later candidates `more` are; when it answers 'OK' with an empty list, the list is
not indexed and the result is a failure: null latitude and longitude, with status 'OK'. -/
theorem geocode_takes_first_candidate (env : Env) (w : World) (location : String)
    (lat lng : Int) (more : List (Int × Int)) (hloc : location ≠ "") :
    (env.geocode location = some { status := "OK", results := (lat, lng) :: more } →
      getCoordinatesFromLocation env (some location) w =
        ({ latitude := some lat, longitude := some lng, status := none },
         { w with trace := w.trace ++ [Effect.geocode location] })) ∧
    (env.geocode location = some { status := "OK", results := [] } →
      getCoordinatesFromLocation env (some location) w =
        ({ latitude := none, longitude := none, status := some "OK" },
         { w with trace := w.trace ++ [Effect.geocode location] })) := by
  constructor
  · intro hgeo
    exact getCoordinatesFromLocation_ok env location w lat lng more hloc hgeo
  · intro hgeo
    simp [getCoordinatesFromLocation, truthy, hloc, hgeo]

/-- C12 at concrete inputs: two candidates for "Secunderabad" give the first one; an 'OK'
answer without candidates gives null coordinates. -/
theorem geocode_takes_first_candidate_witness :
    getCoordinatesFromLocation (exEnv 3) (some "Secunderabad") exEmptyWorld =
      ({ latitude := some 17, longitude := some 78, status := none },
       { exEmptyWorld with trace := exEmptyWorld.trace ++ [Effect.geocode "Secunderabad"] }) ∧
    getCoordinatesFromLocation (exEnvGeo (some { status := "OK", results := [] }) 3)
        (some "Secunderabad") exEmptyWorld =
      ({ latitude := none, longitude := none, status := some "OK" },
       { exEmptyWorld with trace := exEmptyWorld.trace ++ [Effect.geocode "Secunderabad"] }) :=
  ⟨(geocode_takes_first_candidate (exEnv 3) exEmptyWorld "Secunderabad" 17 78 [(18, 79)]
      (by decide)).1 rfl,
   (geocode_takes_first_candidate (exEnvGeo (some { status := "OK", results := [] }) 3)
      exEmptyWorld "Secunderabad" 17 78 [(18, 79)] (by decide)).2 rfl⟩

/-! ## C13: no match -/

/-- C13: in an initialised context, with a manual coordinate missing and a non-empty location
text for which the geocoder answers ZERO_RESULTS, `handleSubmitReport` fails: the store is
unchanged, the only collaborator call is the geocoder call (no `addDoc`), and the message is the
generic 'Could not determine coordinates ...' text followed by the advice to be more general or
check for typos. -/
theorem submitReport_zero_results (ctx : FirebaseContext) (env : Env) (st : ReportSystemPage)
    (w : World) (rs : List (Int × Int))
    (hdb : ctx.db = true) (hu : truthy ctx.userId = true)
    (hman : st.manualLat = none ∨ st.manualLng = none) (hloc : st.location ≠ "")
    (hgeo : env.geocode st.location = some { status := "ZERO_RESULTS", results := rs }) :
    (handleSubmitReport ctx env st w).2.store = w.store ∧
    (handleSubmitReport ctx env st w).2.trace = w.trace ++ [Effect.geocode st.location] ∧
    (handleSubmitReport ctx env st w).1.message =
      "Error: Could not determine coordinates for the provided location. Try being more general (e.g., \"Secunderabad\" instead of a specific building name) or check for typos." := by
  rw [handleSubmitReport_geo_fail ctx env st w _ "ZERO_RESULTS" hdb hu hman hloc
    (getCoordinatesFromLocation_not_ok env st.location w "ZERO_RESULTS" rs hloc (by decide)
      hgeo)]
  exact ⟨rfl, rfl, rfl⟩

/-- C13 at a concrete input: victim `u1` reports at "Xyzzy123", which the geocoder does not
know. -/
theorem submitReport_zero_results_witness :
    (handleSubmitReport (exCtx "u1" "victim") (exEnv 3)
      { exReportPage with location := "Xyzzy123" } exEmptyWorld).2.store = exEmptyWorld.store ∧
    (handleSubmitReport (exCtx "u1" "victim") (exEnv 3)
      { exReportPage with location := "Xyzzy123" } exEmptyWorld).2.trace =
      exEmptyWorld.trace ++ [Effect.geocode "Xyzzy123"] ∧
    (handleSubmitReport (exCtx "u1" "victim") (exEnv 3)
      { exReportPage with location := "Xyzzy123" } exEmptyWorld).1.message =
      "Error: Could not determine coordinates for the provided location. Try being more general (e.g., \"Secunderabad\" instead of a specific building name) or check for typos." :=
  submitReport_zero_results (exCtx "u1" "victim") (exEnv 3)
    { exReportPage with location := "Xyzzy123" } exEmptyWorld [] (by decide) (by decide)
    (Or.inl rfl) (by decide) (by decide)

/-! ## C14: the failure detail tells the failure kinds apart -/

/-- C14: take a non-empty location `loc` entered in the three forms, an initialised context
(role admin or ngo for the task form), no manual coordinate pair, and four geocoder behaviours:
ZERO_RESULTS, OVER_QUERY_LIMIT, REQUEST_DENIED and no response (NETWORK_ERROR).  The message of
`handleSubmitReport` is the generic text followed by, respectively, the typo advice, the
quota text, the access-denied text, and nothing; these four messages are pairwise distinct;
and under each behaviour `handleSubmitRequest` and `handleCreateTask` report the very same text
as `handleSubmitReport`. -/
theorem geocode_failure_messages (ctx ctxT : FirebaseContext)
    (envZero envQuota envDenied envNet : Env) (w : World)
    (stR : ReportSystemPage) (stQ : ResourceRequestsPage) (stT : VolunteerCoordinationPage)
    (loc : String) (rsZ rsQ rsD : List (Int × Int))
    (hdb : ctx.db = true) (hu : truthy ctx.userId = true)
    (hdbT : ctxT.db = true) (huT : truthy ctxT.userId = true)
    (hroleT : ctxT.userRole = "admin" ∨ ctxT.userRole = "ngo")
    (hman : stR.manualLat = none ∨ stR.manualLng = none)
    (hlocR : stR.location = loc) (hlocQ : stQ.location = loc) (hlocT : stT.taskLocation = loc)
    (hloc : loc ≠ "")
    (hZ : envZero.geocode loc = some { status := "ZERO_RESULTS", results := rsZ })
    (hQ : envQuota.geocode loc = some { status := "OVER_QUERY_LIMIT", results := rsQ })
    (hD : envDenied.geocode loc = some { status := "REQUEST_DENIED", results := rsD })
    (hN : envNet.geocode loc = none) :
    ((handleSubmitReport ctx envZero stR w).1.message =
        "Error: Could not determine coordinates for the provided location. Try being more general (e.g., \"Secunderabad\" instead of a specific building name) or check for typos." ∧
      (handleSubmitReport ctx envQuota stR w).1.message =
        "Error: Could not determine coordinates for the provided location. API query limit exceeded. Please try again later or check your Google Maps API key settings." ∧
      (handleSubmitReport ctx envDenied stR w).1.message =
        "Error: Could not determine coordinates for the provided location. Geocoding API access denied. Check your API key and project settings." ∧
      (handleSubmitReport ctx envNet stR w).1.message =
        "Error: Could not determine coordinates for the provided location.") ∧
    ((handleSubmitReport ctx envZero stR w).1.message ≠
        (handleSubmitReport ctx envQuota stR w).1.message ∧
      (handleSubmitReport ctx envZero stR w).1.message ≠
        (handleSubmitReport ctx envDenied stR w).1.message ∧
      (handleSubmitReport ctx envZero stR w).1.message ≠
        (handleSubmitReport ctx envNet stR w).1.message ∧
      (handleSubmitReport ctx envQuota stR w).1.message ≠
        (handleSubmitReport ctx envDenied stR w).1.message ∧
      (handleSubmitReport ctx envQuota stR w).1.message ≠
        (handleSubmitReport ctx envNet stR w).1.message ∧
      (handleSubmitReport ctx envDenied stR w).1.message ≠
        (handleSubmitReport ctx envNet stR w).1.message) ∧
    ((handleSubmitRequest ctx envZero stQ w).1.message =
        (handleSubmitReport ctx envZero stR w).1.message ∧
      (handleSubmitRequest ctx envQuota stQ w).1.message =
        (handleSubmitReport ctx envQuota stR w).1.message ∧
      (handleSubmitRequest ctx envDenied stQ w).1.message =
        (handleSubmitReport ctx envDenied stR w).1.message ∧
      (handleSubmitRequest ctx envNet stQ w).1.message =
        (handleSubmitReport ctx envNet stR w).1.message) ∧
    ((handleCreateTask ctxT envZero stT w).1.createTaskMessage =
        (handleSubmitReport ctx envZero stR w).1.message ∧
      (handleCreateTask ctxT envQuota stT w).1.createTaskMessage =
        (handleSubmitReport ctx envQuota stR w).1.message ∧
      (handleCreateTask ctxT envDenied stT w).1.createTaskMessage =
        (handleSubmitReport ctx envDenied stR w).1.message ∧
      (handleCreateTask ctxT envNet stT w).1.createTaskMessage =
        (handleSubmitReport ctx envNet stR w).1.message) := by
  subst hlocR
  have hlQ : stQ.location ≠ "" := by rw [hlocQ]; exact hloc
  have hlT : stT.taskLocation ≠ "" := by rw [hlocT]; exact hloc
  have gZ := getCoordinatesFromLocation_not_ok envZero stR.location w "ZERO_RESULTS" rsZ hloc
    (by decide) hZ
  have gQ := getCoordinatesFromLocation_not_ok envQuota stR.location w "OVER_QUERY_LIMIT" rsQ
    hloc (by decide) hQ
  have gD := getCoordinatesFromLocation_not_ok envDenied stR.location w "REQUEST_DENIED" rsD
    hloc (by decide) hD
  have gN := getCoordinatesFromLocation_no_response envNet stR.location w hloc hN
  rw [handleSubmitReport_geo_fail ctx envZero stR w _ _ hdb hu hman hloc gZ,
    handleSubmitReport_geo_fail ctx envQuota stR w _ _ hdb hu hman hloc gQ,
    handleSubmitReport_geo_fail ctx envDenied stR w _ _ hdb hu hman hloc gD,
    handleSubmitReport_geo_fail ctx envNet stR w _ _ hdb hu hman hloc gN,
    handleSubmitRequest_geo_fail ctx envZero stQ w _ _ hdb hu hlQ (hlocQ ▸ gZ),
    handleSubmitRequest_geo_fail ctx envQuota stQ w _ _ hdb hu hlQ (hlocQ ▸ gQ),
    handleSubmitRequest_geo_fail ctx envDenied stQ w _ _ hdb hu hlQ (hlocQ ▸ gD),
    handleSubmitRequest_geo_fail ctx envNet stQ w _ _ hdb hu hlQ (hlocQ ▸ gN),
    handleCreateTask_geo_fail ctxT envZero stT w _ _ hdbT huT hroleT hlT (hlocT ▸ gZ),
    handleCreateTask_geo_fail ctxT envQuota stT w _ _ hdbT huT hroleT hlT (hlocT ▸ gQ),
    handleCreateTask_geo_fail ctxT envDenied stT w _ _ hdbT huT hroleT hlT (hlocT ▸ gD),
    handleCreateTask_geo_fail ctxT envNet stT w _ _ hdbT huT hroleT hlT (hlocT ▸ gN)]
  refine ⟨⟨rfl, rfl, rfl, rfl⟩, ⟨?_, ?_, ?_, ?_, ?_, ?_⟩, ⟨rfl, rfl, rfl, rfl⟩,
    ⟨rfl, rfl, rfl, rfl⟩⟩ <;> dsimp only <;> decide

/-- C14 at concrete inputs: victim `u1` (report, request) and ngo `n1` (task) enter "Xyzzy123"
under each of the four geocoder behaviours. -/
theorem geocode_failure_messages_witness :
    ((handleSubmitReport (exCtx "u1" "victim") exEnvZero (exReportAt "Xyzzy123") exEmptyWorld).1.message =
        "Error: Could not determine coordinates for the provided location. Try being more general (e.g., \"Secunderabad\" instead of a specific building name) or check for typos." ∧
      (handleSubmitReport (exCtx "u1" "victim") exEnvQuota (exReportAt "Xyzzy123") exEmptyWorld).1.message =
        "Error: Could not determine coordinates for the provided location. API query limit exceeded. Please try again later or check your Google Maps API key settings." ∧
      (handleSubmitReport (exCtx "u1" "victim") exEnvDenied (exReportAt "Xyzzy123") exEmptyWorld).1.message =
        "Error: Could not determine coordinates for the provided location. Geocoding API access denied. Check your API key and project settings." ∧
      (handleSubmitReport (exCtx "u1" "victim") exEnvNet (exReportAt "Xyzzy123") exEmptyWorld).1.message =
        "Error: Could not determine coordinates for the provided location.") ∧
    ((handleSubmitReport (exCtx "u1" "victim") exEnvZero (exReportAt "Xyzzy123") exEmptyWorld).1.message ≠
        (handleSubmitReport (exCtx "u1" "victim") exEnvQuota (exReportAt "Xyzzy123") exEmptyWorld).1.message ∧
      (handleSubmitReport (exCtx "u1" "victim") exEnvZero (exReportAt "Xyzzy123") exEmptyWorld).1.message ≠
        (handleSubmitReport (exCtx "u1" "victim") exEnvDenied (exReportAt "Xyzzy123") exEmptyWorld).1.message ∧
      (handleSubmitReport (exCtx "u1" "victim") exEnvZero (exReportAt "Xyzzy123") exEmptyWorld).1.message ≠
        (handleSubmitReport (exCtx "u1" "victim") exEnvNet (exReportAt "Xyzzy123") exEmptyWorld).1.message ∧
      (handleSubmitReport (exCtx "u1" "victim") exEnvQuota (exReportAt "Xyzzy123") exEmptyWorld).1.message ≠
        (handleSubmitReport (exCtx "u1" "victim") exEnvDenied (exReportAt "Xyzzy123") exEmptyWorld).1.message ∧
      (handleSubmitReport (exCtx "u1" "victim") exEnvQuota (exReportAt "Xyzzy123") exEmptyWorld).1.message ≠
        (handleSubmitReport (exCtx "u1" "victim") exEnvNet (exReportAt "Xyzzy123") exEmptyWorld).1.message ∧
      (handleSubmitReport (exCtx "u1" "victim") exEnvDenied (exReportAt "Xyzzy123") exEmptyWorld).1.message ≠
        (handleSubmitReport (exCtx "u1" "victim") exEnvNet (exReportAt "Xyzzy123") exEmptyWorld).1.message) ∧
    ((handleSubmitRequest (exCtx "u1" "victim") exEnvZero (exRequestAt "Xyzzy123") exEmptyWorld).1.message =
        (handleSubmitReport (exCtx "u1" "victim") exEnvZero (exReportAt "Xyzzy123") exEmptyWorld).1.message ∧
      (handleSubmitRequest (exCtx "u1" "victim") exEnvQuota (exRequestAt "Xyzzy123") exEmptyWorld).1.message =
        (handleSubmitReport (exCtx "u1" "victim") exEnvQuota (exReportAt "Xyzzy123") exEmptyWorld).1.message ∧
      (handleSubmitRequest (exCtx "u1" "victim") exEnvDenied (exRequestAt "Xyzzy123") exEmptyWorld).1.message =
        (handleSubmitReport (exCtx "u1" "victim") exEnvDenied (exReportAt "Xyzzy123") exEmptyWorld).1.message ∧
      (handleSubmitRequest (exCtx "u1" "victim") exEnvNet (exRequestAt "Xyzzy123") exEmptyWorld).1.message =
        (handleSubmitReport (exCtx "u1" "victim") exEnvNet (exReportAt "Xyzzy123") exEmptyWorld).1.message) ∧
    ((handleCreateTask (exCtx "n1" "ngo") exEnvZero (exTaskAt "Xyzzy123") exEmptyWorld).1.createTaskMessage =
        (handleSubmitReport (exCtx "u1" "victim") exEnvZero (exReportAt "Xyzzy123") exEmptyWorld).1.message ∧
      (handleCreateTask (exCtx "n1" "ngo") exEnvQuota (exTaskAt "Xyzzy123") exEmptyWorld).1.createTaskMessage =
        (handleSubmitReport (exCtx "u1" "victim") exEnvQuota (exReportAt "Xyzzy123") exEmptyWorld).1.message ∧
      (handleCreateTask (exCtx "n1" "ngo") exEnvDenied (exTaskAt "Xyzzy123") exEmptyWorld).1.createTaskMessage =
        (handleSubmitReport (exCtx "u1" "victim") exEnvDenied (exReportAt "Xyzzy123") exEmptyWorld).1.message ∧
      (handleCreateTask (exCtx "n1" "ngo") exEnvNet (exTaskAt "Xyzzy123") exEmptyWorld).1.createTaskMessage =
        (handleSubmitReport (exCtx "u1" "victim") exEnvNet (exReportAt "Xyzzy123") exEmptyWorld).1.message) :=
  geocode_failure_messages (exCtx "u1" "victim") (exCtx "n1" "ngo") exEnvZero exEnvQuota
    exEnvDenied exEnvNet exEmptyWorld (exReportAt "Xyzzy123") (exRequestAt "Xyzzy123")
    (exTaskAt "Xyzzy123") "Xyzzy123" [] [] [] (by decide) (by decide) (by decide) (by decide)
    (by decide) (Or.inl rfl) rfl rfl rfl (by decide) rfl rfl rfl rfl

/-! ## C15: the geocoder cannot be reached -/

/-- C15: for a non-empty location `loc`, when the geocoding call gets no response,
`getCoordinatesFromLocation` returns (it does not raise) null latitude and longitude with status
'NETWORK_ERROR'; and in an initialised context each submit handler that resolves `loc` (the
report handler when a manual coordinate is missing, the task handler for role admin or ngo)
fails with the explicit message 'Error: Could not determine coordinates for the provided
location.' and leaves the store unchanged. -/
theorem no_response_is_network_error (ctx : FirebaseContext) (env : Env) (w : World)
    (stR : ReportSystemPage) (stQ : ResourceRequestsPage) (stT : VolunteerCoordinationPage)
    (loc : String) (hdb : ctx.db = true) (hu : truthy ctx.userId = true)
    (hloc : loc ≠ "") (hgeo : env.geocode loc = none) :
    getCoordinatesFromLocation env (some loc) w =
      ({ latitude := none, longitude := none, status := some "NETWORK_ERROR" },
       { w with trace := w.trace ++ [Effect.geocode loc] }) ∧
    (stR.location = loc → (stR.manualLat = none ∨ stR.manualLng = none) →
      (handleSubmitReport ctx env stR w).1.message =
        "Error: Could not determine coordinates for the provided location." ∧
      (handleSubmitReport ctx env stR w).2.store = w.store) ∧
    (stQ.location = loc →
      (handleSubmitRequest ctx env stQ w).1.message =
        "Error: Could not determine coordinates for the provided location." ∧
      (handleSubmitRequest ctx env stQ w).2.store = w.store) ∧
    (stT.taskLocation = loc → (ctx.userRole = "admin" ∨ ctx.userRole = "ngo") →
      (handleCreateTask ctx env stT w).1.createTaskMessage =
        "Error: Could not determine coordinates for the provided location." ∧
      (handleCreateTask ctx env stT w).2.store = w.store) := by
  have g := getCoordinatesFromLocation_no_response env loc w hloc hgeo
  refine ⟨g, ?_, ?_, ?_⟩
  · intro hl hman
    subst hl
    rw [handleSubmitReport_geo_fail ctx env stR w _ _ hdb hu hman hloc g]
    exact ⟨rfl, rfl⟩
  · intro hl
    subst hl
    rw [handleSubmitRequest_geo_fail ctx env stQ w _ _ hdb hu hloc g]
    exact ⟨rfl, rfl⟩
  · intro hl hrole
    subst hl
    rw [handleCreateTask_geo_fail ctx env stT w _ _ hdb hu hrole hloc g]
    exact ⟨rfl, rfl⟩

/-- C15 at concrete inputs: ngo `n1` enters "Secunderabad" in each form while the geocoder
cannot be reached. -/
theorem no_response_is_network_error_witness :
    getCoordinatesFromLocation exEnvNet (some "Secunderabad") exEmptyWorld =
      ({ latitude := none, longitude := none, status := some "NETWORK_ERROR" },
       { exEmptyWorld with trace := exEmptyWorld.trace ++ [Effect.geocode "Secunderabad"] }) ∧
    ((handleSubmitReport (exCtx "n1" "ngo") exEnvNet (exReportAt "Secunderabad")
        exEmptyWorld).1.message =
        "Error: Could not determine coordinates for the provided location." ∧
      (handleSubmitReport (exCtx "n1" "ngo") exEnvNet (exReportAt "Secunderabad")
        exEmptyWorld).2.store = exEmptyWorld.store) ∧
    ((handleSubmitRequest (exCtx "n1" "ngo") exEnvNet (exRequestAt "Secunderabad")
        exEmptyWorld).1.message =
        "Error: Could not determine coordinates for the provided location." ∧
      (handleSubmitRequest (exCtx "n1" "ngo") exEnvNet (exRequestAt "Secunderabad")
        exEmptyWorld).2.store = exEmptyWorld.store) ∧
    ((handleCreateTask (exCtx "n1" "ngo") exEnvNet (exTaskAt "Secunderabad")
        exEmptyWorld).1.createTaskMessage =
        "Error: Could not determine coordinates for the provided location." ∧
      (handleCreateTask (exCtx "n1" "ngo") exEnvNet (exTaskAt "Secunderabad")
        exEmptyWorld).2.store = exEmptyWorld.store) :=
  ⟨(no_response_is_network_error (exCtx "n1" "ngo") exEnvNet exEmptyWorld
      (exReportAt "Secunderabad") (exRequestAt "Secunderabad") (exTaskAt "Secunderabad")
      "Secunderabad" (by decide) (by decide) (by decide) rfl).1,
   (no_response_is_network_error (exCtx "n1" "ngo") exEnvNet exEmptyWorld
      (exReportAt "Secunderabad") (exRequestAt "Secunderabad") (exTaskAt "Secunderabad")
      "Secunderabad" (by decide) (by decide) (by decide) rfl).2.1 rfl (Or.inl rfl),
   (no_response_is_network_error (exCtx "n1" "ngo") exEnvNet exEmptyWorld
      (exReportAt "Secunderabad") (exRequestAt "Secunderabad") (exTaskAt "Secunderabad")
      "Secunderabad" (by decide) (by decide) (by decide) rfl).2.2.1 rfl,
   (no_response_is_network_error (exCtx "n1" "ngo") exEnvNet exEmptyWorld
      (exReportAt "Secunderabad") (exRequestAt "Secunderabad") (exTaskAt "Secunderabad")
      "Secunderabad" (by decide) (by decide) (by decide) rfl).2.2.2 rfl (Or.inr rfl)⟩

/-! ## C16: no partial commit -/

theorem handleSubmitReport_world_of_geo_fail (ctx : FirebaseContext) (env : Env)
    (st : ReportSystemPage) (w : World)
    (hman : st.manualLat = none ∨ st.manualLng = none)
    (hfail : (getCoordinatesFromLocation env (some st.location) w).1.latitude = none ∨
      (getCoordinatesFromLocation env (some st.location) w).1.longitude = none) :
    (handleSubmitReport ctx env st w).2 = w ∨
    (handleSubmitReport ctx env st w).2 =
      (getCoordinatesFromLocation env (some st.location) w).2 := by
  have hcond : (st.manualLat == none || st.manualLng == none) = true := by
    rcases hman with h | h <;> simp [h]
  have hf : ((getCoordinatesFromLocation env (some st.location) w).1.latitude == none ||
      (getCoordinatesFromLocation env (some st.location) w).1.longitude == none) = true := by
    rcases hfail with h | h <;> simp [h]
  unfold handleSubmitReport
  split
  · exact Or.inl rfl
  · by_cases ht : truthy (some st.location) = true
    · right
      simp [hcond, ht, hf]
    · left
      simp [hcond, ht]

theorem handleSubmitRequest_world_of_geo_fail (ctx : FirebaseContext) (env : Env)
    (st : ResourceRequestsPage) (w : World)
    (hfail : (getCoordinatesFromLocation env (some st.location) w).1.latitude = none ∨
      (getCoordinatesFromLocation env (some st.location) w).1.longitude = none) :
    (handleSubmitRequest ctx env st w).2 = w ∨
    (handleSubmitRequest ctx env st w).2 =
      (getCoordinatesFromLocation env (some st.location) w).2 := by
  have hf : ((getCoordinatesFromLocation env (some st.location) w).1.latitude == none ||
      (getCoordinatesFromLocation env (some st.location) w).1.longitude == none) = true := by
    rcases hfail with h | h <;> simp [h]
  unfold handleSubmitRequest
  split
  · exact Or.inl rfl
  · by_cases ht : truthy (some st.location) = true
    · right
      simp [ht, hf]
    · left
      simp [ht]

theorem handleCreateTask_world_of_geo_fail (ctx : FirebaseContext) (env : Env)
    (st : VolunteerCoordinationPage) (w : World)
    (hfail : (getCoordinatesFromLocation env (some st.taskLocation) w).1.latitude = none ∨
      (getCoordinatesFromLocation env (some st.taskLocation) w).1.longitude = none) :
    (handleCreateTask ctx env st w).2 = w ∨
    (handleCreateTask ctx env st w).2 =
      (getCoordinatesFromLocation env (some st.taskLocation) w).2 := by
  have hf : ((getCoordinatesFromLocation env (some st.taskLocation) w).1.latitude == none ||
      (getCoordinatesFromLocation env (some st.taskLocation) w).1.longitude == none) = true := by
    rcases hfail with h | h <;> simp [h]
  unfold handleCreateTask
  split
  · exact Or.inl rfl
  · split
    · exact Or.inl rfl
    · by_cases ht : truthy (some st.taskLocation) = true
      · right
        simp [ht, hf]
      · left
        simp [ht]

theorem world_after_failed_resolution (env : Env) (location : String) (w w2 : World)
    (h : w2 = w ∨ w2 = (getCoordinatesFromLocation env (some location) w).2) :
    w2.store = w.store ∧
    (w2.trace = w.trace ∨ w2.trace = w.trace ++ [Effect.geocode location]) := by
  rcases h with h | h
  · subst h
    exact ⟨rfl, Or.inl rfl⟩
  · rw [h]
    exact ⟨getCoordinatesFromLocation_store env _ w,
      getCoordinatesFromLocation_trace env location w⟩

/-- C16: for each of `handleSubmitReport` (when a manual coordinate is missing, so that the
location text is resolved), `handleSubmitRequest` and `handleCreateTask`, in every context and
for every geocoder outcome for the entered location that is a failure (null latitude or null
longitude), the store after the call equals the store before it, and the calls made to
collaborators are none or the one geocoder call: `addDoc` is not called. -/
theorem failed_resolution_commits_nothing (ctx : FirebaseContext) (env : Env) (w : World)
    (stR : ReportSystemPage) (stQ : ResourceRequestsPage) (stT : VolunteerCoordinationPage) :
    ((stR.manualLat = none ∨ stR.manualLng = none) →
      ((getCoordinatesFromLocation env (some stR.location) w).1.latitude = none ∨
        (getCoordinatesFromLocation env (some stR.location) w).1.longitude = none) →
      (handleSubmitReport ctx env stR w).2.store = w.store ∧
      ((handleSubmitReport ctx env stR w).2.trace = w.trace ∨
        (handleSubmitReport ctx env stR w).2.trace =
          w.trace ++ [Effect.geocode stR.location])) ∧
    (((getCoordinatesFromLocation env (some stQ.location) w).1.latitude = none ∨
        (getCoordinatesFromLocation env (some stQ.location) w).1.longitude = none) →
      (handleSubmitRequest ctx env stQ w).2.store = w.store ∧
      ((handleSubmitRequest ctx env stQ w).2.trace = w.trace ∨
        (handleSubmitRequest ctx env stQ w).2.trace =
          w.trace ++ [Effect.geocode stQ.location])) ∧
    (((getCoordinatesFromLocation env (some stT.taskLocation) w).1.latitude = none ∨
        (getCoordinatesFromLocation env (some stT.taskLocation) w).1.longitude = none) →
      (handleCreateTask ctx env stT w).2.store = w.store ∧
      ((handleCreateTask ctx env stT w).2.trace = w.trace ∨
        (handleCreateTask ctx env stT w).2.trace =
          w.trace ++ [Effect.geocode stT.taskLocation])) := by
  refine ⟨?_, ?_, ?_⟩
  · intro hman hfail
    exact world_after_failed_resolution env stR.location w _
      (handleSubmitReport_world_of_geo_fail ctx env stR w hman hfail)
  · intro hfail
    exact world_after_failed_resolution env stQ.location w _
      (handleSubmitRequest_world_of_geo_fail ctx env stQ w hfail)
  · intro hfail
    exact world_after_failed_resolution env stT.taskLocation w _
      (handleCreateTask_world_of_geo_fail ctx env stT w hfail)

/-- C16 at concrete inputs: ngo `n1` enters "Secunderabad" in each form, on a store holding the
request `r1`, while the geocoder's quota is used up. -/
theorem failed_resolution_commits_nothing_witness :
    ((handleSubmitReport (exCtx "n1" "ngo") exEnvQuota (exReportAt "Secunderabad")
        (exRequestWorld exPendingRequest)).2.store = (exRequestWorld exPendingRequest).store ∧
      ((handleSubmitReport (exCtx "n1" "ngo") exEnvQuota (exReportAt "Secunderabad")
          (exRequestWorld exPendingRequest)).2.trace = (exRequestWorld exPendingRequest).trace ∨
        (handleSubmitReport (exCtx "n1" "ngo") exEnvQuota (exReportAt "Secunderabad")
          (exRequestWorld exPendingRequest)).2.trace =
          (exRequestWorld exPendingRequest).trace ++
            [Effect.geocode (exReportAt "Secunderabad").location])) ∧
    ((handleSubmitRequest (exCtx "n1" "ngo") exEnvQuota (exRequestAt "Secunderabad")
        (exRequestWorld exPendingRequest)).2.store = (exRequestWorld exPendingRequest).store ∧
      ((handleSubmitRequest (exCtx "n1" "ngo") exEnvQuota (exRequestAt "Secunderabad")
          (exRequestWorld exPendingRequest)).2.trace = (exRequestWorld exPendingRequest).trace ∨
        (handleSubmitRequest (exCtx "n1" "ngo") exEnvQuota (exRequestAt "Secunderabad")
          (exRequestWorld exPendingRequest)).2.trace =
          (exRequestWorld exPendingRequest).trace ++
            [Effect.geocode (exRequestAt "Secunderabad").location])) ∧
    ((handleCreateTask (exCtx "n1" "ngo") exEnvQuota (exTaskAt "Secunderabad")
        (exRequestWorld exPendingRequest)).2.store = (exRequestWorld exPendingRequest).store ∧
      ((handleCreateTask (exCtx "n1" "ngo") exEnvQuota (exTaskAt "Secunderabad")
          (exRequestWorld exPendingRequest)).2.trace = (exRequestWorld exPendingRequest).trace ∨
        (handleCreateTask (exCtx "n1" "ngo") exEnvQuota (exTaskAt "Secunderabad")
          (exRequestWorld exPendingRequest)).2.trace =
          (exRequestWorld exPendingRequest).trace ++
            [Effect.geocode (exTaskAt "Secunderabad").taskLocation])) :=
  ⟨(failed_resolution_commits_nothing (exCtx "n1" "ngo") exEnvQuota
      (exRequestWorld exPendingRequest) (exReportAt "Secunderabad")
      (exRequestAt "Secunderabad") (exTaskAt "Secunderabad")).1 (Or.inl rfl) (Or.inl rfl),
   (failed_resolution_commits_nothing (exCtx "n1" "ngo") exEnvQuota
      (exRequestWorld exPendingRequest) (exReportAt "Secunderabad")
      (exRequestAt "Secunderabad") (exTaskAt "Secunderabad")).2.1 (Or.inl rfl),
   (failed_resolution_commits_nothing (exCtx "n1" "ngo") exEnvQuota
      (exRequestWorld exPendingRequest) (exReportAt "Secunderabad")
      (exRequestAt "Secunderabad") (exTaskAt "Secunderabad")).2.2 (Or.inl rfl)⟩

/-! ## C17: created requests and tasks carry resolved coordinates -/

theorem handleSubmitRequest_store_cases (ctx : FirebaseContext) (env : Env)
    (st : ResourceRequestsPage) (w : World) :
    (handleSubmitRequest ctx env st w).2.store = w.store ∨
    ∃ lat lng,
      (getCoordinatesFromLocation env (some st.location) w).1.latitude = some lat ∧
      (getCoordinatesFromLocation env (some st.location) w).1.longitude = some lng ∧
      (handleSubmitRequest ctx env st w).2.store =
        { w.store with resourceRequests := w.store.resourceRequests ++ [(env.newId,
          [("userId", optStr ctx.userId), ("requestType", Val.str st.requestType),
           ("description", Val.str st.description), ("location", Val.str st.location),
           ("latitude", Val.num lat), ("longitude", Val.num lng),
           ("timestamp", Val.date env.now), ("status", Val.str "pending")])] } := by
  have hstore := getCoordinatesFromLocation_store env (some st.location) w
  unfold handleSubmitRequest
  split
  · exact Or.inl rfl
  · by_cases ht : truthy (some st.location) = true
    · cases hlat : (getCoordinatesFromLocation env (some st.location) w).1.latitude with
      | none => left; simp [ht, hlat, hstore]
      | some lat =>
        cases hlng : (getCoordinatesFromLocation env (some st.location) w).1.longitude with
        | none => left; simp [ht, hlat, hlng, hstore]
        | some lng =>
          cases hw : env.writeError with
          | some msg => left; simp [ht, hlat, hlng, addDoc, hw, hstore]
          | none => right; exact ⟨lat, lng, rfl, rfl, by simp [ht, hlat, hlng, addDoc, hw, hstore, optNum]⟩
    · left
      simp [ht]

theorem handleCreateTask_store_cases (ctx : FirebaseContext) (env : Env)
    (st : VolunteerCoordinationPage) (w : World) :
    (handleCreateTask ctx env st w).2.store = w.store ∨
    ∃ lat lng,
      (getCoordinatesFromLocation env (some st.taskLocation) w).1.latitude = some lat ∧
      (getCoordinatesFromLocation env (some st.taskLocation) w).1.longitude = some lng ∧
      (handleCreateTask ctx env st w).2.store =
        { w.store with volunteerTasks := w.store.volunteerTasks ++ [(env.newId,
          [("createdBy", optStr ctx.userId), ("userRole", Val.str ctx.userRole),
           ("title", Val.str st.taskTitle), ("description", Val.str st.taskDescription),
           ("location", Val.str st.taskLocation),
           ("latitude", Val.num lat), ("longitude", Val.num lng),
           ("requiredSkills", Val.strs (parseRequiredSkills st.requiredSkills)),
           ("priority", Val.str st.priority), ("status", Val.str "pending"),
           ("assignedTo", Val.null), ("assignedAt", Val.null), ("completedAt", Val.null),
           ("createdAt", Val.date env.now)])] } := by
  have hstore := getCoordinatesFromLocation_store env (some st.taskLocation) w
  unfold handleCreateTask
  split
  · exact Or.inl rfl
  · split
    · exact Or.inl rfl
    · by_cases ht : truthy (some st.taskLocation) = true
      · cases hlat : (getCoordinatesFromLocation env (some st.taskLocation) w).1.latitude with
        | none => left; simp [ht, hlat, hstore]
        | some lat =>
          cases hlng :
            (getCoordinatesFromLocation env (some st.taskLocation) w).1.longitude with
          | none => left; simp [ht, hlat, hlng, hstore]
          | some lng =>
            cases hw : env.writeError with
            | some msg => left; simp [ht, hlat, hlng, addDoc, hw, hstore]
            | none =>
              right
              exact ⟨lat, lng, rfl, rfl, by simp [ht, hlat, hlng, addDoc, hw, hstore, optNum]⟩
      · left
        simp [ht]

theorem geocode_of_resolved (env : Env) (location : String) (w : World) (lat lng : Int)
    (hlat : (getCoordinatesFromLocation env (some location) w).1.latitude = some lat)
    (hlng : (getCoordinatesFromLocation env (some location) w).1.longitude = some lng) :
    ∃ more, env.geocode location = some { status := "OK", results := (lat, lng) :: more } := by
  unfold getCoordinatesFromLocation at hlat hlng
  by_cases ht : truthy (some location) = true
  · simp only [ht, Bool.not_true, Bool.false_eq_true, if_false, Option.getD_some] at hlat hlng
    cases hg : env.geocode location with
    | none => simp [hg] at hlat
    | some data =>
      obtain ⟨s, rs⟩ := data
      simp only [hg] at hlat hlng
      by_cases hs : s = "OK"
      · cases rs with
        | nil => simp [hs] at hlat
        | cons c more =>
          obtain ⟨a, b⟩ := c
          simp [hs] at hlat hlng
          subst hs hlat hlng
          exact ⟨more, rfl⟩
      · simp [hs] at hlat
  · simp [ht] at hlat

/-- C17: whenever `handleSubmitRequest` changes the store, the change is one document appended
to `resourceRequests`, the geocoder answered 'OK' for the entered location with a first
candidate (lat, lng), and the document has latitude = lat and longitude = lng (both non-null)
and status = 'pending'; the same holds of `handleCreateTask` and `volunteerTasks`. -/
theorem created_documents_have_coordinates (ctx : FirebaseContext) (env : Env) (w : World)
    (stQ : ResourceRequestsPage) (stT : VolunteerCoordinationPage) :
    ((handleSubmitRequest ctx env stQ w).2.store ≠ w.store →
      ∃ lat lng more doc,
        env.geocode stQ.location = some { status := "OK", results := (lat, lng) :: more } ∧
        (handleSubmitRequest ctx env stQ w).2.store =
          { w.store with resourceRequests := w.store.resourceRequests ++ [(env.newId, doc)] } ∧
        getField doc "latitude" = Val.num lat ∧ getField doc "longitude" = Val.num lng ∧
        getField doc "latitude" ≠ Val.null ∧ getField doc "longitude" ≠ Val.null ∧
        getField doc "status" = Val.str "pending") ∧
    ((handleCreateTask ctx env stT w).2.store ≠ w.store →
      ∃ lat lng more doc,
        env.geocode stT.taskLocation = some { status := "OK", results := (lat, lng) :: more } ∧
        (handleCreateTask ctx env stT w).2.store =
          { w.store with volunteerTasks := w.store.volunteerTasks ++ [(env.newId, doc)] } ∧
        getField doc "latitude" = Val.num lat ∧ getField doc "longitude" = Val.num lng ∧
        getField doc "latitude" ≠ Val.null ∧ getField doc "longitude" ≠ Val.null ∧
        getField doc "status" = Val.str "pending") := by
  constructor
  · intro hne
    rcases handleSubmitRequest_store_cases ctx env stQ w with h | ⟨lat, lng, hlat, hlng, h⟩
    · exact absurd h hne
    · obtain ⟨more, hgeo⟩ := geocode_of_resolved env stQ.location w lat lng hlat hlng
      refine ⟨lat, lng, more, _, hgeo, h, ?_, ?_, ?_, ?_, ?_⟩ <;> simp [getField]
  · intro hne
    rcases handleCreateTask_store_cases ctx env stT w with h | ⟨lat, lng, hlat, hlng, h⟩
    · exact absurd h hne
    · obtain ⟨more, hgeo⟩ := geocode_of_resolved env stT.taskLocation w lat lng hlat hlng
      refine ⟨lat, lng, more, _, hgeo, h, ?_, ?_, ?_, ?_, ?_⟩ <;> simp [getField]

/-- C17 at concrete inputs: victim `u1` requests and ngo `n1` creates a task at "Secunderabad",
which the geocoder resolves to (17, 78) before (18, 79). -/
theorem created_documents_have_coordinates_witness :
    (∃ lat lng more doc,
      (exEnv 3).geocode (exRequestAt "Secunderabad").location =
        some { status := "OK", results := (lat, lng) :: more } ∧
      (handleSubmitRequest (exCtx "u1" "victim") (exEnv 3) (exRequestAt "Secunderabad")
        exEmptyWorld).2.store =
        { exEmptyWorld.store with
          resourceRequests := exEmptyWorld.store.resourceRequests ++ [((exEnv 3).newId, doc)] } ∧
      getField doc "latitude" = Val.num lat ∧ getField doc "longitude" = Val.num lng ∧
      getField doc "latitude" ≠ Val.null ∧ getField doc "longitude" ≠ Val.null ∧
      getField doc "status" = Val.str "pending") ∧
    (∃ lat lng more doc,
      (exEnv 3).geocode (exTaskAt "Secunderabad").taskLocation =
        some { status := "OK", results := (lat, lng) :: more } ∧
      (handleCreateTask (exCtx "n1" "ngo") (exEnv 3) (exTaskAt "Secunderabad")
        exEmptyWorld).2.store =
        { exEmptyWorld.store with
          volunteerTasks := exEmptyWorld.store.volunteerTasks ++ [((exEnv 3).newId, doc)] } ∧
      getField doc "latitude" = Val.num lat ∧ getField doc "longitude" = Val.num lng ∧
      getField doc "latitude" ≠ Val.null ∧ getField doc "longitude" ≠ Val.null ∧
      getField doc "status" = Val.str "pending") :=
  ⟨(created_documents_have_coordinates (exCtx "u1" "victim") (exEnv 3) exEmptyWorld
      (exRequestAt "Secunderabad") (exTaskAt "Secunderabad")).1 (by decide),
   (created_documents_have_coordinates (exCtx "n1" "ngo") (exEnv 3) exEmptyWorld
      (exRequestAt "Secunderabad") (exTaskAt "Secunderabad")).2 (by decide)⟩

/-! ## C18: parsing the required skills -/

theorem splitChars_ne_nil (sep : Char) (cs : List Char) : splitChars sep cs ≠ [] := by
  cases cs with
  | nil => simp [splitChars]
  | cons c cs =>
    unfold splitChars
    split
    · simp
    · split <;> simp

theorem splitChars_cons_ne (sep c : Char) (cs : List Char) (h : c ≠ sep) :
    ∃ tok toks, splitChars sep cs = tok :: toks ∧
      splitChars sep (c :: cs) = (c :: tok) :: toks := by
  cases hs : splitChars sep cs with
  | nil => exact absurd hs (splitChars_ne_nil sep cs)
  | cons tok toks =>
    refine ⟨tok, toks, rfl, ?_⟩
    simp [splitChars, h, hs]

theorem splitChars_no_sep (sep : Char) (cs : List Char) :
    ∀ tok ∈ splitChars sep cs, sep ∉ tok := by
  induction cs with
  | nil => simp [splitChars]
  | cons c cs ih =>
    by_cases h : c = sep
    · intro tok htok
      simp only [splitChars, h, if_true, List.mem_cons] at htok
      rcases htok with e | e
      · subst e
        simp
      · exact ih tok e
    · obtain ⟨tok0, toks, hs, hc⟩ := splitChars_cons_ne sep c cs h
      rw [hs] at ih
      rw [hc]
      intro tok htok
      simp only [List.mem_cons] at htok
      rcases htok with e | e
      · subst e
        intro hmem
        simp only [List.mem_cons] at hmem
        rcases hmem with e2 | e2
        · exact h e2.symm
        · exact ih tok0 (List.mem_cons_self _ _) e2
      · exact ih tok (List.mem_cons_of_mem _ e)

theorem joinChars_splitChars (sep : Char) (cs : List Char) :
    joinChars sep (splitChars sep cs) = cs := by
  induction cs with
  | nil => simp [splitChars, joinChars]
  | cons c cs ih =>
    by_cases h : c = sep
    · cases hs : splitChars sep cs with
      | nil => exact absurd hs (splitChars_ne_nil sep cs)
      | cons tok toks =>
        rw [hs] at ih
        simp only [splitChars, h, if_true, hs, joinChars, List.nil_append, ih]
    · obtain ⟨tok0, toks, hs, hc⟩ := splitChars_cons_ne sep c cs h
      rw [hs] at ih
      rw [hc]
      cases toks with
      | nil =>
        simp only [joinChars] at ih ⊢
        rw [ih]
      | cons t2 ts =>
        simp only [joinChars, List.cons_append] at ih ⊢
        rw [ih]

theorem trimChars_decompose (cs : List Char) :
    ∃ pre post, cs = pre ++ trimChars cs ++ post ∧
      (∀ c ∈ pre, isJsWhitespace c = true) ∧ (∀ c ∈ post, isJsWhitespace c = true) := by
  refine ⟨cs.takeWhile isJsWhitespace,
    ((cs.dropWhile isJsWhitespace).reverse.takeWhile isJsWhitespace).reverse, ?_, ?_, ?_⟩
  · have h1 := List.takeWhile_append_dropWhile isJsWhitespace cs
    have h2 := List.takeWhile_append_dropWhile isJsWhitespace
      (cs.dropWhile isJsWhitespace).reverse
    have h3 : cs.dropWhile isJsWhitespace =
        ((cs.dropWhile isJsWhitespace).reverse.dropWhile isJsWhitespace).reverse ++
          ((cs.dropWhile isJsWhitespace).reverse.takeWhile isJsWhitespace).reverse := by
      rw [← List.reverse_append, h2, List.reverse_reverse]
    unfold trimChars
    rw [List.append_assoc, ← h3, h1]
  · intro c hc
    exact List.mem_takeWhile_imp hc
  · intro c hc
    exact List.mem_takeWhile_imp (List.mem_reverse.mp hc)

theorem trimChars_subset (cs : List Char) : ∀ c ∈ trimChars cs, c ∈ cs := by
  obtain ⟨pre, post, h, _, _⟩ := trimChars_decompose cs
  intro c hc
  rw [h]
  simp [hc]

theorem trimChars_last (cs : List Char) (c : Char)
    (h : (trimChars cs).getLast? = some c) : isJsWhitespace c = false := by
  have hne : (cs.dropWhile isJsWhitespace).rdropWhile isJsWhitespace ≠ [] := by
    intro e
    have : trimChars cs = [] := e
    rw [this] at h
    simp at h
  have hnot := List.rdropWhile_last_not isJsWhitespace (cs.dropWhile isJsWhitespace) hne
  have hl : (trimChars cs).getLast? =
      some (((cs.dropWhile isJsWhitespace).rdropWhile isJsWhitespace).getLast hne) :=
    List.getLast?_eq_getLast _ hne
  rw [hl] at h
  simp only [Option.some.injEq] at h
  rw [h] at hnot
  simpa using hnot

theorem trimChars_head (cs : List Char) (c : Char)
    (h : (trimChars cs).head? = some c) : isJsWhitespace c = false := by
  obtain ⟨t, ht⟩ := List.rdropWhile_prefix isJsWhitespace (cs.dropWhile isJsWhitespace)
  have htrim : trimChars cs = (cs.dropWhile isJsWhitespace).rdropWhile isJsWhitespace := rfl
  rw [← htrim] at ht
  cases hc : trimChars cs with
  | nil => rw [hc] at h; simp at h
  | cons a r =>
    rw [hc] at h ht
    simp only [List.head?_cons, Option.some.injEq] at h
    subst h
    have hne : cs.dropWhile isJsWhitespace ≠ [] := by
      rw [← ht]
      simp
    have hnot := List.head_dropWhile_not isJsWhitespace cs hne
    have hhead : (cs.dropWhile isJsWhitespace).head hne = a := by
      simp [← ht]
    rw [hhead] at hnot
    exact hnot

theorem mem_parseRequiredSkills (s skill : String) (h : skill ∈ parseRequiredSkills s) :
    ∃ tok ∈ splitChars ',' s.toList, trimChars tok ≠ [] ∧ skill = String.mk (trimChars tok) := by
  unfold parseRequiredSkills at h
  simp only [List.mem_map, List.mem_filter, decide_eq_true_eq] at h
  obtain ⟨t, ⟨⟨tok, htok, rfl⟩, hlen⟩, rfl⟩ := h
  exact ⟨tok, htok, List.ne_nil_of_length_pos hlen, rfl⟩

/-- C18: for every input string `s` of the required-skills field there are tokens with
`tokens.join(',') = s`, none containing a comma (the comma-separated tokens of `s`), such that
the stored list is these tokens, each trimmed, with the empty results filtered out, in the same
order; trimming a token removes only whitespace at its two ends.  No stored skill is empty,
contains a comma, or starts or ends with whitespace.  'First Aid, , Driving' gives
['First Aid', 'Driving'].  The list stored by `handleCreateTask` under `requiredSkills` is
this list. -/
theorem requiredSkills_parsed (s : String) :
    (∃ tokens : List (List Char),
      joinChars ',' tokens = s.toList ∧ (∀ tok ∈ tokens, ',' ∉ tok) ∧
      parseRequiredSkills s =
        ((tokens.map trimChars).filter (fun t => decide (t ≠ []))).map String.mk ∧
      ∀ tok ∈ tokens, ∃ pre post, tok = pre ++ trimChars tok ++ post ∧
        (∀ c ∈ pre, isJsWhitespace c = true) ∧ (∀ c ∈ post, isJsWhitespace c = true)) ∧
    (∀ skill ∈ parseRequiredSkills s,
      skill ≠ "" ∧ ',' ∉ skill.toList ∧
      (∀ c, skill.toList.head? = some c → isJsWhitespace c = false) ∧
      (∀ c, skill.toList.getLast? = some c → isJsWhitespace c = false)) ∧
    parseRequiredSkills "First Aid, , Driving" = ["First Aid", "Driving"] ∧
    (∀ (ctx : FirebaseContext) (env : Env) (st : VolunteerCoordinationPage) (w : World),
      st.requiredSkills = s → (handleCreateTask ctx env st w).2.store ≠ w.store →
      ∃ doc, (handleCreateTask ctx env st w).2.store =
          { w.store with volunteerTasks := w.store.volunteerTasks ++ [(env.newId, doc)] } ∧
        getField doc "requiredSkills" = Val.strs (parseRequiredSkills s)) := by
  refine ⟨⟨splitChars ',' s.toList, joinChars_splitChars ',' s.toList,
    splitChars_no_sep ',' s.toList, ?_, fun tok _ => trimChars_decompose tok⟩, ?_, by decide, ?_⟩
  · unfold parseRequiredSkills
    congr 1
    apply List.filter_congr
    intro t _
    cases t <;> simp
  · intro skill hskill
    obtain ⟨tok, htok, hne, rfl⟩ := mem_parseRequiredSkills s skill hskill
    refine ⟨?_, ?_, ?_, ?_⟩
    · intro e
      apply hne
      have := congrArg String.toList e
      simpa using this
    · intro hmem
      exact splitChars_no_sep ',' s.toList tok htok (trimChars_subset tok ',' hmem)
    · intro c hc
      exact trimChars_head tok c hc
    · intro c hc
      exact trimChars_last tok c hc
  · intro ctx env st w hs hne
    subst hs
    rcases handleCreateTask_store_cases ctx env st w with h | ⟨lat, lng, _, _, h⟩
    · exact absurd h hne
    · exact ⟨_, h, by simp [getField]⟩

/-- C18 at a concrete input: ngo `n1` creates a task at "Secunderabad" with the skills text
'First Aid, , Driving'. -/
theorem requiredSkills_parsed_witness :
    ∃ doc, (handleCreateTask (exCtx "n1" "ngo") (exEnv 3)
        { exTaskAt "Secunderabad" with requiredSkills := "First Aid, , Driving" }
        exEmptyWorld).2.store =
        { exEmptyWorld.store with
          volunteerTasks := exEmptyWorld.store.volunteerTasks ++ [((exEnv 3).newId, doc)] } ∧
      getField doc "requiredSkills" =
        Val.strs (parseRequiredSkills "First Aid, , Driving") :=
  (requiredSkills_parsed "First Aid, , Driving").2.2.2 (exCtx "n1" "ngo") (exEnv 3)
    { exTaskAt "Secunderabad" with requiredSkills := "First Aid, , Driving" } exEmptyWorld
    rfl (by decide)

/-! ## C19, C20: the assignment fields of a task -/

theorem handleAcceptTask_volunteerTasks (ctx : FirebaseContext) (env : Env)
    (st : VolunteerCoordinationPage) (w : World) (taskId : String) :
    (handleAcceptTask ctx env st w taskId).2.store.volunteerTasks = w.store.volunteerTasks ∨
    ∃ uid : String, (handleAcceptTask ctx env st w taskId).2.store.volunteerTasks =
      w.store.volunteerTasks.map (fun e =>
        if e.1 = taskId then
          (e.1, mergeFields e.2 [("status", Val.str "assigned"),
            ("assignedTo", Val.str uid), ("assignedAt", Val.date env.now)])
        else e) := by
  by_cases hdb : ctx.db = true
  · cases hu : ctx.userId with
    | none =>
      left
      simp [handleAcceptTask, hu, truthy]
    | some uid =>
      by_cases hne : uid = ""
      · left
        simp [handleAcceptTask, hu, truthy, hne]
      · have htr : truthy (some uid) = true := by simp [truthy, hne]
        by_cases hr : ctx.userRole = "volunteer"
        · cases hw : env.writeError with
          | some msg =>
            left
            simp [handleAcceptTask, updateDoc, hdb, hu, htr, hr, hw]
          | none =>
            by_cases hd : hasDoc w.store.volunteerTasks taskId = true
            · right
              exact ⟨uid, by simp [handleAcceptTask, updateDoc, hdb, hu, htr, hr, hw, hd, optStr]⟩
            · left
              simp [handleAcceptTask, updateDoc, hdb, hu, htr, hr, hw, hd]
        · left
          simp [handleAcceptTask, hdb, hu, htr, hr]
  · left
    simp [handleAcceptTask, hdb]

theorem findDoc_after_accept (ctx : FirebaseContext) (env : Env)
    (st : VolunteerCoordinationPage) (w : World) (taskId target : String) (task : Doc)
    (hfind : findDoc w.store.volunteerTasks target = some task) :
    findDoc (handleAcceptTask ctx env st w taskId).2.store.volunteerTasks target = some task ∨
    ∃ uid : String,
      findDoc (handleAcceptTask ctx env st w taskId).2.store.volunteerTasks target =
        some (mergeFields task [("status", Val.str "assigned"),
          ("assignedTo", Val.str uid), ("assignedAt", Val.date env.now)]) := by
  rcases handleAcceptTask_volunteerTasks ctx env st w taskId with h | ⟨uid, h⟩
  · left
    rw [h]
    exact hfind
  · rw [h]
    by_cases ht : target = taskId
    · right
      subst ht
      exact ⟨uid, findDoc_map_same w.store.volunteerTasks target task
        (fun d => mergeFields d [("status", Val.str "assigned"),
          ("assignedTo", Val.str uid), ("assignedAt", Val.date env.now)]) hfind⟩
    · left
      rw [findDoc_map_ne w.store.volunteerTasks taskId target
        (fun d => mergeFields d [("status", Val.str "assigned"),
          ("assignedTo", Val.str uid), ("assignedAt", Val.date env.now)]) ht]
      exact hfind

theorem findDoc_after_complete (ctx : FirebaseContext) (env : Env)
    (st : VolunteerCoordinationPage) (w : World) (taskId target : String) (task : Doc)
    (hfind : findDoc w.store.volunteerTasks target = some task) :
    findDoc (handleCompleteTask ctx env st w taskId).2.store.volunteerTasks target = some task ∨
    findDoc (handleCompleteTask ctx env st w taskId).2.store.volunteerTasks target =
      some (mergeFields task [("status", Val.str "completed"),
        ("completedAt", Val.date env.now)]) := by
  rcases handleCompleteTask_volunteerTasks ctx env st w taskId with h | h
  · left
    rw [h]
    exact hfind
  · rw [h]
    by_cases ht : target = taskId
    · right
      subst ht
      exact findDoc_map_same w.store.volunteerTasks target task
        (fun d => mergeFields d [("status", Val.str "completed"),
          ("completedAt", Val.date env.now)]) hfind
    · left
      rw [findDoc_map_ne w.store.volunteerTasks taskId target
        (fun d => mergeFields d [("status", Val.str "completed"),
          ("completedAt", Val.date env.now)]) ht]
      exact hfind

theorem getField_completed_frame (task : Doc) (a b : Val) (k : String)
    (h1 : k ≠ "status") (h2 : k ≠ "completedAt") :
    getField (mergeFields task [("status", a), ("completedAt", b)]) k = getField task k := by
  apply getField_mergeFields_of_not_mem
  intro kv hkv
  simp only [List.mem_cons, List.mem_singleton, List.not_mem_nil, or_false] at hkv
  rcases hkv with h | h <;> subst h
  · exact Ne.symm h1
  · exact Ne.symm h2

theorem runTaskCalls_keeps_pairing (calls : List TaskCall) :
    ∀ (w : World) (target : String) (task : Doc),
      findDoc w.store.volunteerTasks target = some task →
      (getField task "assignedTo" = Val.null ↔ getField task "assignedAt" = Val.null) →
      ∃ t, findDoc (runTaskCalls w calls).store.volunteerTasks target = some t ∧
        (getField t "assignedTo" = Val.null ↔ getField t "assignedAt" = Val.null) := by
  induction calls with
  | nil =>
    intro w target task hfind hinv
    exact ⟨task, hfind, hinv⟩
  | cons call rest ih =>
    intro w target task hfind hinv
    have hstep : runTaskCalls w (call :: rest) = runTaskCalls (runTaskCall w call) rest := rfl
    rw [hstep]
    cases call with
    | accept ctx env st taskId =>
      rcases findDoc_after_accept ctx env st w taskId target task hfind with h | ⟨uid, h⟩
      · exact ih _ target task h hinv
      · apply ih _ target _ h
        obtain ⟨_, h2, h3⟩ := getField_accepted task (Val.str "assigned") (Val.str uid)
          (Val.date env.now)
        rw [h2, h3]
        simp
    | complete ctx env st taskId =>
      rcases findDoc_after_complete ctx env st w taskId target task hfind with h | h
      · exact ih _ target task h hinv
      · apply ih _ target _ h
        rw [getField_completed_frame task _ _ "assignedTo" (by decide) (by decide),
          getField_completed_frame task _ _ "assignedAt" (by decide) (by decide)]
        exact hinv

/-- C19: whenever `handleCreateTask` changes the store it appends one task with
status = 'pending' and assignedTo, assignedAt and completedAt all null; and for every stored
task with assignedTo and assignedAt both null (a created task), after every sequence of
`handleAcceptTask` and `handleCompleteTask` calls, by any actors with any roles on any task ids,
the task is still stored and its assignedTo is null if and only if its assignedAt is null. -/
theorem assignedTo_and_assignedAt_set_together (ctx : FirebaseContext) (env : Env)
    (st : VolunteerCoordinationPage) (w : World) :
    ((handleCreateTask ctx env st w).2.store ≠ w.store →
      ∃ doc, (handleCreateTask ctx env st w).2.store =
          { w.store with volunteerTasks := w.store.volunteerTasks ++ [(env.newId, doc)] } ∧
        getField doc "status" = Val.str "pending" ∧
        getField doc "assignedTo" = Val.null ∧ getField doc "assignedAt" = Val.null ∧
        getField doc "completedAt" = Val.null) ∧
    (∀ (taskId : String) (task : Doc) (calls : List TaskCall),
      findDoc w.store.volunteerTasks taskId = some task →
      getField task "assignedTo" = Val.null → getField task "assignedAt" = Val.null →
      ∃ t, findDoc (runTaskCalls w calls).store.volunteerTasks taskId = some t ∧
        (getField t "assignedTo" = Val.null ↔ getField t "assignedAt" = Val.null)) := by
  constructor
  · intro hne
    rcases handleCreateTask_store_cases ctx env st w with h | ⟨lat, lng, _, _, h⟩
    · exact absurd h hne
    · refine ⟨_, h, ?_, ?_, ?_, ?_⟩ <;> simp [getField]
  · intro taskId task calls hfind h1 h2
    exact runTaskCalls_keeps_pairing calls w taskId task hfind (by simp [h1, h2])

/-- C19 at concrete inputs: ngo `n1` creates a task at "Secunderabad"; the pending task `t1`
is accepted by `v1`, completed by `v2`, accepted again by `v3` and touched by victim `u1`. -/
theorem assignedTo_and_assignedAt_set_together_witness :
    (∃ doc, (handleCreateTask (exCtx "n1" "ngo") (exEnv 3) (exTaskAt "Secunderabad")
        exEmptyWorld).2.store =
        { exEmptyWorld.store with
          volunteerTasks := exEmptyWorld.store.volunteerTasks ++ [((exEnv 3).newId, doc)] } ∧
      getField doc "status" = Val.str "pending" ∧
      getField doc "assignedTo" = Val.null ∧ getField doc "assignedAt" = Val.null ∧
      getField doc "completedAt" = Val.null) ∧
    (∃ t, findDoc (runTaskCalls (exTaskWorld exPendingTask)
        [TaskCall.accept (exCtx "v1" "volunteer") (exEnv 4) exVolunteerPage "t1",
         TaskCall.complete (exCtx "v2" "volunteer") (exEnv 5) exVolunteerPage "t1",
         TaskCall.accept (exCtx "v3" "volunteer") (exEnv 6) exVolunteerPage "t1",
         TaskCall.accept (exCtx "u1" "victim") (exEnv 7) exVolunteerPage "t1"]
        ).store.volunteerTasks "t1" = some t ∧
      (getField t "assignedTo" = Val.null ↔ getField t "assignedAt" = Val.null)) :=
  ⟨(assignedTo_and_assignedAt_set_together (exCtx "n1" "ngo") (exEnv 3)
      (exTaskAt "Secunderabad") exEmptyWorld).1 (by decide),
   (assignedTo_and_assignedAt_set_together (exCtx "n1" "ngo") (exEnv 3) exVolunteerPage
      (exTaskWorld exPendingTask)).2 "t1" exPendingTask _ (by decide) (by decide) (by decide)⟩

/-- C20: for every stored task whose assignedTo is non-null, after a `handleAcceptTask` call
and after a `handleCompleteTask` call (by any actor with any role, on this or another task id,
accepted, rejected or failed) the task is still stored with a non-null assignedTo; and
`handleCompleteTask` leaves its assignedTo and assignedAt exactly as they were. -/
theorem assignedTo_never_cleared (ctx : FirebaseContext) (env : Env)
    (st : VolunteerCoordinationPage) (w : World) (taskId target : String) (task : Doc)
    (hfind : findDoc w.store.volunteerTasks target = some task)
    (hset : getField task "assignedTo" ≠ Val.null) :
    (∃ t, findDoc (handleAcceptTask ctx env st w taskId).2.store.volunteerTasks target = some t ∧
      getField t "assignedTo" ≠ Val.null) ∧
    (∃ t, findDoc (handleCompleteTask ctx env st w taskId).2.store.volunteerTasks target
        = some t ∧
      getField t "assignedTo" ≠ Val.null ∧
      getField t "assignedTo" = getField task "assignedTo" ∧
      getField t "assignedAt" = getField task "assignedAt") := by
  constructor
  · rcases findDoc_after_accept ctx env st w taskId target task hfind with h | ⟨uid, h⟩
    · exact ⟨task, h, hset⟩
    · refine ⟨_, h, ?_⟩
      rw [(getField_accepted task _ _ _).2.1]
      simp
  · rcases findDoc_after_complete ctx env st w taskId target task hfind with h | h
    · exact ⟨task, h, hset, rfl, rfl⟩
    · have h1 := getField_completed_frame task (Val.str "completed") (Val.date env.now)
        "assignedTo" (by decide) (by decide)
      have h2 := getField_completed_frame task (Val.str "completed") (Val.date env.now)
        "assignedAt" (by decide) (by decide)
      refine ⟨_, h, ?_, h1, h2⟩
      rw [h1]
      exact hset

/-- C20 at a concrete input: volunteer `v2` accepts and completes the task `t1`, which is
assigned to `v1`. -/
theorem assignedTo_never_cleared_witness :
    (∃ t, findDoc (handleAcceptTask (exCtx "v2" "volunteer") (exEnv 9) exVolunteerPage
        (exTaskWorld exAssignedTask) "t1").2.store.volunteerTasks "t1" = some t ∧
      getField t "assignedTo" ≠ Val.null) ∧
    (∃ t, findDoc (handleCompleteTask (exCtx "v2" "volunteer") (exEnv 9) exVolunteerPage
        (exTaskWorld exAssignedTask) "t1").2.store.volunteerTasks "t1" = some t ∧
      getField t "assignedTo" ≠ Val.null ∧
      getField t "assignedTo" = getField exAssignedTask "assignedTo" ∧
      getField t "assignedAt" = getField exAssignedTask "assignedAt") :=
  assignedTo_never_cleared (exCtx "v2" "volunteer") (exEnv 9) exVolunteerPage
    (exTaskWorld exAssignedTask) "t1" "t1" exAssignedTask (by decide) (by decide)

/-! ## C21: the coordinates of a stored report -/

theorem submitReportDoc_store_cases (ctx : FirebaseContext) (env : Env) (st : ReportSystemPage)
    (w : World) (lat lng : Option Int) (loc : String) :
    (submitReportDoc ctx env st w lat lng loc).2.store = w.store ∨
    (submitReportDoc ctx env st w lat lng loc).2.store =
      { w.store with reports := w.store.reports ++ [(env.newId,
        [("userId", optStr ctx.userId), ("reportType", Val.str st.reportType),
         ("details", Val.str st.details), ("location", Val.str loc),
         ("latitude", optNum lat), ("longitude", optNum lng),
         ("timestamp", Val.date env.now), ("status", Val.str "pending")])] } := by
  cases hw : env.writeError with
  | some msg => left; simp [submitReportDoc, addDoc, hw]
  | none => right; simp [submitReportDoc, addDoc, hw]

theorem handleSubmitReport_resolved (ctx : FirebaseContext) (env : Env)
    (st : ReportSystemPage) (w : World) (lat lng : Int)
    (hdb : ctx.db = true) (hu : truthy ctx.userId = true)
    (hman : st.manualLat = none ∨ st.manualLng = none) (ht : truthy (some st.location) = true)
    (hlat : (getCoordinatesFromLocation env (some st.location) w).1.latitude = some lat)
    (hlng : (getCoordinatesFromLocation env (some st.location) w).1.longitude = some lng) :
    handleSubmitReport ctx env st w =
      submitReportDoc ctx env { st with isSubmitting := true, message := "" }
        (getCoordinatesFromLocation env (some st.location) w).2 (some lat) (some lng)
        st.location := by
  have hcond : (st.manualLat == none || st.manualLng == none) = true := by
    rcases hman with h | h <;> simp [h]
  simp [handleSubmitReport, hdb, hu, hcond, ht, hlat, hlng]

theorem handleSubmitReport_unresolved (ctx : FirebaseContext) (env : Env)
    (st : ReportSystemPage) (w : World)
    (hman : st.manualLat = none ∨ st.manualLng = none)
    (hfail : truthy (some st.location) = false ∨
      (getCoordinatesFromLocation env (some st.location) w).1.latitude = none ∨
      (getCoordinatesFromLocation env (some st.location) w).1.longitude = none) :
    (handleSubmitReport ctx env st w).2.store = w.store := by
  have hstore := getCoordinatesFromLocation_store env (some st.location) w
  have hcond : (st.manualLat == none || st.manualLng == none) = true := by
    rcases hman with h | h <;> simp [h]
  unfold handleSubmitReport
  split
  · rfl
  · rcases hfail with h | h | h
    · simp [hcond, h]
    · by_cases ht : truthy (some st.location) = true
      · simp [hcond, ht, h, hstore]
      · simp [hcond, ht]
    · by_cases ht : truthy (some st.location) = true
      · simp [hcond, ht, h, hstore]
      · simp [hcond, ht]

theorem handleSubmitReport_store_cases (ctx : FirebaseContext) (env : Env)
    (st : ReportSystemPage) (w : World) :
    (handleSubmitReport ctx env st w).2.store = w.store ∨
    ∃ lat lng : Int, (handleSubmitReport ctx env st w).2.store =
      { w.store with reports := w.store.reports ++ [(env.newId,
        [("userId", optStr ctx.userId), ("reportType", Val.str st.reportType),
         ("details", Val.str st.details), ("location", Val.str st.location),
         ("latitude", Val.num lat), ("longitude", Val.num lng),
         ("timestamp", Val.date env.now), ("status", Val.str "pending")])] } := by
  have hstore := getCoordinatesFromLocation_store env (some st.location) w
  by_cases hdb : ctx.db = true
  swap
  · left
    simp [handleSubmitReport, hdb]
  by_cases hu : truthy ctx.userId = true
  swap
  · left
    simp [handleSubmitReport, hu]
  by_cases hman : st.manualLat = none ∨ st.manualLng = none
  · by_cases ht : truthy (some st.location) = true
    · cases hglat : (getCoordinatesFromLocation env (some st.location) w).1.latitude with
      | none =>
        exact Or.inl (handleSubmitReport_unresolved ctx env st w hman (Or.inr (Or.inl hglat)))
      | some lat =>
        cases hglng : (getCoordinatesFromLocation env (some st.location) w).1.longitude with
        | none =>
          exact Or.inl (handleSubmitReport_unresolved ctx env st w hman
            (Or.inr (Or.inr hglng)))
        | some lng =>
          rw [handleSubmitReport_resolved ctx env st w lat lng hdb hu hman ht hglat hglng]
          rcases submitReportDoc_store_cases ctx env
            { st with isSubmitting := true, message := "" }
            (getCoordinatesFromLocation env (some st.location) w).2 (some lat) (some lng)
            st.location with h | h
          · left
            rw [h, hstore]
          · right
            refine ⟨lat, lng, ?_⟩
            rw [h, hstore]
            rfl
    · left
      exact handleSubmitReport_unresolved ctx env st w hman (Or.inl (by simpa using ht))
  · simp only [not_or] at hman
    obtain ⟨lat, hlat⟩ := Option.ne_none_iff_exists'.mp hman.1
    obtain ⟨lng, hlng⟩ := Option.ne_none_iff_exists'.mp hman.2
    rw [handleSubmitReport_manual ctx env st w lat lng hdb hu hlat hlng]
    rcases submitReportDoc_store_cases ctx env
      { st with isSubmitting := true, message := "" } w (some lat) (some lng)
      st.location with h | h
    · exact Or.inl h
    · right
      exact ⟨lat, lng, h⟩

/-- C21: for every context, form state (each of `manualLat`, `manualLng` null or not), geocoder
and store behaviour, whenever `handleSubmitReport` changes the store it appends one report whose
latitude and longitude are both numbers; so a created report never has exactly one of the two
coordinates null. -/
theorem report_coordinates_paired (ctx : FirebaseContext) (env : Env) (st : ReportSystemPage)
    (w : World) (hadd : (handleSubmitReport ctx env st w).2.store ≠ w.store) :
    ∃ doc, (handleSubmitReport ctx env st w).2.store =
        { w.store with reports := w.store.reports ++ [(env.newId, doc)] } ∧
      (∃ lat lng : Int,
        getField doc "latitude" = Val.num lat ∧ getField doc "longitude" = Val.num lng) ∧
      (getField doc "latitude" = Val.null ↔ getField doc "longitude" = Val.null) := by
  rcases handleSubmitReport_store_cases ctx env st w with h | ⟨lat, lng, h⟩
  · exact absurd h hadd
  · refine ⟨_, h, ⟨lat, lng, ?_, ?_⟩, ?_⟩ <;> simp [getField]

/-- C21 at a concrete input: only `manualLat` is set (17), `manualLng` is null, and the typed
location "Secunderabad" resolves to (17, 78): the stored report has both coordinates. -/
theorem report_coordinates_paired_witness :
    ∃ doc, (handleSubmitReport (exCtx "u1" "victim") (exEnv 3)
        { exReportAt "Secunderabad" with manualLat := some 17 } exEmptyWorld).2.store =
        { exEmptyWorld.store with
          reports := exEmptyWorld.store.reports ++ [((exEnv 3).newId, doc)] } ∧
      (∃ lat lng : Int,
        getField doc "latitude" = Val.num lat ∧ getField doc "longitude" = Val.num lng) ∧
      (getField doc "latitude" = Val.null ↔ getField doc "longitude" = Val.null) :=
  report_coordinates_paired (exCtx "u1" "victim") (exEnv 3)
    { exReportAt "Secunderabad" with manualLat := some 17 } exEmptyWorld (by decide)

/-! ## C22: the stored broadcast -/

/-- C22: for a sender with role admin or ngo and identifier `uid`, in an initialised context
with the write accepted, the document `handleSubmitBroadcast` stores has userRole = the role at
send time, userId = `uid`, the title and message of the form, timestamp = now, and no field
named status. -/
theorem broadcast_document_fields (ctx : FirebaseContext) (env : Env)
    (st : RealTimeUpdatesPage) (w : World) (uid : String)
    (hdb : ctx.db = true) (huid : ctx.userId = some uid) (hne : uid ≠ "")
    (hrole : ctx.userRole = "admin" ∨ ctx.userRole = "ngo") (hw : env.writeError = none) :
    ∃ doc, (handleSubmitBroadcast ctx env st w).2.store =
        { w.store with broadcasts := w.store.broadcasts ++ [(env.newId, doc)] } ∧
      getField doc "userRole" = Val.str ctx.userRole ∧
      getField doc "userId" = Val.str uid ∧
      getField doc "title" = Val.str st.title ∧
      getField doc "message" = Val.str st.message ∧
      getField doc "timestamp" = Val.date env.now ∧
      (∀ kv ∈ doc, kv.1 ≠ "status") := by
  have hu : truthy ctx.userId = true := by simp [huid, truthy, hne]
  have hguard : (ctx.userRole != "admin" && ctx.userRole != "ngo") = false := by
    rcases hrole with h | h <;> simp [h]
  refine ⟨[("userId", Val.str uid), ("userRole", Val.str ctx.userRole),
    ("title", Val.str st.title), ("message", Val.str st.message),
    ("timestamp", Val.date env.now)], ?_, ?_, ?_, ?_, ?_, ?_, ?_⟩
  · simp only [handleSubmitBroadcast, hdb, hu, hguard, addDoc, hw]
    simp [huid, optStr]
  all_goals simp [getField]

/-- C22 at the concrete input of scenario A: admin `a1` sends the broadcast titled
'Shelter Open'. -/
theorem broadcast_document_fields_witness :
    ∃ doc, (handleSubmitBroadcast (exCtx "a1" "admin") (exEnv 3)
        { exUpdatesPage with title := "Shelter Open", message := "Hall 2 is open" }
        exEmptyWorld).2.store =
        { exEmptyWorld.store with
          broadcasts := exEmptyWorld.store.broadcasts ++ [((exEnv 3).newId, doc)] } ∧
      getField doc "userRole" = Val.str (exCtx "a1" "admin").userRole ∧
      getField doc "userId" = Val.str "a1" ∧
      getField doc "title" = Val.str
        ({ exUpdatesPage with title := "Shelter Open", message := "Hall 2 is open" } :
          RealTimeUpdatesPage).title ∧
      getField doc "message" = Val.str
        ({ exUpdatesPage with title := "Shelter Open", message := "Hall 2 is open" } :
          RealTimeUpdatesPage).message ∧
      getField doc "timestamp" = Val.date (exEnv 3).now ∧
      (∀ kv ∈ doc, kv.1 ≠ "status") :=
  broadcast_document_fields (exCtx "a1" "admin") (exEnv 3)
    { exUpdatesPage with title := "Shelter Open", message := "Hall 2 is open" } exEmptyWorld
    "a1" (by decide) rfl (by decide) (Or.inl rfl) rfl

/-! ## C23: a snapshot replaces the list -/

/-- C23: for every prior state and every delivered snapshot, the list held after the snapshot
callback of `UserReports`, `ResourceRequestsPage` and `VolunteerCoordinationPage` is the
snapshot's documents mapped by `snapshotEntity`, one entity per document in snapshot order; it
is the same list whatever the prior state was; and after two successive snapshots the state is
what the second snapshot alone gives. -/
theorem snapshot_is_authoritative (snapshot second : Snapshot) (stU stU2 : UserReports)
    (stQ stQ2 : ResourceRequestsPage) (stT stT2 : VolunteerCoordinationPage) :
    ((userReportsOnSnapshot stU snapshot).reports = snapshot.map snapshotEntity ∧
      (userReportsOnSnapshot stU snapshot).reports =
        (userReportsOnSnapshot stU2 snapshot).reports ∧
      userReportsOnSnapshot (userReportsOnSnapshot stU snapshot) second =
        userReportsOnSnapshot stU second) ∧
    ((resourceRequestsOnSnapshot stQ snapshot).requests = snapshot.map snapshotEntity ∧
      (resourceRequestsOnSnapshot stQ snapshot).requests =
        (resourceRequestsOnSnapshot stQ2 snapshot).requests ∧
      resourceRequestsOnSnapshot (resourceRequestsOnSnapshot stQ snapshot) second =
        resourceRequestsOnSnapshot stQ second) ∧
    ((volunteerTasksOnSnapshot stT snapshot).volunteerTasks = snapshot.map snapshotEntity ∧
      (volunteerTasksOnSnapshot stT snapshot).volunteerTasks =
        (volunteerTasksOnSnapshot stT2 snapshot).volunteerTasks ∧
      volunteerTasksOnSnapshot (volunteerTasksOnSnapshot stT snapshot) second =
        volunteerTasksOnSnapshot stT second) ∧
    (snapshot.map snapshotEntity).length = snapshot.length ∧
    (∀ i : Nat, (snapshot.map snapshotEntity)[i]? = (snapshot[i]?).map snapshotEntity) := by
  refine ⟨⟨rfl, rfl, rfl⟩, ⟨rfl, rfl, rfl⟩, ⟨rfl, rfl, rfl⟩, ?_, ?_⟩
  · simp
  · intro i
    simp

/-! ## C24: two volunteers accept the same task -/

theorem handleAcceptTask_spec_trace (ctx : FirebaseContext) (env : Env)
    (st : VolunteerCoordinationPage) (w : World) (taskId : String) (task : Doc)
    (hdb : ctx.db = true) (hu : truthy ctx.userId = true) (hrole : ctx.userRole = "volunteer")
    (hw : env.writeError = none) (hfind : findDoc w.store.volunteerTasks taskId = some task) :
    ∃ w2 : World,
      handleAcceptTask ctx env st w taskId =
        ({ st with createTaskMessage := "Task accepted successfully!" }, w2) ∧
      findDoc w2.store.volunteerTasks taskId =
        some (mergeFields task [("status", Val.str "assigned"),
          ("assignedTo", optStr ctx.userId), ("assignedAt", Val.date env.now)]) ∧
      w2.trace = w.trace ++ [Effect.updateDoc "volunteerTasks" taskId
        [("status", Val.str "assigned"), ("assignedTo", optStr ctx.userId),
         ("assignedAt", Val.date env.now)]] := by
  rw [handleAcceptTask_run ctx env st w taskId task hdb hu hrole hw hfind]
  exact ⟨_, rfl, findDoc_map_same w.store.volunteerTasks taskId task
    (fun d => mergeFields d [("status", Val.str "assigned"),
      ("assignedTo", optStr ctx.userId), ("assignedAt", Val.date env.now)]) hfind, rfl⟩

/-- C24: two volunteers `a` and `b` both see the task listed as pending, so the "Accept Task"
button is rendered to both; `a` calls `handleAcceptTask` and then `b` does, on the same stored
task, with no new snapshot in between.  Neither call is refused: both report success, both
`updateDoc` writes are issued, and the task ends with status = 'assigned', assignedTo = `b`
(the second writer) and assignedAt = the instant of the second write. -/
theorem concurrent_accept_last_write_wins (ctxA ctxB : FirebaseContext) (envA envB : Env)
    (stA stB : VolunteerCoordinationPage) (w : World) (taskId a b : String) (task shown : Doc)
    (hdbA : ctxA.db = true) (hdbB : ctxB.db = true)
    (hA : ctxA.userId = some a) (hB : ctxB.userId = some b) (ha : a ≠ "") (hb : b ≠ "")
    (hroleA : ctxA.userRole = "volunteer") (hroleB : ctxB.userRole = "volunteer")
    (hwA : envA.writeError = none) (hwB : envB.writeError = none)
    (hfind : findDoc w.store.volunteerTasks taskId = some task)
    (hshown : getField shown "status" = Val.str "pending") :
    showAcceptTask ctxA shown = true ∧ showAcceptTask ctxB shown = true ∧
    (handleAcceptTask ctxA envA stA w taskId).1.createTaskMessage =
      "Task accepted successfully!" ∧
    (handleAcceptTask ctxB envB stB (handleAcceptTask ctxA envA stA w taskId).2
      taskId).1.createTaskMessage = "Task accepted successfully!" ∧
    (handleAcceptTask ctxB envB stB (handleAcceptTask ctxA envA stA w taskId).2
      taskId).2.trace =
      w.trace ++
        [Effect.updateDoc "volunteerTasks" taskId
          [("status", Val.str "assigned"), ("assignedTo", Val.str a),
           ("assignedAt", Val.date envA.now)],
         Effect.updateDoc "volunteerTasks" taskId
          [("status", Val.str "assigned"), ("assignedTo", Val.str b),
           ("assignedAt", Val.date envB.now)]] ∧
    ∃ t, findDoc (handleAcceptTask ctxB envB stB (handleAcceptTask ctxA envA stA w taskId).2
        taskId).2.store.volunteerTasks taskId = some t ∧
      getField t "status" = Val.str "assigned" ∧
      getField t "assignedTo" = Val.str b ∧
      getField t "assignedAt" = Val.date envB.now := by
  have huA : truthy ctxA.userId = true := by simp [hA, truthy, ha]
  have huB : truthy ctxB.userId = true := by simp [hB, truthy, hb]
  have hoA : optStr ctxA.userId = Val.str a := by rw [hA]; rfl
  have hoB : optStr ctxB.userId = Val.str b := by rw [hB]; rfl
  obtain ⟨w1, hrun1, hdoc1, htr1⟩ :=
    handleAcceptTask_spec_trace ctxA envA stA w taskId task hdbA huA hroleA hwA hfind
  rw [hrun1]
  obtain ⟨w2, hrun2, hdoc2, htr2⟩ :=
    handleAcceptTask_spec_trace ctxB envB stB w1 taskId _ hdbB huB hroleB hwB hdoc1
  rw [hrun2]
  rw [hoA] at htr1
  rw [hoB] at htr2 hdoc2
  refine ⟨by simp [showAcceptTask, hroleA, hshown], by simp [showAcceptTask, hroleB, hshown],
    rfl, rfl, ?_, _, hdoc2, getField_accepted _ _ _ _⟩
  show w2.trace = _
  rw [htr2, htr1]
  simp

/-- C24 at a concrete input: `v1` and `v2` both accept the pending task `t1`, at instants 4
and 5. -/
theorem concurrent_accept_last_write_wins_witness :
    showAcceptTask (exCtx "v1" "volunteer") exPendingTask = true ∧
    showAcceptTask (exCtx "v2" "volunteer") exPendingTask = true ∧
    (handleAcceptTask (exCtx "v1" "volunteer") (exEnv 4) exVolunteerPage
      (exTaskWorld exPendingTask) "t1").1.createTaskMessage = "Task accepted successfully!" ∧
    (handleAcceptTask (exCtx "v2" "volunteer") (exEnv 5) exVolunteerPage
      (handleAcceptTask (exCtx "v1" "volunteer") (exEnv 4) exVolunteerPage
        (exTaskWorld exPendingTask) "t1").2 "t1").1.createTaskMessage =
      "Task accepted successfully!" ∧
    (handleAcceptTask (exCtx "v2" "volunteer") (exEnv 5) exVolunteerPage
      (handleAcceptTask (exCtx "v1" "volunteer") (exEnv 4) exVolunteerPage
        (exTaskWorld exPendingTask) "t1").2 "t1").2.trace =
      (exTaskWorld exPendingTask).trace ++
        [Effect.updateDoc "volunteerTasks" "t1"
          [("status", Val.str "assigned"), ("assignedTo", Val.str "v1"),
           ("assignedAt", Val.date (exEnv 4).now)],
         Effect.updateDoc "volunteerTasks" "t1"
          [("status", Val.str "assigned"), ("assignedTo", Val.str "v2"),
           ("assignedAt", Val.date (exEnv 5).now)]] ∧
    ∃ t, findDoc (handleAcceptTask (exCtx "v2" "volunteer") (exEnv 5) exVolunteerPage
        (handleAcceptTask (exCtx "v1" "volunteer") (exEnv 4) exVolunteerPage
          (exTaskWorld exPendingTask) "t1").2 "t1").2.store.volunteerTasks "t1" = some t ∧
      getField t "status" = Val.str "assigned" ∧
      getField t "assignedTo" = Val.str "v2" ∧
      getField t "assignedAt" = Val.date (exEnv 5).now :=
  concurrent_accept_last_write_wins (exCtx "v1" "volunteer") (exCtx "v2" "volunteer")
    (exEnv 4) (exEnv 5) exVolunteerPage exVolunteerPage (exTaskWorld exPendingTask) "t1"
    "v1" "v2" exPendingTask exPendingTask (by decide) (by decide) rfl rfl (by decide)
    (by decide) rfl rfl rfl rfl (by decide) (by decide)

/-! ## C26: who is offered "Mark as Completed" -/

/-- C26, evaluated where it fails: on a task whose status is 'completed' the "Mark as
Completed" button is rendered to an admin and not to an ngo, so the two roles are not offered
the action on the same tasks.  For a volunteer it is rendered exactly when the task is assigned
to that volunteer, and for an ngo exactly when the status is not 'completed'. -/
theorem markAsCompleted_offered_to_admin_on_completed :
    getField exCompletedTask "status" = Val.str "completed" ∧
    showMarkAsCompleted (exCtx "a1" "admin") exCompletedTask = true ∧
    showMarkAsCompleted (exCtx "n1" "ngo") exCompletedTask = false ∧
    (∀ (ctx : FirebaseContext) (task : Doc), ctx.userRole = "admin" →
      showMarkAsCompleted ctx task = true) ∧
    (∀ (ctx : FirebaseContext) (task : Doc), ctx.userRole = "ngo" →
      (showMarkAsCompleted ctx task = true ↔ getField task "status" ≠ Val.str "completed")) ∧
    (∀ (ctx : FirebaseContext) (task : Doc), ctx.userRole = "volunteer" →
      (showMarkAsCompleted ctx task = true ↔
        getField task "status" = Val.str "assigned" ∧
        getField task "assignedTo" = optStr ctx.userId)) := by
  refine ⟨by decide, by decide, by decide, ?_, ?_, ?_⟩
  · intro ctx task h
    simp [showMarkAsCompleted, h]
  · intro ctx task h
    simp [showMarkAsCompleted, h]
  · intro ctx task h
    simp [showMarkAsCompleted, h]

/-! ## C27: markers on the map -/

/-- C27, evaluated where it fails: with a report at latitude 0 (longitude 78), a report at
(17, 78) and a request at longitude 0 (latitude 51), all three with numeric non-null
coordinates, the marker effect puts a single marker on the map, the red one at (17, 78); the
entities with a coordinate equal to 0 get none.  Such a report is one the application stores
itself: `handleSubmitReport` with the detected position (0, 78) adds it (its test is
`=== null`), and the marker effect run on the snapshot of the store shows no marker for it. -/
theorem markerEffect_skips_zero_coordinates :
    getField exEquatorReport "latitude" = Val.num 0 ∧
    getField exEquatorReport "longitude" = Val.num 78 ∧
    getField exMeridianRequest "latitude" = Val.num 51 ∧
    getField exMeridianRequest "longitude" = Val.num 0 ∧
    (markerEffect exMapPage).map =
      some [{ position := (Val.num 17, Val.num 78),
              titleOf := (Val.str "injury", Val.str "Leg"),
              icon := "http://maps.google.com/mapfiles/ms/icons/red-dot.png" }] ∧
    ((handleSubmitReport (exCtx "u1" "victim") (exEnv 3)
        (handleUseCurrentLocation exReportPage (GeolocationResult.position 0 78))
        exEmptyWorld).2.store.reports.map
      (fun e => (getField e.2 "latitude", getField e.2 "longitude"))) =
      [(Val.num 0, Val.num 78)] ∧
    (markerEffect
      { map := some [],
        reports := (handleSubmitReport (exCtx "u1" "victim") (exEnv 3)
          (handleUseCurrentLocation exReportPage (GeolocationResult.position 0 78))
          exEmptyWorld).2.store.reports.map snapshotEntity,
        requests := [] }).map = some [] := by
  decide

/-! ## C28: the id of a snapshot entity -/

/-- C28, evaluated where it fails: the document stored under the id `doc-7` has a field named
`id` with the value `doc-1`; the entity `{ id: doc.id, ...doc.data() }` then has id `doc-1`,
not the store-assigned `doc-7`, because the spread comes after `id`; the other fields read as
stored.  When the stored fields have no field named `id` the entity's id is the store-assigned
one. -/
theorem snapshotEntity_id_overridden_by_stored_field :
    exDocWithIdField.1 = "doc-7" ∧
    getField (snapshotEntity exDocWithIdField) "id" = Val.str "doc-1" ∧
    getField (snapshotEntity exDocWithIdField) "title" = Val.str "Deliver water" ∧
    (∀ doc : String × Doc, (∀ kv ∈ doc.2, kv.1 ≠ "id") →
      getField (snapshotEntity doc) "id" = Val.str doc.1) := by
  refine ⟨rfl, by decide, by decide, ?_⟩
  intro doc h
  unfold snapshotEntity
  rw [getField_mergeFields_of_not_mem doc.2 _ "id" h]
  simp [getField]

/-! ## C25: the latest updates of the dashboard -/

theorem toNumber_of_numeric (e : Doc) (h : hasNumericTimestamp e = true) :
    toNumber (getField e "timestamp") = some (timestampOf e) := by
  unfold hasNumericTimestamp at h
  unfold timestampOf
  cases hv : getField e "timestamp" with
  | num n => simp [toNumber]
  | date t =>
    rw [hv] at h
    have ht : t ≤ maxTimestampMillis := by simpa using h
    simp [toNumber, ht]
  | null => simp [hv] at h
  | undefined => simp [hv] at h
  | str s => simp [hv] at h
  | strs l => simp [hv] at h

theorem compare_timestamps (a b : Doc) (ha : hasNumericTimestamp a = true)
    (hb : hasNumericTimestamp b = true) :
    jsMinus (toNumber (getField b "timestamp")) (toNumber (getField a "timestamp")) =
      some (timestampOf b - timestampOf a) := by
  rw [toNumber_of_numeric a ha, toNumber_of_numeric b hb]
  rfl

theorem insertSorted_newest_first (x : Doc) (l : List Doc)
    (hx : hasNumericTimestamp x = true) (hl : ∀ e ∈ l, hasNumericTimestamp e = true)
    (hsorted : List.Pairwise (fun a b => timestampOf b ≤ timestampOf a) l) :
    ∃ l2, insertSorted (fun a b => jsMinus (toNumber (getField b "timestamp"))
        (toNumber (getField a "timestamp"))) x l = some l2 ∧
      List.Perm l2 (x :: l) ∧
      List.Pairwise (fun a b => timestampOf b ≤ timestampOf a) l2 := by
  induction l with
  | nil => exact ⟨[x], rfl, List.Perm.refl _, List.pairwise_singleton _ _⟩
  | cons y ys ih =>
    have hy := hl y (List.mem_cons_self y ys)
    have hys : ∀ e ∈ ys, hasNumericTimestamp e = true :=
      fun e he => hl e (List.mem_cons_of_mem y he)
    rw [List.pairwise_cons] at hsorted
    have hcmp := compare_timestamps x y hx hy
    by_cases hle : timestampOf y - timestampOf x ≤ 0
    · refine ⟨x :: y :: ys, ?_, List.Perm.refl _, ?_⟩
      · simp only [insertSorted, hcmp, if_pos hle]
      · refine List.Pairwise.cons ?_ (List.Pairwise.cons hsorted.1 hsorted.2)
        intro z hz
        rcases List.mem_cons.mp hz with e | e
        · subst e
          omega
        · have := hsorted.1 z e
          omega
    · obtain ⟨rest, hrest, hperm, hpair⟩ := ih hys hsorted.2
      refine ⟨y :: rest, ?_, ?_, ?_⟩
      · simp only [insertSorted, hcmp, if_neg hle, hrest]
      · exact (List.Perm.cons y hperm).trans (List.Perm.swap x y ys)
      · refine List.Pairwise.cons ?_ hpair
        intro z hz
        rcases List.mem_cons.mp (hperm.subset hz) with e | e
        · subst e
          omega
        · exact hsorted.1 z e

theorem jsSort_newest_first (l : List Doc) (hl : ∀ e ∈ l, hasNumericTimestamp e = true) :
    ∃ sorted, jsSort (fun a b => jsMinus (toNumber (getField b "timestamp"))
        (toNumber (getField a "timestamp"))) l = some sorted ∧
      List.Perm sorted l ∧
      List.Pairwise (fun a b => timestampOf b ≤ timestampOf a) sorted := by
  induction l with
  | nil => exact ⟨[], rfl, List.Perm.refl _, List.Pairwise.nil⟩
  | cons x xs ih =>
    have hx := hl x (List.mem_cons_self x xs)
    have hxs : ∀ e ∈ xs, hasNumericTimestamp e = true :=
      fun e he => hl e (List.mem_cons_of_mem x he)
    obtain ⟨sorted, hsome, hperm, hpair⟩ := ih hxs
    obtain ⟨l2, hl2, hperm2, hpair2⟩ := insertSorted_newest_first x sorted hx
      (fun e he => hxs e (hperm.subset he)) hpair
    refine ⟨l2, ?_, hperm2.trans (List.Perm.cons x hperm), hpair2⟩
    simp only [jsSort, hsome, hl2]

/-- C25: for every broadcast snapshot whose entities have numeric timestamps, both callbacks
produce their list; the dashboard's latest-updates list has length min(3, n), is ordered from
newest to oldest, and is the first three entries of the list `RealTimeUpdatesPage` derives from
the same snapshot; that list is a permutation of the snapshot's entities, ordered from newest
to oldest. -/
theorem latestUpdates_are_newest_three (stD : DashboardPage) (stR : RealTimeUpdatesPage)
    (snapshot : Snapshot)
    (hnum : ∀ e ∈ snapshot.map snapshotEntity, hasNumericTimestamp e = true) :
    ∃ dash updates,
      dashboardOnSnapshot stD snapshot = some dash ∧
      realTimeUpdatesOnSnapshot stR snapshot = some updates ∧
      dash.latestUpdates.length = min 3 snapshot.length ∧
      List.Pairwise (fun a b => timestampOf b ≤ timestampOf a) dash.latestUpdates ∧
      dash.latestUpdates = updates.broadcasts.take 3 ∧
      List.Perm updates.broadcasts (snapshot.map snapshotEntity) ∧
      List.Pairwise (fun a b => timestampOf b ≤ timestampOf a) updates.broadcasts := by
  obtain ⟨sorted, hsome, hperm, hpair⟩ := jsSort_newest_first (snapshot.map snapshotEntity) hnum
  refine ⟨{ stD with latestUpdates := sorted.take 3 }, { stR with broadcasts := sorted },
    ?_, ?_, ?_, ?_, rfl, hperm, hpair⟩
  · simp only [dashboardOnSnapshot, hsome]
  · simp only [realTimeUpdatesOnSnapshot, hsome]
  · show (List.take 3 sorted).length = _
    rw [List.length_take, hperm.length_eq, List.length_map]
  · exact hpair.sublist (List.take_sublist 3 _)

/-- C25 at concrete inputs.  Four broadcasts sent at the instants 5, 9, 2 and 7: the dashboard
keeps those of 9, 7 and 5, in this order.  Two broadcasts stored with a `Date` (the instants 5
and 7) and one with the number 10: a `Timestamp` counts its seconds from the year 1, so both
come before the number, and the `Timestamp` of instant 5 minus the number 10 is
62135596790.005. -/
theorem latestUpdates_are_newest_three_witness :
    (∃ dash updates,
      dashboardOnSnapshot exDashboardPage exBroadcastSnapshot = some dash ∧
      realTimeUpdatesOnSnapshot exUpdatesPage exBroadcastSnapshot = some updates ∧
      dash.latestUpdates.length = min 3 exBroadcastSnapshot.length ∧
      List.Pairwise (fun a b => timestampOf b ≤ timestampOf a) dash.latestUpdates ∧
      dash.latestUpdates = updates.broadcasts.take 3 ∧
      List.Perm updates.broadcasts (exBroadcastSnapshot.map snapshotEntity) ∧
      List.Pairwise (fun a b => timestampOf b ≤ timestampOf a) updates.broadcasts) ∧
    (dashboardOnSnapshot exDashboardPage exBroadcastSnapshot).map
        (fun dash => dash.latestUpdates.map (fun e => getField e "id")) =
      some [Val.str "b2", Val.str "b4", Val.str "b1"] ∧
    (realTimeUpdatesOnSnapshot exUpdatesPage exMixedSnapshot).map
        (fun updates => updates.broadcasts.map (fun e => getField e "id")) =
      some [Val.str "x3", Val.str "x1", Val.str "x2"] ∧
    jsMinus (toNumber (Val.date 5)) (toNumber (Val.num 10)) = some 62135596790005 :=
  ⟨latestUpdates_are_newest_three exDashboardPage exUpdatesPage exBroadcastSnapshot
    (by decide), by decide, by decide, by decide⟩

/-! ## C29: the location field and the detected coordinates -/

theorem submitReportDoc_form_cases (ctx : FirebaseContext) (env : Env) (st : ReportSystemPage)
    (w : World) (lat lng : Option Int) (loc : String) :
    ((submitReportDoc ctx env st w lat lng loc).1.location = st.location ∧
      (submitReportDoc ctx env st w lat lng loc).1.manualLat = st.manualLat ∧
      (submitReportDoc ctx env st w lat lng loc).1.manualLng = st.manualLng) ∨
    ((submitReportDoc ctx env st w lat lng loc).1.location = "" ∧
      (submitReportDoc ctx env st w lat lng loc).1.manualLat = none ∧
      (submitReportDoc ctx env st w lat lng loc).1.manualLng = none) := by
  cases hw : env.writeError with
  | some msg => left; simp [submitReportDoc, addDoc, hw]
  | none => right; simp [submitReportDoc, addDoc, hw]

theorem handleSubmitReport_form_cases (ctx : FirebaseContext) (env : Env)
    (st : ReportSystemPage) (w : World) :
    ((handleSubmitReport ctx env st w).1.location = st.location ∧
      (handleSubmitReport ctx env st w).1.manualLat = st.manualLat ∧
      (handleSubmitReport ctx env st w).1.manualLng = st.manualLng) ∨
    ((handleSubmitReport ctx env st w).1.location = "" ∧
      (handleSubmitReport ctx env st w).1.manualLat = none ∧
      (handleSubmitReport ctx env st w).1.manualLng = none) := by
  by_cases hdb : ctx.db = true
  swap
  · left
    simp [handleSubmitReport, hdb]
  by_cases hu : truthy ctx.userId = true
  swap
  · left
    simp [handleSubmitReport, hu]
  by_cases hman : st.manualLat = none ∨ st.manualLng = none
  · have hcond : (st.manualLat == none || st.manualLng == none) = true := by
      rcases hman with h | h <;> simp [h]
    by_cases ht : truthy (some st.location) = true
    · cases hglat : (getCoordinatesFromLocation env (some st.location) w).1.latitude with
      | none =>
        left
        simp [handleSubmitReport, hdb, hu, hcond, ht, hglat]
      | some lat =>
        cases hglng : (getCoordinatesFromLocation env (some st.location) w).1.longitude with
        | none =>
          left
          simp [handleSubmitReport, hdb, hu, hcond, ht, hglat, hglng]
        | some lng =>
          rw [handleSubmitReport_resolved ctx env st w lat lng hdb hu hman ht hglat hglng]
          exact submitReportDoc_form_cases ctx env
            { st with isSubmitting := true, message := "" } _ _ _ _
    · left
      simp [handleSubmitReport, hdb, hu, hcond, ht]
  · simp only [not_or] at hman
    obtain ⟨lat, hlat⟩ := Option.ne_none_iff_exists'.mp hman.1
    obtain ⟨lng, hlng⟩ := Option.ne_none_iff_exists'.mp hman.2
    rw [handleSubmitReport_manual ctx env st w lat lng hdb hu hlat hlng]
    exact submitReportDoc_form_cases ctx env
      { st with isSubmitting := true, message := "" } _ _ _ _

theorem runReportFormEvent_keeps_pairing (st : ReportSystemPage) (ev : ReportFormEvent)
    (hpair : st.manualLat = none ↔ st.manualLng = none)
    (hloc : st.manualLat ≠ none → st.location = "Your Current Location") :
    ((runReportFormEvent st ev).manualLat = none ↔ (runReportFormEvent st ev).manualLng = none) ∧
    ((runReportFormEvent st ev).manualLat ≠ none →
      (runReportFormEvent st ev).location = "Your Current Location") := by
  cases ev with
  | useCurrentLocation r =>
    cases r with
    | position latitude longitude => simp [runReportFormEvent, handleUseCurrentLocation]
    | error code => simp [runReportFormEvent, handleUseCurrentLocation]
    | unsupported => exact ⟨hpair, hloc⟩
  | changeLocation value => simp [runReportFormEvent, onChangeLocation]
  | submit ctx env w =>
    rcases handleSubmitReport_form_cases ctx env st w with ⟨h1, h2, h3⟩ | ⟨h1, h2, h3⟩
    · simp only [runReportFormEvent, h1, h2, h3]
      exact ⟨hpair, hloc⟩
    · simp [runReportFormEvent, h1, h2, h3]

theorem runReportFormEvents_keeps_pairing (events : List ReportFormEvent) :
    ∀ st : ReportSystemPage, (st.manualLat = none ↔ st.manualLng = none) →
      (st.manualLat ≠ none → st.location = "Your Current Location") →
      ((runReportFormEvents st events).manualLat = none ↔
        (runReportFormEvents st events).manualLng = none) ∧
      ((runReportFormEvents st events).manualLat ≠ none →
        (runReportFormEvents st events).location = "Your Current Location") := by
  induction events with
  | nil =>
    intro st hpair hloc
    exact ⟨hpair, hloc⟩
  | cons ev rest ih =>
    intro st hpair hloc
    have hstep : runReportFormEvents st (ev :: rest) =
        runReportFormEvents (runReportFormEvent st ev) rest := rfl
    rw [hstep]
    obtain ⟨h1, h2⟩ := runReportFormEvent_keeps_pairing st ev hpair hloc
    exact ih _ h1 h2

/-- C29: starting from a form with location '' and both manual coordinates null, after every
sequence of events (a geolocation answer: position, error or no support; typing in the location
field; a submit in any context with any geocoder and store outcome), `manualLat` is null if and
only if `manualLng` is null, and when they are non-null the location text is
'Your Current Location'; typing in the location field always clears both coordinates. -/
theorem report_form_coordinates_invariant (st0 : ReportSystemPage)
    (events : List ReportFormEvent)
    (hloc : st0.location = "") (hlat : st0.manualLat = none) (hlng : st0.manualLng = none) :
    ((runReportFormEvents st0 events).manualLat = none ↔
      (runReportFormEvents st0 events).manualLng = none) ∧
    ((runReportFormEvents st0 events).manualLat ≠ none →
      (runReportFormEvents st0 events).manualLng ≠ none ∧
      (runReportFormEvents st0 events).location = "Your Current Location") ∧
    (∀ (st : ReportSystemPage) (value : String),
      (onChangeLocation st value).location = value ∧
      (onChangeLocation st value).manualLat = none ∧
      (onChangeLocation st value).manualLng = none) := by
  have _ := hloc
  obtain ⟨h1, h2⟩ := runReportFormEvents_keeps_pairing events st0 (by simp [hlat, hlng])
    (by simp [hlat])
  refine ⟨h1, ?_, ?_⟩
  · intro h
    exact ⟨fun e => h (h1.mpr e), h2 h⟩
  · intro st value
    exact ⟨rfl, rfl, rfl⟩

/-- C29 at a concrete input: the position (17, 78) is detected, a submit fails because the
store handle is missing, and then a second position (18, 79) is detected. -/
theorem report_form_coordinates_invariant_witness :
    ((runReportFormEvents exReportPage
        [ReportFormEvent.useCurrentLocation (GeolocationResult.position 17 78),
         ReportFormEvent.submit { db := false, userId := none, userRole := "victim" }
           (exEnv 3) exEmptyWorld,
         ReportFormEvent.useCurrentLocation (GeolocationResult.position 18 79)]).manualLat
        = none ↔
      (runReportFormEvents exReportPage
        [ReportFormEvent.useCurrentLocation (GeolocationResult.position 17 78),
         ReportFormEvent.submit { db := false, userId := none, userRole := "victim" }
           (exEnv 3) exEmptyWorld,
         ReportFormEvent.useCurrentLocation (GeolocationResult.position 18 79)]).manualLng
        = none) ∧
    ((runReportFormEvents exReportPage
        [ReportFormEvent.useCurrentLocation (GeolocationResult.position 17 78),
         ReportFormEvent.submit { db := false, userId := none, userRole := "victim" }
           (exEnv 3) exEmptyWorld,
         ReportFormEvent.useCurrentLocation (GeolocationResult.position 18 79)]).manualLng
        ≠ none ∧
      (runReportFormEvents exReportPage
        [ReportFormEvent.useCurrentLocation (GeolocationResult.position 17 78),
         ReportFormEvent.submit { db := false, userId := none, userRole := "victim" }
           (exEnv 3) exEmptyWorld,
         ReportFormEvent.useCurrentLocation (GeolocationResult.position 18 79)]).location
        = "Your Current Location") :=
  ⟨(report_form_coordinates_invariant exReportPage _ rfl rfl rfl).1,
   (report_form_coordinates_invariant exReportPage _ rfl rfl rfl).2.1 (by decide)⟩

/-! ## C30: searching and filtering the reports -/

theorem caseEntry_mem {β : Type} (c : Char) (v : β) (t : List (Char × β))
    (h : caseEntry c t = some v) : (c, v) ∈ t := by
  induction t with
  | nil => simp [caseEntry] at h
  | cons e rest ih =>
    obtain ⟨k, v0⟩ := e
    by_cases hk : k = c
    · simp only [caseEntry, hk, if_true, Option.some.injEq] at h
      subst hk h
      exact List.mem_cons_self _ _
    · simp only [caseEntry, hk, if_false] at h
      exact List.mem_cons_of_mem _ (ih h)

theorem lowerCaseTable_values_fixed :
    ∀ p ∈ lowerCaseTable,
      lowerCaseModelled p.2 = true ∧ caseEntry p.2 lowerCaseTable = none := by
  decide

theorem upperCaseTable_values_nonempty : ∀ p ∈ upperCaseTable, p.2 ≠ [] := by
  decide

theorem lowerCaseChar_modelled (c : Char) (hc : lowerCaseModelled c = true) :
    lowerCaseModelled ((caseEntry c lowerCaseTable).getD c) = true := by
  cases h : caseEntry c lowerCaseTable with
  | none => simpa using hc
  | some v =>
    exact (lowerCaseTable_values_fixed (c, v) (caseEntry_mem c v lowerCaseTable h)).1

theorem lowerCaseChar_idempotent (c : Char) :
    (caseEntry ((caseEntry c lowerCaseTable).getD c) lowerCaseTable).getD
        ((caseEntry c lowerCaseTable).getD c) =
      (caseEntry c lowerCaseTable).getD c := by
  cases h : caseEntry c lowerCaseTable with
  | none => simp [h]
  | some v =>
    have hv := (lowerCaseTable_values_fixed (c, v) (caseEntry_mem c v lowerCaseTable h)).2
    simp only [Option.getD_some]
    simp only at hv
    rw [hv]
    rfl

theorem toLowerCase_of_inRange (s : String) (h : lowerCaseInRange s = true) :
    toLowerCase s =
      some (String.mk (s.toList.map (fun c => (caseEntry c lowerCaseTable).getD c))) := by
  unfold toLowerCase
  rw [if_pos h]

theorem toLowerCase_inRange (s lower : String) (h : toLowerCase s = some lower) :
    lowerCaseInRange s = true ∧
      lower = String.mk (s.toList.map (fun c => (caseEntry c lowerCaseTable).getD c)) := by
  unfold toLowerCase at h
  by_cases hr : lowerCaseInRange s = true
  · rw [if_pos hr] at h
    exact ⟨hr, (Option.some.inj h).symm⟩
  · rw [if_neg hr] at h
    exact absurd h (by simp)

theorem toUpperCase_inRange (s upper : String) (h : toUpperCase s = some upper) :
    upper =
      String.mk (s.toList.flatMap (fun c => (caseEntry c upperCaseTable).getD [c])) := by
  unfold toUpperCase at h
  by_cases hr : upperCaseInRange s = true
  · rw [if_pos hr] at h
    exact (Option.some.inj h).symm
  · rw [if_neg hr] at h
    exact absurd h (by simp)

theorem toLowerCase_idempotent (s lower : String) (h : toLowerCase s = some lower) :
    toLowerCase lower = some lower := by
  obtain ⟨hr, hl⟩ := toLowerCase_inRange s lower h
  have hr2 : lowerCaseInRange lower = true := by
    subst hl
    unfold lowerCaseInRange at hr ⊢
    rw [List.all_eq_true] at hr ⊢
    intro c hc
    obtain ⟨c0, hc0, rfl⟩ := List.mem_map.mp hc
    exact lowerCaseChar_modelled c0 (hr c0 hc0)
  rw [toLowerCase_of_inRange lower hr2]
  subst hl
  show some (String.mk (List.map _ (List.map _ s.toList))) = some (String.mk (List.map _ s.toList))
  rw [List.map_map]
  congr 2
  apply List.map_congr_left
  intro c _
  exact lowerCaseChar_idempotent c

theorem toLowerCase_eq_empty (s lower : String) (h : toLowerCase s = some lower) :
    lower = "" ↔ s = "" := by
  obtain ⟨_, hl⟩ := toLowerCase_inRange s lower h
  subst hl
  obtain ⟨cs⟩ := s
  cases cs with
  | nil => simp
  | cons c rest =>
    constructor
    · intro h
      have := congrArg String.toList h
      simp at this
    · intro h
      have := congrArg String.toList h
      simp at this

theorem toUpperCase_eq_empty (s upper : String) (h : toUpperCase s = some upper) :
    upper = "" ↔ s = "" := by
  have hl := toUpperCase_inRange s upper h
  subst hl
  obtain ⟨cs⟩ := s
  cases cs with
  | nil => simp
  | cons c rest =>
    constructor
    · intro h
      have h2 := congrArg String.toList h
      simp only [String.toList, List.flatMap_cons] at h2
      have h3 : (caseEntry c upperCaseTable).getD [c] = [] := by
        have := List.append_eq_nil.mp h2
        exact this.1
      cases hc : caseEntry c upperCaseTable with
      | none => simp [hc] at h3
      | some v =>
        simp only [hc, Option.getD_some] at h3
        exact absurd h3
          (upperCaseTable_values_nonempty (c, v) (caseEntry_mem c v upperCaseTable hc))
    · intro h
      have := congrArg String.toList h
      simp at this

theorem reportMatches_congr (t1 t2 filterType : String) (report : Doc)
    (hempty : t1 = "" ↔ t2 = "") (hlower : toLowerCase t1 = toLowerCase t2) :
    reportMatches t1 filterType report = reportMatches t2 filterType report := by
  unfold reportMatches
  by_cases h1 : t1 = ""
  · have h2 := hempty.mp h1
    simp [h1, h2]
  · have h2 : ¬ t2 = "" := fun e => h1 (hempty.mpr e)
    simp only [beq_iff_eq, h1, h2, if_false, hlower]

theorem filteredReports_congr (st : UserReports) (t2 : String)
    (hempty : st.searchTerm = "" ↔ t2 = "")
    (hlower : toLowerCase st.searchTerm = toLowerCase t2) :
    filteredReports { st with searchTerm := t2 } = filteredReports st := by
  unfold filteredReports
  have : reportMatches t2 st.filterType = reportMatches st.searchTerm st.filterType := by
    funext report
    exact (reportMatches_congr st.searchTerm t2 st.filterType report hempty hlower).symm
  simp only [this]

theorem filterOrThrow_eq_filter (callback : Doc → Evaluated Bool) (p : Doc → Bool)
    (l : List Doc) (h : ∀ r ∈ l, callback r = Evaluated.value (p r)) :
    filterOrThrow callback l = Evaluated.value (l.filter p) := by
  induction l with
  | nil => rfl
  | cons r rs ih =>
    have hr := h r (List.mem_cons_self r rs)
    have hrs := ih (fun x hx => h x (List.mem_cons_of_mem r hx))
    simp only [filterOrThrow, hr, hrs, List.filter_cons]

theorem reportMatches_of_strings (searchTerm filterType : String) (report : Doc) (d l : String)
    (hd : getField report "details" = Val.str d) (hl : getField report "location" = Val.str l)
    (hdr : lowerCaseInRange d = true) (hlr : lowerCaseInRange l = true)
    (htr : lowerCaseInRange searchTerm = true) :
    reportMatches searchTerm filterType report =
      Evaluated.value ((searchTerm == "" ||
          containsIgnoringCase (textOf (getField report "details")) searchTerm ||
          containsIgnoringCase (textOf (getField report "location")) searchTerm) &&
        (filterType == "all" || getField report "reportType" == Val.str filterType)) := by
  have hdl := toLowerCase_of_inRange d hdr
  have hll := toLowerCase_of_inRange l hlr
  have htl := toLowerCase_of_inRange searchTerm htr
  generalize String.mk (d.toList.map (fun c => (caseEntry c lowerCaseTable).getD c)) = dl
    at hdl
  generalize String.mk (l.toList.map (fun c => (caseEntry c lowerCaseTable).getD c)) = ll
    at hll
  generalize String.mk (searchTerm.toList.map (fun c => (caseEntry c lowerCaseTable).getD c))
    = tl at htl
  unfold reportMatches containsIgnoringCase
  rw [hd, hl]
  simp only [textOf, hdl, hll, htl]
  by_cases ht : searchTerm = ""
  · simp [ht]
  · have hb : (searchTerm == "") = false := by simp [ht]
    by_cases hi : includes dl tl = true
    · simp [hb, hi]
    · simp [hb, hi]

theorem exists_text_of_isString (v : Val) (h : isString v = true) : ∃ s, v = Val.str s := by
  cases v <;> simp [isString] at h
  exact ⟨_, rfl⟩

/-- Text in another script is outside the modelled case mappings: for the Cyrillic report and
a Cyrillic search term the model gives no answer. -/
theorem cyrillic_search_not_modelled :
    toLowerCase "МОСТ" = none ∧
    reportMatches "мост" "all" exCyrillicReport = Evaluated.notModelled := by
  decide

/-- C30, refuted as stated: the report `rep-5` has details 'Straße gesperrt'.  With the search
term 'ß' it is listed; with the upper-cased form of that term, 'SS', nothing is listed, because
the lower-cased 'ss' does not occur in 'straße gesperrt'. -/
theorem search_differs_for_upper_cased_term :
    toUpperCase "ß" = some "SS" ∧
    toLowerCase "SS" = some "ss" ∧
    toLowerCase "ß" = some "ß" ∧
    filteredReports (exUserReports "ß") = Evaluated.value [exStreetReport] ∧
    filteredReports (exUserReports "SS") = Evaluated.value [] := by
  decide

/-- C30, amended: for every list of reports with string details and location, every search
term and type filter, all of them text of Basic Latin and Latin-1 (the range of the modelled
case mappings), `filteredReports` is the sub-list, in the original order, of exactly the
reports where (the term is empty, or the lower-cased details or location contains the
lower-cased term) and (the type filter is 'all' or equals reportType); with an empty term and
filter 'all' it is the whole list; the result is the same for a term and its lower-cased form,
and for its upper-cased form whenever lower-casing the upper-cased term gives the lower-cased
term. -/
theorem filteredReports_characterised (st : UserReports)
    (hstr : ∀ r ∈ st.reports, isString (getField r "details") = true ∧
      isString (getField r "location") = true)
    (hrange : ∀ r ∈ st.reports, lowerCaseInRange (textOf (getField r "details")) = true ∧
      lowerCaseInRange (textOf (getField r "location")) = true)
    (hterm : lowerCaseInRange st.searchTerm = true) :
    filteredReports st = Evaluated.value (st.reports.filter (fun r =>
      (st.searchTerm == "" ||
        containsIgnoringCase (textOf (getField r "details")) st.searchTerm ||
        containsIgnoringCase (textOf (getField r "location")) st.searchTerm) &&
      (st.filterType == "all" || getField r "reportType" == Val.str st.filterType))) ∧
    (st.searchTerm = "" → st.filterType = "all" →
      filteredReports st = Evaluated.value st.reports) ∧
    (∃ lower, toLowerCase st.searchTerm = some lower ∧
      filteredReports { st with searchTerm := lower } = filteredReports st) ∧
    (∀ upper, toUpperCase st.searchTerm = some upper →
      toLowerCase upper = toLowerCase st.searchTerm →
      filteredReports { st with searchTerm := upper } = filteredReports st) := by
  have hchar : filteredReports st = Evaluated.value (st.reports.filter (fun r =>
      (st.searchTerm == "" ||
        containsIgnoringCase (textOf (getField r "details")) st.searchTerm ||
        containsIgnoringCase (textOf (getField r "location")) st.searchTerm) &&
      (st.filterType == "all" || getField r "reportType" == Val.str st.filterType))) := by
    unfold filteredReports
    apply filterOrThrow_eq_filter
    intro r hr
    obtain ⟨d, hd⟩ := exists_text_of_isString _ (hstr r hr).1
    obtain ⟨l, hl⟩ := exists_text_of_isString _ (hstr r hr).2
    have hdr := (hrange r hr).1
    have hlr := (hrange r hr).2
    rw [hd] at hdr
    rw [hl] at hlr
    exact reportMatches_of_strings st.searchTerm st.filterType r d l hd hl hdr hlr hterm
  refine ⟨hchar, ?_, ?_, ?_⟩
  · intro ht hf
    rw [hchar, ht, hf]
    simp
  · have hlow := toLowerCase_of_inRange st.searchTerm hterm
    refine ⟨_, hlow, ?_⟩
    exact filteredReports_congr st _
      (toLowerCase_eq_empty st.searchTerm _ hlow).symm
      (hlow.trans (toLowerCase_idempotent st.searchTerm _ hlow).symm)
  · intro upper hup h
    exact filteredReports_congr st upper
      (toUpperCase_eq_empty st.searchTerm upper hup).symm h.symm

/-- The amended C30 at a concrete input: the two loaded reports and the search term 'Water',
whose upper-cased form 'WATER' lower-cases to the same 'water'; only the bridge report, in
Water Lane, is listed. -/
theorem filteredReports_characterised_witness :
    filteredReports (exUserReports "Water") =
      Evaluated.value ((exUserReports "Water").reports.filter (fun r =>
        ((exUserReports "Water").searchTerm == "" ||
          containsIgnoringCase (textOf (getField r "details"))
            (exUserReports "Water").searchTerm ||
          containsIgnoringCase (textOf (getField r "location"))
            (exUserReports "Water").searchTerm) &&
        ((exUserReports "Water").filterType == "all" ||
          getField r "reportType" == Val.str (exUserReports "Water").filterType))) ∧
    (∃ lower, toLowerCase (exUserReports "Water").searchTerm = some lower ∧
      filteredReports { exUserReports "Water" with searchTerm := lower } =
        filteredReports (exUserReports "Water")) ∧
    filteredReports { exUserReports "Water" with searchTerm := "WATER" } =
      filteredReports (exUserReports "Water") ∧
    toLowerCase "Water" = some "water" ∧
    toUpperCase "Water" = some "WATER" ∧
    filteredReports (exUserReports "Water") = Evaluated.value [exBridgeReport] :=
  ⟨(filteredReports_characterised (exUserReports "Water") (by decide) (by decide)
      (by decide)).1,
   (filteredReports_characterised (exUserReports "Water") (by decide) (by decide)
      (by decide)).2.2.1,
   (filteredReports_characterised (exUserReports "Water") (by decide) (by decide)
      (by decide)).2.2.2 "WATER" (by decide) (by decide),
   by decide, by decide, by decide⟩

end ReliefNet
